import Mathlib

/-!
# learnOpenGL demo programs: HDR, StencilTest, VisualNormal

A shallow embedding of the three demo programs `HDR.cpp`, `StencilTest.cpp`
and `VisualNormal.cpp`.  Each program is glue code over GLFW, GLAD, OpenGL,
glm and the wrapper classes `Shader`, `Camera`, `Model`, `Cube`, `Quad`.
The embedding therefore records, for every run, the sequence of calls the
program makes on those libraries (a trace of `Ev`), and threads the program
variables (globals and function statics) explicitly.

Conventions.
* Arithmetic.  The functions whose results depend on rounding (`mouseCallback`, and
  `processInput` of `HDR.cpp` with the initial values of the globals it steps) are
  written with every conversion and rounding of the source explicit
  (`mouseCallbackIn`, `processInputIn`, `State.initIn`), over an `Arith` that supplies
  the value of a `float` literal and the rounding to `float` and to `double`:
  `Arith.ieee` is the arithmetic of the machine (IEEE 754 binary32 and binary64,
  round to nearest even, as rationals), `Arith.exact` rounds nothing.
  `mouseCallback`, `processInput` and `State.init` are the instances at `Arith.exact`,
  and the programs as a whole (`main`) are run in exact arithmetic: there `float`
  and `double` values are rationals (`ℚ`) and the only place where a non-finite
  double can arise (`1000.0 / fps` in `showFPS`) uses `Dbl`.
* An `int` product is computed on 32 bits (`mulInt32`).
* Everything the libraries decide (whether `glfwInit` succeeds, which object
  names `glGen*` hands out, the time returned by `glfwGetTime`, the keys that
  are down, the events delivered by `glfwPollEvents`, how a double is printed)
  is an input: `Env` for the run, `FrameIn` for each iteration of the loop.
* A run is given a finite list of `FrameIn`; the render loop executes one
  iteration per element for as long as the window is not asked to close.
-/

namespace LearnOpenGL

/-! ## Values -/

/-- Doubles in exact arithmetic, with the IEEE results of dividing by zero. -/
inductive Dbl where
  | fin (q : ℚ)
  | inf (negative : Bool)
  | nan
deriving DecidableEq

/-- IEEE division on `Dbl` (signed zeros are not distinguished: a zero divisor
counts as `+0`). -/
def Dbl.div : Dbl → Dbl → Dbl
  | .fin a, .fin b =>
      if b = 0 then (if a = 0 then .nan else .inf (decide (a < 0))) else .fin (a / b)
  | .fin _, .inf _ => .fin 0
  | .inf s, .fin b => .inf (xor s (decide (b < 0)))
  | .inf _, .inf _ => .nan
  | .nan, _ => .nan
  | _, .nan => .nan

/-- The `int` (32 bit, two's complement) that is congruent to `n` modulo 2^32. -/
def wrapInt32 (n : Int) : Int := (n + 2 ^ 31) % 2 ^ 32 - 2 ^ 31

/-- The product of two `int`s as the compiled multiplication computes it: the
mathematical product when that is an `int`, its low 32 bits otherwise (where C++
leaves the behaviour undefined). -/
def mulInt32 (a b : Int) : Int := wrapInt32 (a * b)

/-! ## Binary floating point -/

/-- The power `2^k` for an integer `k`. -/
def pow2 (k : Int) : ℚ := if 0 ≤ k then (2 : ℚ) ^ k.toNat else 1 / (2 : ℚ) ^ (-k).toNat

/-- Floor of the binary logarithm of `n`, by halving at most `fuel` times (0 for `n < 2`). -/
def ilog2 : Nat → Nat → Nat
  | 0, _ => 0
  | fuel + 1, n => if n < 2 then 0 else ilog2 fuel (n / 2) + 1

/-- The binary exponent of `q ≠ 0`: the `e` with `2^e ≤ |q| < 2^(e+1)`. -/
def binExponent (q : ℚ) : Int :=
  let e0 : Int := (ilog2 q.num.natAbs q.num.natAbs : Int) - (ilog2 q.den q.den : Int)
  if pow2 e0 ≤ |q| then e0 else e0 - 1

/-- The integer nearest to `r`, the even one of the two when `r` lies half way. -/
def roundHalfEven (r : ℚ) : Int :=
  let n := ⌊r⌋
  let f := r - n
  if f < 1 / 2 then n else if 1 / 2 < f then n + 1 else if n % 2 = 0 then n else n + 1

/-- An IEEE 754 binary interchange format: the number of significand bits (with the
hidden one) and the least and greatest exponent of a normal number. -/
structure FloatFormat where
  precision : Nat
  emin : Int
  emax : Int

/-- The format of `float`. -/
def binary32 : FloatFormat := { precision := 24, emin := -126, emax := 127 }

/-- The format of `double`. -/
def binary64 : FloatFormat := { precision := 53, emin := -1022, emax := 1023 }

/-- The spacing of the numbers of the format around `q`: `2^(e - precision + 1)` for the
binary exponent `e` of `q`, and the spacing of the subnormal numbers below `2^emin`. -/
def FloatFormat.ulp (F : FloatFormat) (q : ℚ) : ℚ :=
  pow2 (max (binExponent q) F.emin - ((F.precision - 1 : Nat) : Int))

/-- Rounding to the format, to nearest with ties to even: the result of a conversion
to the format, and of an operation of the format on the exact result `q`.  The
value is the IEEE one whenever its magnitude is below `2^(emax + 1)`; results that
overflow to an infinity are not represented. -/
def FloatFormat.round (F : FloatFormat) (q : ℚ) : ℚ :=
  (roundHalfEven (q / F.ulp q) : ℚ) * F.ulp q

/-- The rational `q` is a finite number of the format. -/
def FloatFormat.represents (F : FloatFormat) (q : ℚ) : Prop :=
  F.round q = q ∧ |q| < pow2 (F.emax + 1)

/-- The roundings of an arithmetic: `lit32` gives the value of a `float` literal from
the decimal it is written as, `f32` is the conversion to `float` and the rounding of
every `float` operation, `f64` the same for `double`. -/
structure Arith where
  lit32 : ℚ → ℚ
  f32 : ℚ → ℚ
  f64 : ℚ → ℚ

/-- Exact arithmetic: nothing is rounded. -/
def Arith.exact : Arith := { lit32 := fun q => q, f32 := fun q => q, f64 := fun q => q }

/-- The arithmetic of the machine: `float` is binary32, `double` is binary64. -/
def Arith.ieee : Arith :=
  { lit32 := binary32.round, f32 := binary32.round, f64 := binary64.round }

/-- The arithmetic of the machine with the constants taken as exact decimals: the
`float` literals keep their decimal values, conversions and operations round. -/
def Arith.decimal : Arith :=
  { lit32 := fun q => q, f32 := binary32.round, f64 := binary64.round }

/-- The constants of `glad.h` that the three programs name. -/
inductive GLenum where
  | FRAMEBUFFER | RENDERBUFFER | TEXTURE_2D | TEXTURE0
  | RGBA16F | RGBA | FLOAT
  | TEXTURE_MIN_FILTER | TEXTURE_MAG_FILTER | LINEAR
  | COLOR_ATTACHMENT0 | DEPTH_STENCIL_ATTACHMENT | DEPTH24_STENCIL8
  | DEPTH_TEST | BLEND | STENCIL_TEST
  | SRC_ALPHA | ONE_MINUS_SRC_ALPHA
  | ALWAYS | NOTEQUAL | LESS
  | KEEP | REPLACE
  | FRONT_AND_BACK | LINE | FILL
deriving DecidableEq, Repr

/-- The bits of the `glClear` mask. -/
structure ClearMask where
  color : Bool
  depth : Bool
  stencil : Bool
deriving DecidableEq, Repr

/-- The constants of `glfw3.h` that the three programs pass to GLFW. -/
inductive GLFWconst where
  | CONTEXT_VERSION_MAJOR | CONTEXT_VERSION_MINOR
  | OPENGL_PROFILE | OPENGL_CORE_PROFILE | OPENGL_FORWARD_COMPAT
  | CURSOR | CURSOR_DISABLED
deriving DecidableEq, Repr

/-- Value argument of `glfwWindowHint`. -/
inductive HintVal where
  | num (n : Int)
  | glfw (c : GLFWconst)
  | glTrue
deriving DecidableEq, Repr

/-- The keys polled with `glfwGetKey`; `other` stands for every key that no
program polls. -/
inductive Key where
  | ESCAPE | LEFT_SHIFT | W | S | A | D | SPACE | LEFT_CONTROL | L
  | F | B | N | H
  | EQUAL | MINUS | PERIOD | COMMA | RIGHT_BRACKET | LEFT_BRACKET
  | other (code : Nat)
deriving DecidableEq, Repr

/-- Camera movement directions of `EularCamera.h`. -/
inductive Movement where
  | FORWARD | BACKWARD | LEFT | RIGHT | UP | DOWN
deriving DecidableEq, Repr

/-- A call on the global `camera` object. -/
inductive CamCall where
  | processAccerlate (accelerate : Bool)
  | processKeyboard (dir : Movement) (deltaTime : ℚ)
  | processMouse (xoffset yoffset : ℚ)
  | processScroll (yoffset : ℚ)
deriving DecidableEq

/-- The `Camera` class is external (`EularCamera.h`).  A camera is represented by
its constructor argument and the calls made on it so far: whatever the class
computes (`fov`, `position`, `front`, `getViewMatrix()`) is a function of these. -/
structure Camera where
  x0 : ℚ
  y0 : ℚ
  z0 : ℚ
  calls : List CamCall
deriving DecidableEq


/-- One `glm` transformation applied to a matrix. -/
inductive Xform where
  | translate (x y z : ℚ)
  | scale (x y z : ℚ)
deriving DecidableEq

/-- A model matrix: `glm::mat4(1.0f)` is `[]`, every `glm::translate` and
`glm::scale` appends its transformation. -/
abbrev Mat4 := List Xform

/-- The shader programs of the three demos. -/
inductive ShaderId where
  | objectShader | hdrShader | borderShader | normalVisualShader
deriving DecidableEq, Repr

/-- The drawable objects of the three demos. -/
inductive Obj where
  | objectQuad | objectCube | objectCountryhouseModel | objectNanosuitModel | objectNanosuit
deriving DecidableEq, Repr

/-- Texture kinds of `Primitives.h`. -/
inductive TexKind where
  | TEX_DIFFUSE | TEX_SPECULAR | TEX_NORMAL | TEX_HEIGHT
deriving DecidableEq, Repr

/-- Value argument of `Shader::setUniform`. -/
inductive UVal where
  | bool (b : Bool)
  | int (i : Int)
  | float (q : ℚ)
  | vec3 (x y z : ℚ)
  | cosRadians (degrees : ℚ)
  | mat (m : Mat4)
  | viewMatrix (c : Camera)
  | perspective (fovOf : Camera) (aspect near far : ℚ)
  | cameraPosition (c : Camera)
  | cameraFront (c : Camera)
deriving DecidableEq

/-- Every call the programs make on the outside world.  Pure queries
(`glfwGetTime`, `glfwGetKey`, `glfwWindowShouldClose`, `glCheckFramebufferStatus`,
the getters of `camera`) are not recorded: their results are inputs. -/
inductive Ev where
  -- standard streams and file descriptors
  | stderr (msg : String)
  | write (fd : Nat) (buf : String)
  -- GLFW and GLAD
  | glfwInit
  | glfwWindowHint (hint : GLFWconst) (value : HintVal)
  | glfwCreateWindow (width height : Int) (title : String)
  | glfwTerminate
  | glfwMakeContextCurrent
  | glfwSetCursorPosCallback
  | glfwSetScrollCallback
  | glfwSetFramebufferSizeCallback
  | gladLoadGLLoader
  | glfwSetInputMode (mode value : GLFWconst)
  | glfwSetWindowShouldClose
  | glfwSetWindowTitle (title : String)
  | glfwPollEvents
  | glfwSwapBuffers
  -- OpenGL
  | glClearColor (r g b a : ℚ)
  | glClear (mask : ClearMask)
  | glEnable (cap : GLenum)
  | glDisable (cap : GLenum)
  | glBlendFunc (sfactor dfactor : GLenum)
  | glDepthFunc (func : GLenum)
  | glStencilFunc (func : GLenum) (ref : Int) (mask : Nat)
  | glStencilOp (sfail dpfail dppass : GLenum)
  | glStencilMask (mask : Nat)
  | glPolygonMode (face mode : GLenum)
  | glViewport (x y width height : Int)
  | glActiveTexture (unit : GLenum)
  | glGenFramebuffers (name : Nat)
  | glGenTextures (name : Nat)
  | glGenRenderbuffers (name : Nat)
  | glBindFramebuffer (target : GLenum) (name : Nat)
  | glBindTexture (target : GLenum) (name : Nat)
  | glBindRenderbuffer (target : GLenum) (name : Nat)
  | glTexImage2D (target : GLenum) (level : Int) (internalformat : GLenum)
      (width height border : Int) (format type : GLenum)
  | glTexParameteri (target pname param : GLenum)
  | glFramebufferTexture2D (target attachment textarget : GLenum) (texture : Nat) (level : Int)
  | glRenderbufferStorage (target internalformat : GLenum) (width height : Int)
  | glFramebufferRenderbuffer (target attachment renderbuffertarget : GLenum) (renderbuffer : Nat)
  | glDeleteFramebuffers (name : Nat)
  | glDeleteRenderbuffers (name : Nat)
  -- wrapper classes
  | modelLoad (o : Obj) (path : String)
  | primitiveNew (o : Obj)
  | addTexture (o : Obj) (path : String) (kind : TexKind) (flag : Bool)
  | shaderLoad (sh : ShaderId) (paths : List String)
  | shaderUse (sh : ShaderId)
  | setUniform (sh : ShaderId) (name : String) (value : UVal)
  | draw (o : Obj) (sh : ShaderId)
  | camera (call : CamCall)

/-- The calls on `camera` among a sequence of calls. -/
def cameraCalls : List Ev → List CamCall
  | [] => []
  | Ev.camera k :: t => k :: cameraCalls t
  | _ :: t => cameraCalls t

/-- The camera after the calls made on it in `t`. -/
def Camera.after (c : Camera) (t : List Ev) : Camera :=
  { c with calls := c.calls ++ cameraCalls t }

/-- An event that `glfwPollEvents` hands to the program. -/
inductive InputEvent where
  | cursorPos (xpos ypos : ℚ)
  | scroll (xoffset yoffset : ℚ)
  | framebufferSize (width height : Int)
  | closeRequest
deriving DecidableEq

/-- What the outside world decides during one iteration of the render loop:
the results of the two `glfwGetTime` calls of the iteration (in call order), the
keys that are down, and the events delivered by `glfwPollEvents`. -/
structure FrameIn where
  time1 : ℚ
  time2 : ℚ
  keys : Key → Bool
  events : List InputEvent

/-- What the outside world decides for a whole run. -/
structure Env where
  /-- Whether `__APPLE__` is defined. -/
  apple : Bool
  glfwInitOk : Bool
  createWindowOk : Bool
  gladOk : Bool
  /-- Whether a shader program compiles and links. -/
  shaderOk : ShaderId → Bool
  /-- Text the shader loader reports for a failed program. -/
  shaderLog : ShaderId → String
  /-- Object names handed out by `glGenFramebuffers`, `glGenTextures`, `glGenRenderbuffers`. -/
  fboName : Nat
  tidName : Nat
  rboName : Nat
  /-- Whether `glCheckFramebufferStatus` reports `GL_FRAMEBUFFER_COMPLETE`. -/
  framebufferComplete : Bool
  /-- How `std::fixed` with `precision(3)` prints a double. -/
  fixed3 : Dbl → String
  /-- How `std::to_string` prints a float. -/
  floatToString : ℚ → String

/-- How a run ends. -/
inductive Exit where
  /-- The function `main` returned this value. -/
  | returned (code : Int)
  /-- The process was terminated before `main` returned. -/
  | terminated
  /-- The render loop is still running when the given inputs are used up. -/
  | running
deriving DecidableEq, Repr

/-- A run of `main`: the calls made before the render loop, the calls of each
executed iteration of the loop, the calls made after the loop, and the outcome. -/
structure Run where
  startup : List Ev
  frames : List (List Ev)
  shutdown : List Ev
  exit : Exit

/-- All calls of a run in order. -/
def Run.trace (r : Run) : List Ev :=
  r.startup ++ r.frames.flatten ++ r.shutdown

/-- The `while (!glfwWindowShouldClose(gWindow)) { body }` loop: `closing` reads the
close flag, `body` is one iteration.  Returns the traces of the executed
iterations, the final state, and whether the loop was left (`false`: the inputs
ran out first). -/
def renderLoop {σ : Type} (closing : σ → Bool) (body : σ → FrameIn → σ × List Ev) :
    σ → List FrameIn → List (List Ev) × σ × Bool
  | st, [] => ([], st, closing st)
  | st, f :: fs =>
      if closing st then ([], st, true)
      else
        let r := body st f
        let rest := renderLoop closing body r.1 fs
        (r.2 :: rest.1, rest.2.1, rest.2.2)

/-- The program variables at the start of iteration `i` of the render loop (those at
the end of the run when fewer than `i` inputs are given). -/
def loopState {σ : Type} (body : σ → FrameIn → σ × List Ev) : σ → List FrameIn → Nat → σ
  | st, _, 0 => st
  | st, [], _ + 1 => st
  | st, f :: fs, i + 1 => loopState body (body st f).1 fs i

/-- Modelled from the spec: the `Shader` class (`ShaderProgram.h`) is not among the
sources.  The specification says a shader compilation failure is reported to
standard error and terminates the process; so loading a program that fails
writes the report of the loader to standard error and gives `false`, which means
that the loader has terminated the process (`main` itself tests no result of the
`Shader` constructor or of `loadShaders`). -/
def Shader.load (env : Env) (sh : ShaderId) (paths : List String) : Bool × List Ev :=
  if env.shaderOk sh then (true, [Ev.shaderLoad sh paths])
  else (false, [Ev.shaderLoad sh paths, Ev.stderr (env.shaderLog sh)])

/-- The function statics of `showFPS` (the same two in each program).
`frameCount` is the `int` that counts the calls since the last title update; it
is reset at every update, and is taken unbounded here. -/
structure FPSStatics where
  previousSeconds : ℚ
  frameCount : Int
deriving DecidableEq

/-- The variables of `mouseCallback`: function statics in `HDR.cpp`, globals in
`StencilTest.cpp` and `VisualNormal.cpp`. -/
structure MouseVars where
  firstMouse : Bool
  lastX : ℚ
  lastY : ℚ
deriving DecidableEq

/-! ## The OpenGL state the programs set -/

/-- Texture-unit state: the active unit and the `GL_TEXTURE_2D` binding of each unit. -/
structure TexState where
  activeTexture : GLenum
  texture2D : GLenum → Nat

/-- The part of the OpenGL context state that the programs set and rely on. -/
structure GLState where
  /-- Name bound to `GL_FRAMEBUFFER` (0 is the default framebuffer). -/
  framebuffer : Nat
  /-- Shader program made current by the last `Shader::use()`. -/
  program : Option ShaderId
  tex : TexState
  /-- Value last given to each uniform of each shader. -/
  uniforms : ShaderId → String → Option UVal
  depthTest : Bool
  stencilTest : Bool
  blend : Bool
  stencilFunc : GLenum × Int × Nat
  stencilOp : GLenum × GLenum × GLenum
  stencilMask : Nat

/-- State after `glEnable(cap)` or `glDisable(cap)`. -/
def GLState.setCap (g : GLState) (cap : GLenum) (v : Bool) : GLState :=
  match cap with
  | .DEPTH_TEST => { g with depthTest := v }
  | .STENCIL_TEST => { g with stencilTest := v }
  | .BLEND => { g with blend := v }
  | _ => g

/-- The `Draw` methods of `Model`, `Cube` and `Quad` are external (`Model.h`,
`Primitives.h`).  A draw is taken to leave the framebuffer binding and the depth
and stencil settings alone; what it does to the texture units is a parameter. -/
abbrev DrawFx := Obj → ShaderId → TexState → TexState

/-- Effect of one call on the OpenGL state. -/
def glStep (dx : DrawFx) (g : GLState) : Ev → GLState
  | .glBindFramebuffer _ name => { g with framebuffer := name }
  | .shaderUse sh => { g with program := some sh }
  | .glActiveTexture unit => { g with tex := { g.tex with activeTexture := unit } }
  | .glBindTexture _ name =>
      { g with tex := { g.tex with
          texture2D := fun u => if u = g.tex.activeTexture then name else g.tex.texture2D u } }
  | .setUniform sh name value =>
      { g with uniforms := fun sh1 name1 =>
          if sh1 = sh ∧ name1 = name then some value else g.uniforms sh1 name1 }
  | .glEnable cap => g.setCap cap true
  | .glDisable cap => g.setCap cap false
  | .glStencilFunc func ref mask => { g with stencilFunc := (func, ref, mask) }
  | .glStencilOp sfail dpfail dppass => { g with stencilOp := (sfail, dpfail, dppass) }
  | .glStencilMask mask => { g with stencilMask := mask }
  | .draw o sh => { g with tex := dx o sh g.tex }
  | _ => g

/-- State after a sequence of calls. -/
def glExec (dx : DrawFx) (g : GLState) (t : List Ev) : GLState :=
  t.foldl (glStep dx) g

/-- A draw call together with the OpenGL state in which it is issued. -/
structure DrawSnap where
  obj : Obj
  shader : ShaderId
  gl : GLState

/-- The draw calls of a sequence of calls started in state `g`, each with the state
it is issued in. -/
def glDraws (dx : DrawFx) : GLState → List Ev → List DrawSnap
  | _, [] => []
  | g, .draw o sh :: t => { obj := o, shader := sh, gl := g } :: glDraws dx (glStep dx g (.draw o sh)) t
  | g, e :: t => glDraws dx (glStep dx g e) t

/-! ## Classes of calls -/

/-- Calls that write to a standard stream or a file descriptor. -/
def Ev.isOutput : Ev → Bool
  | .stderr _ => true
  | .write _ _ => true
  | _ => false

/-- Calls that write to standard error. -/
def Ev.isStderr : Ev → Bool
  | .stderr _ => true
  | _ => false

/-- Calls that load a model, a primitive, a texture or a shader program. -/
def Ev.isLoad : Ev → Bool
  | .modelLoad _ _ => true
  | .primitiveNew _ => true
  | .addTexture _ _ _ _ => true
  | .shaderLoad _ _ => true
  | _ => false

/-- Calls that generate a GL object name (each is a `glGen*(1, ...)` call). -/
def Ev.isGen : Ev → Bool
  | .glGenFramebuffers _ => true
  | .glGenTextures _ => true
  | .glGenRenderbuffers _ => true
  | _ => false

/-- Calls that allocate the storage of a GL object. -/
def Ev.isStorage : Ev → Bool
  | .glTexImage2D _ _ _ _ _ _ _ _ => true
  | .glRenderbufferStorage _ _ _ _ => true
  | _ => false

/-- Calls that leave the tracked OpenGL state alone: window, camera, polygon mode
and viewport calls. -/
def Ev.isInert : Ev → Bool
  | .glfwSetWindowTitle _ => true
  | .glfwSetWindowShouldClose => true
  | .glPolygonMode _ _ => true
  | .glViewport _ _ _ _ => true
  | .camera _ => true
  | _ => false

/-! ## HDR.cpp -/

namespace HDR

def APP_TITLE : String := "Advanced Lighting -- HDR"
def gWindowWidth : Int := 1280
def gWindowHeight : Int := 720

/-- The object `class FrameBuffer` with its private members. -/
structure FrameBuffer where
  width : Int
  height : Int
  fbo : Nat
  rbo : Nat
  tid : Nat
deriving DecidableEq

/-- Calls of `FrameBuffer::setup()` on an object with the given `width` and `height`;
the members `fbo`, `tid`, `rbo` receive the names GL generates, and the sizes are the
`int` products `ratio * width` and `ratio * height`. -/
def FrameBuffer.setup (env : Env) (width height : Int) : FrameBuffer × List Ev :=
  let ratio : Int := if env.apple then 2 else 1
  ({ width := width, height := height, fbo := env.fboName, rbo := env.rboName, tid := env.tidName },
   [ Ev.glGenFramebuffers env.fboName,
     Ev.glBindFramebuffer .FRAMEBUFFER env.fboName,
     Ev.glGenTextures env.tidName,
     Ev.glBindTexture .TEXTURE_2D env.tidName,
     Ev.glTexImage2D .TEXTURE_2D 0 .RGBA16F (mulInt32 ratio width) (mulInt32 ratio height) 0
       .RGBA .FLOAT,
     Ev.glTexParameteri .TEXTURE_2D .TEXTURE_MIN_FILTER .LINEAR,
     Ev.glTexParameteri .TEXTURE_2D .TEXTURE_MAG_FILTER .LINEAR,
     Ev.glFramebufferTexture2D .FRAMEBUFFER .COLOR_ATTACHMENT0 .TEXTURE_2D env.tidName 0,
     Ev.glGenRenderbuffers env.rboName,
     Ev.glBindRenderbuffer .RENDERBUFFER env.rboName,
     Ev.glRenderbufferStorage .RENDERBUFFER .DEPTH24_STENCIL8 (mulInt32 ratio width)
       (mulInt32 ratio height),
     Ev.glFramebufferRenderbuffer .FRAMEBUFFER .DEPTH_STENCIL_ATTACHMENT .RENDERBUFFER env.rboName ]
   ++ (if env.framebufferComplete then [] else [Ev.stderr "ERROR: Framebuffer is not complete!\n"])
   ++ [ Ev.glBindFramebuffer .FRAMEBUFFER 0 ])

/-- The constructor `FrameBuffer(int width, int height)`: stores the size and calls `setup()`. -/
def FrameBuffer.new (env : Env) (width height : Int) : FrameBuffer × List Ev :=
  FrameBuffer.setup env width height

/-- The destructor `~FrameBuffer()`. -/
def FrameBuffer.destroy (fb : FrameBuffer) : List Ev :=
  [ Ev.glDeleteFramebuffers fb.fbo, Ev.glDeleteRenderbuffers fb.rbo ]

/-- Calls of `FrameBuffer::Bind()`. -/
def FrameBuffer.Bind (fb : FrameBuffer) : List Ev := [ Ev.glBindFramebuffer .FRAMEBUFFER fb.fbo ]

/-- Calls of `FrameBuffer::Unbind()`. -/
def FrameBuffer.Unbind (_fb : FrameBuffer) : List Ev := [ Ev.glBindFramebuffer .FRAMEBUFFER 0 ]

/-- The accessor `FrameBuffer::TID()`. -/
def FrameBuffer.TID (fb : FrameBuffer) : Nat := fb.tid

/-- The function statics of `processInput`. -/
structure InputStatics where
  deltaTime : ℚ
  lastFrame : ℚ
  gWireframe : Bool
deriving DecidableEq

/-- The variables of the program: the close flag of `gWindow`, the globals, and
the function statics of `processInput`, `mouseCallback` and `showFPS`. -/
structure State where
  shouldClose : Bool
  camera : Camera
  use_torch : Bool
  use_blinn : Bool
  use_gamma : ℚ
  use_normal_tex : Bool
  height_scale : ℚ
  use_hdr : Bool
  use_exposure : ℚ
  input : InputStatics
  mouse : MouseVars
  fps : FPSStatics

/-- The initial values of all variables in the arithmetic `ar`: the `float` globals hold
the values of their initialisers `2.2f`, `0.1f`, `1.0f`, and `lastX`, `lastY` hold
the `int` quotients `gWindowWidth / 2`, `gWindowHeight / 2` converted to `float`. -/
def State.initIn (ar : Arith) : State :=
  { shouldClose := false
    camera := { x0 := 0, y0 := 0, z0 := 5, calls := [] }
    use_torch := true
    use_blinn := true
    use_gamma := ar.lit32 (22 / 10)
    use_normal_tex := true
    height_scale := ar.lit32 (1 / 10)
    use_hdr := true
    use_exposure := ar.lit32 1
    input := { deltaTime := 0, lastFrame := 0, gWireframe := false }
    mouse := { firstMouse := true
               lastX := ar.f32 ((gWindowWidth / 2 : Int) : ℚ)
               lastY := ar.f32 ((gWindowHeight / 2 : Int) : ℚ) }
    fps := { previousSeconds := 0, frameCount := 0 } }

/-- The initial values of all variables in exact arithmetic. -/
def State.init : State := State.initIn Arith.exact

/-- The function `initOpenGL()`: its return value and its calls. -/
def initOpenGL (env : Env) : Bool × List Ev :=
  if !env.glfwInitOk then
    (false, [ Ev.glfwInit, Ev.stderr "GLFW initialization failed\n" ])
  else
    let t1 : List Ev :=
      [ Ev.glfwInit,
        Ev.glfwWindowHint .CONTEXT_VERSION_MAJOR (.num 3),
        Ev.glfwWindowHint .CONTEXT_VERSION_MINOR (.num 3),
        Ev.glfwWindowHint .OPENGL_PROFILE (.glfw .OPENGL_CORE_PROFILE) ]
      ++ (if env.apple then [ Ev.glfwWindowHint .OPENGL_FORWARD_COMPAT .glTrue ] else [])
      ++ [ Ev.glfwCreateWindow gWindowWidth gWindowHeight APP_TITLE ]
    if !env.createWindowOk then
      (false, t1 ++ [ Ev.stderr "Failed to create GLFW window\n", Ev.glfwTerminate ])
    else
      let t2 : List Ev :=
        t1 ++ [ Ev.glfwMakeContextCurrent,
                Ev.glfwSetCursorPosCallback,
                Ev.glfwSetScrollCallback,
                Ev.glfwSetFramebufferSizeCallback,
                Ev.gladLoadGLLoader ]
      if !env.gladOk then
        (false, t2 ++ [ Ev.stderr "Failed to initialize GLAD\n" ])
      else
        (true, t2 ++ [ Ev.glClearColor (3 / 10) (3 / 10) (3 / 10) 1,
                       Ev.glEnable .DEPTH_TEST,
                       Ev.glEnable .BLEND,
                       Ev.glBlendFunc .SRC_ALPHA .ONE_MINUS_SRC_ALPHA,
                       Ev.glfwSetInputMode .CURSOR .CURSOR_DISABLED ])

/-- The `camera.processKeyboard` calls of `processInput`, in source order. -/
def keyboardCalls (keys : Key → Bool) (deltaTime : ℚ) : List CamCall :=
  (if keys .W then [ CamCall.processKeyboard .FORWARD deltaTime ] else [])
  ++ (if keys .S then [ CamCall.processKeyboard .BACKWARD deltaTime ] else [])
  ++ (if keys .A then [ CamCall.processKeyboard .LEFT deltaTime ] else [])
  ++ (if keys .D then [ CamCall.processKeyboard .RIGHT deltaTime ] else [])
  ++ (if keys .SPACE then [ CamCall.processKeyboard .UP deltaTime ] else [])
  ++ (if keys .LEFT_CONTROL then [ CamCall.processKeyboard .DOWN deltaTime ] else [])

/-- The statement `if (EQUAL pressed) use_gamma = use_gamma >= 4.0f ? 4.0f : use_gamma + 0.01f;`
of `processInput` in the arithmetic `ar`, as the value of `use_gamma` after it: the
constant `0.01f` is the `float` literal for 1/100 and the sum is a `float` sum; `4.0f`
is exact. -/
def gammaAfterEqualIn (ar : Arith) (keys : Key → Bool) (use_gamma : ℚ) : ℚ :=
  if keys .EQUAL then
    (if use_gamma ≥ 4 then 4 else ar.f32 (use_gamma + ar.lit32 (1 / 100)))
  else use_gamma

/-- The statement `if (MINUS pressed) use_gamma = use_gamma <= 1.0f ? 1.0f : use_gamma - 0.01f;`
of `processInput` in the arithmetic `ar`. -/
def gammaAfterMinusIn (ar : Arith) (keys : Key → Bool) (use_gamma : ℚ) : ℚ :=
  if keys .MINUS then
    (if use_gamma ≤ 1 then 1 else ar.f32 (use_gamma - ar.lit32 (1 / 100)))
  else use_gamma

/-- The statement `if (PERIOD pressed) height_scale = height_scale >= 1.0f ? 1.0f : height_scale + 0.0005f;`
of `processInput` in the arithmetic `ar`. -/
def heightAfterPeriodIn (ar : Arith) (keys : Key → Bool) (height_scale : ℚ) : ℚ :=
  if keys .PERIOD then
    (if height_scale ≥ 1 then 1 else ar.f32 (height_scale + ar.lit32 (5 / 10000)))
  else height_scale

/-- The statement `if (COMMA pressed) height_scale = height_scale <= 0.0f ? 0.0f : height_scale - 0.0005f;`
of `processInput` in the arithmetic `ar`. -/
def heightAfterCommaIn (ar : Arith) (keys : Key → Bool) (height_scale : ℚ) : ℚ :=
  if keys .COMMA then
    (if height_scale ≤ 0 then 0 else ar.f32 (height_scale - ar.lit32 (5 / 10000)))
  else height_scale

/-- The statement `if (RIGHT_BRACKET pressed) use_exposure = use_exposure >= 5.0f ? 5.0f : use_exposure + 0.01f;`
of `processInput` in the arithmetic `ar`. -/
def exposureAfterRightBracketIn (ar : Arith) (keys : Key → Bool) (use_exposure : ℚ) : ℚ :=
  if keys .RIGHT_BRACKET then
    (if use_exposure ≥ 5 then 5 else ar.f32 (use_exposure + ar.lit32 (1 / 100)))
  else use_exposure

/-- The statement `if (LEFT_BRACKET pressed) use_exposure = use_exposure <= 0.0f ? 0.0f : use_exposure - 0.01f;`
of `processInput` in the arithmetic `ar`. -/
def exposureAfterLeftBracketIn (ar : Arith) (keys : Key → Bool) (use_exposure : ℚ) : ℚ :=
  if keys .LEFT_BRACKET then
    (if use_exposure ≤ 0 then 0 else ar.f32 (use_exposure - ar.lit32 (1 / 100)))
  else use_exposure

/-- The function `processInput(window)` in the arithmetic `ar`: `keys` says which keys
`glfwGetKey` reports as pressed and `now` is the result of its `glfwGetTime()` call,
which `currentFrame` holds converted to `float`; `deltaTime` is a `float`
difference.  Each variable is given its value after the call; the statements that
assign it are independent of the others, except that the two statements of each of
`use_gamma`, `height_scale`, `use_exposure` run one after the other. -/
def processInputIn (ar : Arith) (keys : Key → Bool) (now : ℚ) (s : State) : State × List Ev :=
  let currentFrame := ar.f32 now
  let deltaTime := ar.f32 (currentFrame - s.input.lastFrame)
  let camCalls := CamCall.processAccerlate (keys .LEFT_SHIFT) :: keyboardCalls keys deltaTime
  let gWireframe := if keys .L then !s.input.gWireframe else s.input.gWireframe
  let gamma1 := gammaAfterEqualIn ar keys s.use_gamma
  let gamma2 := gammaAfterMinusIn ar keys gamma1
  let height1 := heightAfterPeriodIn ar keys s.height_scale
  let height2 := heightAfterCommaIn ar keys height1
  let exposure1 := exposureAfterRightBracketIn ar keys s.use_exposure
  let exposure2 := exposureAfterLeftBracketIn ar keys exposure1
  ({ s with
      shouldClose := if keys .ESCAPE then true else s.shouldClose
      camera := { s.camera with calls := s.camera.calls ++ camCalls }
      input := { deltaTime := deltaTime, lastFrame := currentFrame, gWireframe := gWireframe }
      use_torch := if keys .F then !s.use_torch else s.use_torch
      use_blinn := if keys .B then !s.use_blinn else s.use_blinn
      use_normal_tex := if keys .N then !s.use_normal_tex else s.use_normal_tex
      use_hdr := if keys .H then !s.use_hdr else s.use_hdr
      use_gamma := gamma2
      height_scale := height2
      use_exposure := exposure2 },
   (if keys .ESCAPE then [ Ev.glfwSetWindowShouldClose ] else [])
   ++ camCalls.map Ev.camera
   ++ (if keys .L then
         [ Ev.glPolygonMode .FRONT_AND_BACK (if gWireframe then .LINE else .FILL) ]
       else []))

/-- The statement on GLFW_KEY_EQUAL in exact arithmetic. -/
def gammaAfterEqual (keys : Key → Bool) (use_gamma : ℚ) : ℚ :=
  gammaAfterEqualIn Arith.exact keys use_gamma

/-- The statement on GLFW_KEY_MINUS in exact arithmetic. -/
def gammaAfterMinus (keys : Key → Bool) (use_gamma : ℚ) : ℚ :=
  gammaAfterMinusIn Arith.exact keys use_gamma

/-- The statement on GLFW_KEY_PERIOD in exact arithmetic. -/
def heightAfterPeriod (keys : Key → Bool) (height_scale : ℚ) : ℚ :=
  heightAfterPeriodIn Arith.exact keys height_scale

/-- The statement on GLFW_KEY_COMMA in exact arithmetic. -/
def heightAfterComma (keys : Key → Bool) (height_scale : ℚ) : ℚ :=
  heightAfterCommaIn Arith.exact keys height_scale

/-- The statement on GLFW_KEY_RIGHT_BRACKET in exact arithmetic. -/
def exposureAfterRightBracket (keys : Key → Bool) (use_exposure : ℚ) : ℚ :=
  exposureAfterRightBracketIn Arith.exact keys use_exposure

/-- The statement on GLFW_KEY_LEFT_BRACKET in exact arithmetic. -/
def exposureAfterLeftBracket (keys : Key → Bool) (use_exposure : ℚ) : ℚ :=
  exposureAfterLeftBracketIn Arith.exact keys use_exposure

/-- The function `processInput(window)` in exact arithmetic. -/
def processInput (keys : Key → Bool) (now : ℚ) (s : State) : State × List Ev :=
  processInputIn Arith.exact keys now s

/-- The function `mouseCallback(window, xpos, ypos)` on `firstMouse`, `lastX`, `lastY`, in
the arithmetic `ar`: `xpos` and `ypos` are doubles, `lastX` and `lastY` are floats, so
the assignments `lastX = xpos` convert to `float`, and each difference is taken in
`double` (the float operand is promoted) and converted to `float` when it
initialises `xoffset`, `yoffset`. -/
def mouseCallbackIn (ar : Arith) (xpos ypos : ℚ) (m : MouseVars) : MouseVars × List Ev :=
  let m1 : MouseVars :=
    if m.firstMouse then { firstMouse := false, lastX := ar.f32 xpos, lastY := ar.f32 ypos }
    else m
  let xoffset := ar.f32 (ar.f64 (xpos - m1.lastX))
  let yoffset := ar.f32 (ar.f64 (m1.lastY - ypos))
  ({ m1 with lastX := ar.f32 xpos, lastY := ar.f32 ypos },
   [ Ev.camera (.processMouse xoffset yoffset) ])

/-- The function `mouseCallback(window, xpos, ypos)` in exact arithmetic. -/
def mouseCallback (xpos ypos : ℚ) (m : MouseVars) : MouseVars × List Ev :=
  mouseCallbackIn Arith.exact xpos ypos m

/-- The function `scrollCallback(window, xoffset, yoffset)`. -/
def scrollCallback (_xoffset yoffset : ℚ) : List Ev :=
  [ Ev.camera (.processScroll yoffset) ]

/-- The function `glfw_onFramebufferSize(window, width, height)`. -/
def glfw_onFramebufferSize (width height : Int) : List Ev :=
  [ Ev.glViewport 0 0 width height ]

/-- The function `showFPS(window)`; `now` is the result of its `glfwGetTime()` call. -/
def showFPS (env : Env) (now : ℚ) (st : FPSStatics) : FPSStatics × List Ev :=
  let elapsedSeconds := now - st.previousSeconds
  let r : FPSStatics × List Ev :=
    if elapsedSeconds > 1 / 4 then
      let fps := Dbl.div (.fin st.frameCount) (.fin elapsedSeconds)
      let msPerFrame := Dbl.div (.fin 1000) fps
      ({ previousSeconds := now, frameCount := 0 },
       [ Ev.glfwSetWindowTitle
           (APP_TITLE ++ "    " ++ "FPS: " ++ env.fixed3 fps ++ "    "
             ++ "Frame Time: " ++ env.fixed3 msPerFrame ++ " (ms)") ])
    else (st, [])
  ({ r.1 with frameCount := r.1.frameCount + 1 }, r.2)

/-- The callback GLFW invokes for one event during `glfwPollEvents`.  A close request
sets the close flag of the window (no callback is registered for it). -/
def dispatch (s : State) : InputEvent → State × List Ev
  | .cursorPos xpos ypos =>
      let r := mouseCallback xpos ypos s.mouse
      ({ s with mouse := r.1, camera := s.camera.after r.2 }, r.2)
  | .scroll xoffset yoffset =>
      let t := scrollCallback xoffset yoffset
      ({ s with camera := s.camera.after t }, t)
  | .framebufferSize width height => (s, glfw_onFramebufferSize width height)
  | .closeRequest => ({ s with shouldClose := true }, [])

/-- The callbacks run by one `glfwPollEvents()` call, for the events it delivers. -/
def pollEvents : List InputEvent → State → State × List Ev
  | [], s => (s, [])
  | e :: es, s =>
      let r := dispatch s e
      let rest := pollEvents es r.1
      (rest.1, r.2 ++ rest.2)

/-- The positions of the four point lights (`pointLightPos`). -/
def pointLightPos : List UVal :=
  [ .vec3 0 0 (495 / 10), .vec3 (-14 / 10) (-19 / 10) 9, .vec3 0 (-18 / 10) 4, .vec3 (8 / 10) (-17 / 10) 6 ]

/-- The colours of the four point lights (`pointLightColors`). -/
def pointLightColors : List UVal :=
  [ .vec3 200 200 200, .vec3 (1 / 10) 0 0, .vec3 0 0 (2 / 10), .vec3 0 (1 / 10) 0 ]

/-- The body of the `for (int i=0; i<4; i++)` loop that configures point light `i`. -/
def pointLightConfig (i : Nat) : List Ev :=
  let name (field : String) : String := "uPointLights[" ++ toString i ++ "]." ++ field
  [ Ev.setUniform .objectShader (name "position") (pointLightPos.getD i (.vec3 0 0 0)),
    Ev.setUniform .objectShader (name "ambient") (.vec3 0 0 0),
    Ev.setUniform .objectShader (name "diffuse") (pointLightColors.getD i (.vec3 0 0 0)),
    Ev.setUniform .objectShader (name "specular") (pointLightColors.getD i (.vec3 0 0 0)),
    Ev.setUniform .objectShader (name "constant") (.float 1),
    Ev.setUniform .objectShader (name "linear") (.float (9 / 100)),
    Ev.setUniform .objectShader (name "quadratic") (.float (32 / 1000)) ]

/-- The light configuration `main` sends to `objectShader` before the loop. -/
def lightConfig : List Ev :=
  [ Ev.shaderUse .objectShader,
    Ev.setUniform .objectShader "uDirectionalLight.direction" (.vec3 1 (-1) 0),
    Ev.setUniform .objectShader "uDirectionalLight.ambient" (.vec3 0 0 0),
    Ev.setUniform .objectShader "uDirectionalLight.diffuse" (.vec3 0 0 0),
    Ev.setUniform .objectShader "uDirectionalLight.specular" (.vec3 0 0 0) ]
  ++ pointLightConfig 0 ++ pointLightConfig 1 ++ pointLightConfig 2 ++ pointLightConfig 3
  ++ [ Ev.setUniform .objectShader "uSpotLight.innerCutOff" (.cosRadians (125 / 10)),
       Ev.setUniform .objectShader "uSpotLight.outerCutOff" (.cosRadians (175 / 10)),
       Ev.setUniform .objectShader "uSpotLight.ambient" (.vec3 0 0 0),
       Ev.setUniform .objectShader "uSpotLight.diffuse" (.vec3 1 1 1),
       Ev.setUniform .objectShader "uSpotLight.specular" (.vec3 1 1 1),
       Ev.setUniform .objectShader "uSpotLight.constant" (.float 1),
       Ev.setUniform .objectShader "uSpotLight.linear" (.float (9 / 100)),
       Ev.setUniform .objectShader "uSpotLight.quadratic" (.float (32 / 1000)) ]

/-- The value `aspect` of `main`. -/
def aspect : ℚ := (gWindowWidth : ℚ) / (gWindowHeight : ℚ)

/-- The first pass of an iteration: the scene rendered into the floating point
framebuffer, with the variables as they stand after `processInput`. -/
def scenePass (fb : FrameBuffer) (s : State) : List Ev :=
  fb.Bind
  ++ [ Ev.glClear { color := true, depth := true, stencil := false },
       Ev.shaderUse .objectShader,
       Ev.setUniform .objectShader "uEnableBlinn" (.bool s.use_blinn),
       Ev.setUniform .objectShader "uEnableTorch" (.bool s.use_torch),
       Ev.setUniform .objectShader "uEnableNormal" (.bool s.use_normal_tex),
       Ev.setUniform .objectShader "uGamma" (.float s.use_gamma),
       Ev.setUniform .objectShader "uHeightScale" (.float s.height_scale),
       Ev.setUniform .objectShader "uReverseNormal" (.bool true),
       Ev.setUniform .objectShader "uView" (.viewMatrix s.camera),
       Ev.setUniform .objectShader "uProjection" (.perspective s.camera aspect (1 / 10) 100),
       Ev.setUniform .objectShader "uCameraPos" (.cameraPosition s.camera),
       Ev.setUniform .objectShader "uSpotLight.position" (.cameraPosition s.camera),
       Ev.setUniform .objectShader "uSpotLight.direction" (.cameraFront s.camera),
       Ev.shaderUse .objectShader,
       Ev.setUniform .objectShader "uModel" (.mat [ .translate 0 0 25, .scale 5 5 55 ]),
       Ev.draw .objectCube .objectShader ]
  ++ fb.Unbind

/-- The second pass of an iteration: the colour buffer drawn on a quad into the
default framebuffer. -/
def tonemapPass (fb : FrameBuffer) (s : State) : List Ev :=
  [ Ev.glClear { color := true, depth := true, stencil := false },
    Ev.shaderUse .hdrShader,
    Ev.glActiveTexture .TEXTURE0,
    Ev.glBindTexture .TEXTURE_2D fb.TID,
    Ev.setUniform .hdrShader "uHDRBuffer" (.int 0),
    Ev.setUniform .hdrShader "uHDR" (.bool s.use_hdr),
    Ev.setUniform .hdrShader "uExposure" (.float s.use_exposure),
    Ev.draw .objectQuad .hdrShader ]

/-- One iteration of the render loop of `main`. -/
def frame (env : Env) (fb : FrameBuffer) (s : State) (f : FrameIn) : State × List Ev :=
  let r1 := showFPS env f.time1 s.fps
  let r2 := processInput f.keys f.time2 { s with fps := r1.1 }
  let s2 := r2.1
  let information := " HDR : " ++ env.floatToString s2.use_exposure ++ "\t\t\r"
  let r3 := pollEvents f.events s2
  (r3.1,
   r1.2 ++ r2.2 ++ [ Ev.write 0 information ]
   ++ scenePass fb s2 ++ tonemapPass fb s2
   ++ [ Ev.glfwPollEvents ] ++ r3.2 ++ [ Ev.glfwSwapBuffers ])

/-- The objects `main` creates before the shaders. -/
def createObjects : List Ev :=
  [ Ev.primitiveNew .objectQuad,
    Ev.primitiveNew .objectCube,
    Ev.addTexture .objectCube "Resources/default/wood.png" .TEX_DIFFUSE true,
    Ev.addTexture .objectCube "Resources/default/wood.png" .TEX_SPECULAR true,
    Ev.addTexture .objectCube "Resources/default/toy_box_normal.png" .TEX_NORMAL false,
    Ev.addTexture .objectCube "Resources/default/toy_box_disp.png" .TEX_HEIGHT false ]

/-- The program `main()` of `HDR.cpp`, run on the given inputs. -/
def main (env : Env) (inputs : List FrameIn) : Run :=
  let r0 := initOpenGL env
  if !r0.1 then
    { startup := r0.2 ++ [ Ev.stderr "GLFW initialization failed\n" ]
      frames := [], shutdown := [], exit := .returned (-1) }
  else
    let fb := FrameBuffer.new env gWindowWidth gWindowHeight
    let sh1 := Shader.load env .objectShader [ "shaders/hdrLighting.vert", "shaders/hdrLighting.frag" ]
    if !sh1.1 then
      { startup := r0.2 ++ fb.2 ++ createObjects ++ sh1.2
        frames := [], shutdown := [], exit := .terminated }
    else
      let sh2 := Shader.load env .hdrShader [ "shaders/hdr.vert", "shaders/hdr.frag" ]
      if !sh2.1 then
        { startup := r0.2 ++ fb.2 ++ createObjects ++ sh1.2 ++ sh2.2
          frames := [], shutdown := [], exit := .terminated }
      else
        let lp := renderLoop (fun s => s.shouldClose) (frame env fb.1) State.init inputs
        { startup := r0.2 ++ fb.2 ++ createObjects ++ sh1.2 ++ sh2.2 ++ lightConfig
          frames := lp.1
          shutdown := if lp.2.2 then Ev.glfwTerminate :: fb.1.destroy else []
          exit := if lp.2.2 then .returned 0 else .running }

end HDR

/-! ## StencilTest.cpp -/

namespace StencilTest

def APP_TITLE : String := "Advanced OpenGL - Stencil Test"
def gWindowWidth : Int := 800
def gWindowHeight : Int := 600

/-- The variables of the program: the close flag of `gWindow`, the globals, and
the function statics of `showFPS`. -/
structure State where
  shouldClose : Bool
  gWireframe : Bool
  camera : Camera
  mouse : MouseVars
  deltaTime : ℚ
  lastFrame : ℚ
  fps : FPSStatics

/-- The initial values of all variables. -/
def State.init : State :=
  { shouldClose := false
    gWireframe := false
    camera := { x0 := 0, y0 := 0, z0 := 30, calls := [] }
    mouse := { firstMouse := true, lastX := ((gWindowWidth / 2 : Int) : ℚ), lastY := ((gWindowHeight / 2 : Int) : ℚ) }
    deltaTime := 0
    lastFrame := 0
    fps := { previousSeconds := 0, frameCount := 0 } }

/-- The function `initOpenGL()`: its return value and its calls. -/
def initOpenGL (env : Env) : Bool × List Ev :=
  if !env.glfwInitOk then
    (false, [ Ev.glfwInit, Ev.stderr "GLFW initialization failed\n" ])
  else
    let t1 : List Ev :=
      [ Ev.glfwInit,
        Ev.glfwWindowHint .CONTEXT_VERSION_MAJOR (.num 3),
        Ev.glfwWindowHint .CONTEXT_VERSION_MINOR (.num 3),
        Ev.glfwWindowHint .OPENGL_PROFILE (.glfw .OPENGL_CORE_PROFILE) ]
      ++ (if env.apple then [ Ev.glfwWindowHint .OPENGL_FORWARD_COMPAT .glTrue ] else [])
      ++ [ Ev.glfwCreateWindow gWindowWidth gWindowHeight APP_TITLE ]
    if !env.createWindowOk then
      (false, t1 ++ [ Ev.stderr "Failed to create GLFW window\n", Ev.glfwTerminate ])
    else
      let t2 : List Ev :=
        t1 ++ [ Ev.glfwMakeContextCurrent,
                Ev.glfwSetCursorPosCallback,
                Ev.glfwSetScrollCallback,
                Ev.glfwSetFramebufferSizeCallback,
                Ev.gladLoadGLLoader ]
      if !env.gladOk then
        (false, t2 ++ [ Ev.stderr "Failed to initialize GLAD\n" ])
      else
        (true, t2 ++ [ Ev.glClearColor (3 / 10) (3 / 10) (3 / 10) 1,
                       Ev.glEnable .DEPTH_TEST,
                       Ev.glDepthFunc .LESS,
                       Ev.glEnable .STENCIL_TEST,
                       Ev.glStencilFunc .NOTEQUAL 1 0xFF,
                       Ev.glStencilOp .KEEP .KEEP .REPLACE,
                       Ev.glfwSetInputMode .CURSOR .CURSOR_DISABLED ])

/-- The `camera.processKeyboard` calls of `processInput`, in source order. -/
def keyboardCalls (keys : Key → Bool) (deltaTime : ℚ) : List CamCall :=
  (if keys .W then [ CamCall.processKeyboard .FORWARD deltaTime ] else [])
  ++ (if keys .S then [ CamCall.processKeyboard .BACKWARD deltaTime ] else [])
  ++ (if keys .A then [ CamCall.processKeyboard .LEFT deltaTime ] else [])
  ++ (if keys .D then [ CamCall.processKeyboard .RIGHT deltaTime ] else [])
  ++ (if keys .SPACE then [ CamCall.processKeyboard .UP deltaTime ] else [])
  ++ (if keys .LEFT_CONTROL then [ CamCall.processKeyboard .DOWN deltaTime ] else [])

/-- The function `processInput(window)`: `keys` says which keys `glfwGetKey` reports as
pressed; `deltaTime` is the global set by `main`. -/
def processInput (keys : Key → Bool) (s : State) : State × List Ev :=
  let camCalls := CamCall.processAccerlate (keys .LEFT_SHIFT) :: keyboardCalls keys s.deltaTime
  let gWireframe := if keys .L then !s.gWireframe else s.gWireframe
  ({ s with
      shouldClose := if keys .ESCAPE then true else s.shouldClose
      camera := { s.camera with calls := s.camera.calls ++ camCalls }
      gWireframe := gWireframe },
   (if keys .ESCAPE then [ Ev.glfwSetWindowShouldClose ] else [])
   ++ camCalls.map Ev.camera
   ++ (if keys .L then
         [ Ev.glPolygonMode .FRONT_AND_BACK (if gWireframe then .LINE else .FILL) ]
       else []))

/-- The function `mouseCallback(window, xpos, ypos)` on `firstMouse`, `lastX`, `lastY`, in
the arithmetic `ar`: `xpos` and `ypos` are doubles, `lastX` and `lastY` are floats, so
the assignments `lastX = xpos` convert to `float`, and each difference is taken in
`double` (the float operand is promoted) and converted to `float` when it
initialises `xoffset`, `yoffset`. -/
def mouseCallbackIn (ar : Arith) (xpos ypos : ℚ) (m : MouseVars) : MouseVars × List Ev :=
  let m1 : MouseVars :=
    if m.firstMouse then { firstMouse := false, lastX := ar.f32 xpos, lastY := ar.f32 ypos }
    else m
  let xoffset := ar.f32 (ar.f64 (xpos - m1.lastX))
  let yoffset := ar.f32 (ar.f64 (m1.lastY - ypos))
  ({ m1 with lastX := ar.f32 xpos, lastY := ar.f32 ypos },
   [ Ev.camera (.processMouse xoffset yoffset) ])

/-- The function `mouseCallback(window, xpos, ypos)` in exact arithmetic. -/
def mouseCallback (xpos ypos : ℚ) (m : MouseVars) : MouseVars × List Ev :=
  mouseCallbackIn Arith.exact xpos ypos m

/-- The function `scrollCallback(window, xoffset, yoffset)`. -/
def scrollCallback (_xoffset yoffset : ℚ) : List Ev :=
  [ Ev.camera (.processScroll yoffset) ]

/-- The function `glfw_onFramebufferSize(window, width, height)`. -/
def glfw_onFramebufferSize (width height : Int) : List Ev :=
  [ Ev.glViewport 0 0 width height ]

/-- The function `showFPS(window)`; `now` is the result of its `glfwGetTime()` call. -/
def showFPS (env : Env) (now : ℚ) (st : FPSStatics) : FPSStatics × List Ev :=
  let elapsedSeconds := now - st.previousSeconds
  let r : FPSStatics × List Ev :=
    if elapsedSeconds > 1 / 4 then
      let fps := Dbl.div (.fin st.frameCount) (.fin elapsedSeconds)
      let msPerFrame := Dbl.div (.fin 1000) fps
      ({ previousSeconds := now, frameCount := 0 },
       [ Ev.glfwSetWindowTitle
           (APP_TITLE ++ "    " ++ "FPS: " ++ env.fixed3 fps ++ "    "
             ++ "Frame Time: " ++ env.fixed3 msPerFrame ++ " (ms)") ])
    else (st, [])
  ({ r.1 with frameCount := r.1.frameCount + 1 }, r.2)

/-- The callback GLFW invokes for one event during `glfwPollEvents`.  A close request
sets the close flag of the window (no callback is registered for it). -/
def dispatch (s : State) : InputEvent → State × List Ev
  | .cursorPos xpos ypos =>
      let r := mouseCallback xpos ypos s.mouse
      ({ s with mouse := r.1, camera := s.camera.after r.2 }, r.2)
  | .scroll xoffset yoffset =>
      let t := scrollCallback xoffset yoffset
      ({ s with camera := s.camera.after t }, t)
  | .framebufferSize width height => (s, glfw_onFramebufferSize width height)
  | .closeRequest => ({ s with shouldClose := true }, [])

/-- The callbacks run by one `glfwPollEvents()` call, for the events it delivers. -/
def pollEvents : List InputEvent → State → State × List Ev
  | [], s => (s, [])
  | e :: es, s =>
      let r := dispatch s e
      let rest := pollEvents es r.1
      (rest.1, r.2 ++ rest.2)

/-- The light configuration `main` sends to `objectShader` before the loop. -/
def lightConfig : List Ev :=
  [ Ev.shaderUse .objectShader,
    Ev.setUniform .objectShader "uDirectionalLight.direction" (.vec3 1 (-1) 0),
    Ev.setUniform .objectShader "uDirectionalLight.ambient" (.vec3 (5 / 10) (5 / 10) (5 / 10)),
    Ev.setUniform .objectShader "uDirectionalLight.diffuse" (.vec3 1 1 1),
    Ev.setUniform .objectShader "uDirectionalLight.specular" (.vec3 1 1 1),
    Ev.setUniform .objectShader "uSpotLight.innerCutOff" (.cosRadians (125 / 10)),
    Ev.setUniform .objectShader "uSpotLight.outerCutOff" (.cosRadians (175 / 10)),
    Ev.setUniform .objectShader "uSpotLight.ambient" (.vec3 0 0 0),
    Ev.setUniform .objectShader "uSpotLight.diffuse" (.vec3 1 1 1),
    Ev.setUniform .objectShader "uSpotLight.specular" (.vec3 1 1 1),
    Ev.setUniform .objectShader "uSpotLight.constant" (.float 1),
    Ev.setUniform .objectShader "uSpotLight.linear" (.float (9 / 100)),
    Ev.setUniform .objectShader "uSpotLight.quadratic" (.float (32 / 1000)) ]

/-- The value `width_height_ratio` of `main`. -/
def width_height_ratio : ℚ := (gWindowWidth : ℚ) / (gWindowHeight : ℚ)

/-- The country house drawn without writing the stencil buffer. -/
def drawCountryHouse : List Ev :=
  [ Ev.glStencilMask 0x00,
    Ev.shaderUse .objectShader,
    Ev.setUniform .objectShader "uModel" (.mat [ .translate 5 (-5) 10, .scale (1 / 1000) (1 / 1000) (1 / 1000) ]),
    Ev.draw .objectCountryhouseModel .objectShader ]

/-- The nanosuit drawn while writing the stencil buffer. -/
def drawNanosuit : List Ev :=
  [ Ev.glStencilFunc .ALWAYS 1 0xFF,
    Ev.glStencilMask 0xFF,
    Ev.shaderUse .objectShader,
    Ev.setUniform .objectShader "uModel" (.mat [ .translate (-7) (-45 / 10) 12, .scale (2 / 10) (2 / 10) (2 / 10) ]),
    Ev.draw .objectNanosuitModel .objectShader ]

/-- The slightly enlarged nanosuit drawn where the stencil buffer is not 1. -/
def drawBorder : List Ev :=
  [ Ev.glStencilFunc .NOTEQUAL 1 0xFF,
    Ev.glStencilMask 0x00,
    Ev.glDisable .DEPTH_TEST,
    Ev.shaderUse .borderShader,
    Ev.setUniform .borderShader "uModel"
      (.mat [ .translate (-7) (-45 / 10) 12, .scale (201 / 1000) (201 / 1000) (201 / 1000) ]),
    Ev.draw .objectNanosuitModel .borderShader ]

/-- The calls of an iteration between `processInput` and `glfwPollEvents`, with the
variables as they stand after `processInput`. -/
def render (s : State) : List Ev :=
  [ Ev.glClearColor (3 / 10) (3 / 10) (3 / 10) 1,
    Ev.glClear { color := true, depth := true, stencil := true },
    Ev.shaderUse .objectShader,
    Ev.setUniform .objectShader "uView" (.viewMatrix s.camera),
    Ev.setUniform .objectShader "uProjection" (.perspective s.camera width_height_ratio (1 / 10) 100),
    Ev.setUniform .objectShader "uCameraPos" (.cameraPosition s.camera),
    Ev.setUniform .objectShader "uSpotLight.position" (.cameraPosition s.camera),
    Ev.setUniform .objectShader "uSpotLight.direction" (.cameraFront s.camera),
    Ev.shaderUse .borderShader,
    Ev.setUniform .borderShader "uView" (.viewMatrix s.camera),
    Ev.setUniform .borderShader "uProjection" (.perspective s.camera width_height_ratio (1 / 10) 100) ]
  ++ drawCountryHouse ++ drawNanosuit ++ drawBorder
  ++ [ Ev.glStencilMask 0xFF, Ev.glEnable .DEPTH_TEST ]

/-- One iteration of the render loop of `main`. -/
def frame (env : Env) (s : State) (f : FrameIn) : State × List Ev :=
  let s0 := { s with deltaTime := f.time1 - s.lastFrame, lastFrame := f.time1 }
  let r1 := showFPS env f.time2 s0.fps
  let r2 := processInput f.keys { s0 with fps := r1.1 }
  let s2 := r2.1
  let r3 := pollEvents f.events s2
  (r3.1, r1.2 ++ r2.2 ++ render s2 ++ [ Ev.glfwPollEvents ] ++ r3.2 ++ [ Ev.glfwSwapBuffers ])

/-- The models `main` loads before the shaders. -/
def loadModels : List Ev :=
  [ Ev.modelLoad .objectCountryhouseModel "Resources/CountryHouse/house.obj",
    Ev.modelLoad .objectNanosuitModel "Resources/nanosuit/nanosuit.obj" ]

/-- The program `main()` of `StencilTest.cpp`, run on the given inputs. -/
def main (env : Env) (inputs : List FrameIn) : Run :=
  let r0 := initOpenGL env
  if !r0.1 then
    { startup := r0.2 ++ [ Ev.stderr "GLFW initialization failed\n" ]
      frames := [], shutdown := [], exit := .returned (-1) }
  else
    let sh1 := Shader.load env .objectShader [ "shaders/stencilTest.vert", "shaders/stencilTest.frag" ]
    if !sh1.1 then
      { startup := r0.2 ++ loadModels ++ sh1.2
        frames := [], shutdown := [], exit := .terminated }
    else
      let sh2 := Shader.load env .borderShader
        [ "shaders/stencilTest.vert", "shaders/stencilTestSingleColor.frag" ]
      if !sh2.1 then
        { startup := r0.2 ++ loadModels ++ sh1.2 ++ sh2.2
          frames := [], shutdown := [], exit := .terminated }
      else
        let lp := renderLoop (fun s => s.shouldClose) (frame env) State.init inputs
        { startup := r0.2 ++ loadModels ++ sh1.2 ++ sh2.2 ++ lightConfig
          frames := lp.1
          shutdown := if lp.2.2 then [ Ev.glfwTerminate ] else []
          exit := if lp.2.2 then .returned 0 else .running }

end StencilTest

/-! ## VisualNormal.cpp -/

namespace VisualNormal

def APP_TITLE : String := "Advanced OpenGL - Demo"
def gWindowWidth : Int := 800
def gWindowHeight : Int := 600

/-- The variables of the program: the close flag of `gWindow`, the globals, and
the function statics of `processInput` (`gWireframe`) and `showFPS`. -/
structure State where
  shouldClose : Bool
  gWireframe : Bool
  camera : Camera
  mouse : MouseVars
  deltaTime : ℚ
  lastFrame : ℚ
  fps : FPSStatics

/-- The initial values of all variables. -/
def State.init : State :=
  { shouldClose := false
    gWireframe := false
    camera := { x0 := 0, y0 := 0, z0 := 3, calls := [] }
    mouse := { firstMouse := true, lastX := ((gWindowWidth / 2 : Int) : ℚ), lastY := ((gWindowHeight / 2 : Int) : ℚ) }
    deltaTime := 0
    lastFrame := 0
    fps := { previousSeconds := 0, frameCount := 0 } }

/-- The function `initOpenGL()`: its return value and its calls. -/
def initOpenGL (env : Env) : Bool × List Ev :=
  if !env.glfwInitOk then
    (false, [ Ev.glfwInit, Ev.stderr "GLFW initialization failed\n" ])
  else
    let t1 : List Ev :=
      [ Ev.glfwInit,
        Ev.glfwWindowHint .CONTEXT_VERSION_MAJOR (.num 3),
        Ev.glfwWindowHint .CONTEXT_VERSION_MINOR (.num 3),
        Ev.glfwWindowHint .OPENGL_PROFILE (.glfw .OPENGL_CORE_PROFILE) ]
      ++ (if env.apple then [ Ev.glfwWindowHint .OPENGL_FORWARD_COMPAT .glTrue ] else [])
      ++ [ Ev.glfwCreateWindow gWindowWidth gWindowHeight APP_TITLE ]
    if !env.createWindowOk then
      (false, t1 ++ [ Ev.stderr "Failed to create GLFW window\n", Ev.glfwTerminate ])
    else
      let t2 : List Ev :=
        t1 ++ [ Ev.glfwMakeContextCurrent,
                Ev.glfwSetCursorPosCallback,
                Ev.glfwSetScrollCallback,
                Ev.glfwSetFramebufferSizeCallback,
                Ev.gladLoadGLLoader ]
      if !env.gladOk then
        (false, t2 ++ [ Ev.stderr "Failed to initialize GLAD\n" ])
      else
        (true, t2 ++ [ Ev.glClearColor (3 / 10) (3 / 10) (3 / 10) 1,
                       Ev.glEnable .DEPTH_TEST,
                       Ev.glEnable .BLEND,
                       Ev.glBlendFunc .SRC_ALPHA .ONE_MINUS_SRC_ALPHA,
                       Ev.glfwSetInputMode .CURSOR .CURSOR_DISABLED ])

/-- The `camera.processKeyboard` calls of `processInput`, in source order. -/
def keyboardCalls (keys : Key → Bool) (deltaTime : ℚ) : List CamCall :=
  (if keys .W then [ CamCall.processKeyboard .FORWARD deltaTime ] else [])
  ++ (if keys .S then [ CamCall.processKeyboard .BACKWARD deltaTime ] else [])
  ++ (if keys .A then [ CamCall.processKeyboard .LEFT deltaTime ] else [])
  ++ (if keys .D then [ CamCall.processKeyboard .RIGHT deltaTime ] else [])
  ++ (if keys .SPACE then [ CamCall.processKeyboard .UP deltaTime ] else [])
  ++ (if keys .LEFT_CONTROL then [ CamCall.processKeyboard .DOWN deltaTime ] else [])

/-- The function `processInput(window)`: `keys` says which keys `glfwGetKey` reports as
pressed; `deltaTime` is the global set by `main`. -/
def processInput (keys : Key → Bool) (s : State) : State × List Ev :=
  let camCalls := CamCall.processAccerlate (keys .LEFT_SHIFT) :: keyboardCalls keys s.deltaTime
  let gWireframe := if keys .L then !s.gWireframe else s.gWireframe
  ({ s with
      shouldClose := if keys .ESCAPE then true else s.shouldClose
      camera := { s.camera with calls := s.camera.calls ++ camCalls }
      gWireframe := gWireframe },
   (if keys .ESCAPE then [ Ev.glfwSetWindowShouldClose ] else [])
   ++ camCalls.map Ev.camera
   ++ (if keys .L then
         [ Ev.glPolygonMode .FRONT_AND_BACK (if gWireframe then .LINE else .FILL) ]
       else []))

/-- The function `mouseCallback(window, xpos, ypos)` on `firstMouse`, `lastX`, `lastY`, in
the arithmetic `ar`: `xpos` and `ypos` are doubles, `lastX` and `lastY` are floats, so
the assignments `lastX = xpos` convert to `float`, and each difference is taken in
`double` (the float operand is promoted) and converted to `float` when it
initialises `xoffset`, `yoffset`. -/
def mouseCallbackIn (ar : Arith) (xpos ypos : ℚ) (m : MouseVars) : MouseVars × List Ev :=
  let m1 : MouseVars :=
    if m.firstMouse then { firstMouse := false, lastX := ar.f32 xpos, lastY := ar.f32 ypos }
    else m
  let xoffset := ar.f32 (ar.f64 (xpos - m1.lastX))
  let yoffset := ar.f32 (ar.f64 (m1.lastY - ypos))
  ({ m1 with lastX := ar.f32 xpos, lastY := ar.f32 ypos },
   [ Ev.camera (.processMouse xoffset yoffset) ])

/-- The function `mouseCallback(window, xpos, ypos)` in exact arithmetic. -/
def mouseCallback (xpos ypos : ℚ) (m : MouseVars) : MouseVars × List Ev :=
  mouseCallbackIn Arith.exact xpos ypos m

/-- The function `scrollCallback(window, xoffset, yoffset)`. -/
def scrollCallback (_xoffset yoffset : ℚ) : List Ev :=
  [ Ev.camera (.processScroll yoffset) ]

/-- The function `glfw_onFramebufferSize(window, width, height)`. -/
def glfw_onFramebufferSize (width height : Int) : List Ev :=
  [ Ev.glViewport 0 0 width height ]

/-- The function `showFPS(window)`; `now` is the result of its `glfwGetTime()` call. -/
def showFPS (env : Env) (now : ℚ) (st : FPSStatics) : FPSStatics × List Ev :=
  let elapsedSeconds := now - st.previousSeconds
  let r : FPSStatics × List Ev :=
    if elapsedSeconds > 1 / 4 then
      let fps := Dbl.div (.fin st.frameCount) (.fin elapsedSeconds)
      let msPerFrame := Dbl.div (.fin 1000) fps
      ({ previousSeconds := now, frameCount := 0 },
       [ Ev.glfwSetWindowTitle
           (APP_TITLE ++ "    " ++ "FPS: " ++ env.fixed3 fps ++ "    "
             ++ "Frame Time: " ++ env.fixed3 msPerFrame ++ " (ms)") ])
    else (st, [])
  ({ r.1 with frameCount := r.1.frameCount + 1 }, r.2)

/-- The callback GLFW invokes for one event during `glfwPollEvents`.  A close request
sets the close flag of the window (no callback is registered for it). -/
def dispatch (s : State) : InputEvent → State × List Ev
  | .cursorPos xpos ypos =>
      let r := mouseCallback xpos ypos s.mouse
      ({ s with mouse := r.1, camera := s.camera.after r.2 }, r.2)
  | .scroll xoffset yoffset =>
      let t := scrollCallback xoffset yoffset
      ({ s with camera := s.camera.after t }, t)
  | .framebufferSize width height => (s, glfw_onFramebufferSize width height)
  | .closeRequest => ({ s with shouldClose := true }, [])

/-- The callbacks run by one `glfwPollEvents()` call, for the events it delivers. -/
def pollEvents : List InputEvent → State → State × List Ev
  | [], s => (s, [])
  | e :: es, s =>
      let r := dispatch s e
      let rest := pollEvents es r.1
      (rest.1, r.2 ++ rest.2)

/-- The light configuration `main` sends to `objectShader` before the loop. -/
def lightConfig : List Ev :=
  [ Ev.shaderUse .objectShader,
    Ev.setUniform .objectShader "uDirectionalLight.direction" (.vec3 1 (-1) 0),
    Ev.setUniform .objectShader "uDirectionalLight.ambient" (.vec3 (5 / 10) (5 / 10) (5 / 10)),
    Ev.setUniform .objectShader "uDirectionalLight.diffuse" (.vec3 1 1 1),
    Ev.setUniform .objectShader "uDirectionalLight.specular" (.vec3 1 1 1),
    Ev.setUniform .objectShader "uSpotLight.innerCutOff" (.cosRadians (125 / 10)),
    Ev.setUniform .objectShader "uSpotLight.outerCutOff" (.cosRadians (175 / 10)),
    Ev.setUniform .objectShader "uSpotLight.ambient" (.vec3 0 0 0),
    Ev.setUniform .objectShader "uSpotLight.diffuse" (.vec3 1 1 1),
    Ev.setUniform .objectShader "uSpotLight.specular" (.vec3 1 1 1),
    Ev.setUniform .objectShader "uSpotLight.constant" (.float 1),
    Ev.setUniform .objectShader "uSpotLight.linear" (.float (9 / 100)),
    Ev.setUniform .objectShader "uSpotLight.quadratic" (.float (32 / 1000)) ]

/-- The value `width_height_ratio` of `main`. -/
def width_height_ratio : ℚ := (gWindowWidth : ℚ) / (gWindowHeight : ℚ)

/-- The projection `main` sends to both shaders before the loop. -/
def projectionConfig (s : State) : List Ev :=
  [ Ev.shaderUse .objectShader,
    Ev.setUniform .objectShader "uProjection" (.perspective s.camera width_height_ratio (1 / 10) 100),
    Ev.shaderUse .normalVisualShader,
    Ev.setUniform .normalVisualShader "uProjection" (.perspective s.camera width_height_ratio (1 / 10) 100) ]

/-- The calls of an iteration between `processInput` and `glfwPollEvents`, with the
variables as they stand after `processInput`. -/
def render (s : State) : List Ev :=
  [ Ev.glClear { color := true, depth := true, stencil := false },
    Ev.shaderUse .objectShader,
    Ev.setUniform .objectShader "uView" (.viewMatrix s.camera),
    Ev.setUniform .objectShader "uCameraPos" (.cameraPosition s.camera),
    Ev.setUniform .objectShader "uSpotLight.position" (.cameraPosition s.camera),
    Ev.setUniform .objectShader "uSpotLight.direction" (.cameraFront s.camera),
    Ev.shaderUse .objectShader,
    Ev.setUniform .objectShader "uModel" (.mat [ .translate 0 (-10) (-20) ]),
    Ev.draw .objectNanosuit .objectShader,
    Ev.shaderUse .normalVisualShader,
    Ev.setUniform .normalVisualShader "uModel" (.mat [ .translate 0 (-10) (-20) ]),
    Ev.setUniform .normalVisualShader "uView" (.viewMatrix s.camera),
    Ev.draw .objectNanosuit .normalVisualShader ]

/-- One iteration of the render loop of `main`. -/
def frame (env : Env) (s : State) (f : FrameIn) : State × List Ev :=
  let s0 := { s with deltaTime := f.time1 - s.lastFrame, lastFrame := f.time1 }
  let r1 := showFPS env f.time2 s0.fps
  let r2 := processInput f.keys { s0 with fps := r1.1 }
  let s2 := r2.1
  let r3 := pollEvents f.events s2
  (r3.1, r1.2 ++ r2.2 ++ render s2 ++ [ Ev.glfwPollEvents ] ++ r3.2 ++ [ Ev.glfwSwapBuffers ])

/-- The model `main` loads before the shaders. -/
def loadModels : List Ev :=
  [ Ev.modelLoad .objectNanosuit "Resources/nanosuit/nanosuit.obj" ]

/-- The program `main()` of `VisualNormal.cpp`, run on the given inputs. -/
def main (env : Env) (inputs : List FrameIn) : Run :=
  let r0 := initOpenGL env
  if !r0.1 then
    { startup := r0.2 ++ [ Ev.stderr "GLFW initialization failed\n" ]
      frames := [], shutdown := [], exit := .returned (-1) }
  else
    let sh1 := Shader.load env .objectShader [ "shaders/demo.vert", "shaders/demo.frag" ]
    if !sh1.1 then
      { startup := r0.2 ++ loadModels ++ sh1.2
        frames := [], shutdown := [], exit := .terminated }
    else
      let sh2 := Shader.load env .normalVisualShader
        [ "shaders/visualnormal.vert", "shaders/visualnormal.frag", "shaders/visualnormal.geom" ]
      if !sh2.1 then
        { startup := r0.2 ++ loadModels ++ sh1.2 ++ sh2.2
          frames := [], shutdown := [], exit := .terminated }
      else
        let lp := renderLoop (fun s => s.shouldClose) (frame env) State.init inputs
        { startup := r0.2 ++ loadModels ++ sh1.2 ++ sh2.2 ++ lightConfig ++ projectionConfig State.init
          frames := lp.1
          shutdown := if lp.2.2 then [ Ev.glfwTerminate ] else []
          exit := if lp.2.2 then .returned 0 else .running }

end VisualNormal

/-! ## Contracts stated once for the three programs -/

/-- The contract of C1 for one program: what `initOpenGL` and `main` do when a step
of the initialisation fails, and what `initOpenGL` returns when none fails. -/
def InitContract (initOpenGL : Env → Bool × List Ev) (main : Env → List FrameIn → Run) : Prop :=
  ∀ (env : Env) (inputs : List FrameIn),
    ((env.glfwInitOk = false ∨ env.createWindowOk = false ∨ env.gladOk = false) →
      (initOpenGL env).1 = false
      ∧ (initOpenGL env).2.any Ev.isStderr = true
      ∧ (main env inputs).exit = Exit.returned (-1)
      ∧ (main env inputs).frames = []
      ∧ (main env inputs).trace.any Ev.isLoad = false
      ∧ (main env inputs).trace.any Ev.isGen = false)
    ∧ ((env.glfwInitOk = true ∧ env.createWindowOk = true ∧ env.gladOk = true) →
      (initOpenGL env).1 = true)

/-- The contract of C2 for one program whose shader programs are `sh1` and `sh2`:
when one of them fails to load, no iteration of the render loop is executed; if
the initialisation had succeeded, the failure of the first failing program is
reported on standard error and the process is terminated. -/
def ShaderContract (sh1 sh2 : ShaderId) (initOpenGL : Env → Bool × List Ev)
    (main : Env → List FrameIn → Run) : Prop :=
  ∀ (env : Env) (inputs : List FrameIn),
    (env.shaderOk sh1 = false ∨ env.shaderOk sh2 = false) →
      (main env inputs).frames = []
      ∧ ((initOpenGL env).1 = true →
          (main env inputs).exit = Exit.terminated
          ∧ ∃ sh, (sh = sh1 ∨ sh = sh2) ∧ env.shaderOk sh = false
              ∧ Ev.stderr (env.shaderLog sh) ∈ (main env inputs).startup)

/-- The contract of C6 (as amended) for one program: the title given at window
creation is `APP_TITLE`, and every title `showFPS` sets is `APP_TITLE` followed by
the frame statistics. -/
def TitleContract (APP_TITLE : String) (initOpenGL : Env → Bool × List Ev)
    (showFPS : Env → ℚ → FPSStatics → FPSStatics × List Ev) : Prop :=
  ∀ (env : Env),
    (∀ (width height : Int) (title : String),
        Ev.glfwCreateWindow width height title ∈ (initOpenGL env).2 → title = APP_TITLE)
    ∧ (∀ (now : ℚ) (st : FPSStatics) (title : String),
        Ev.glfwSetWindowTitle title ∈ (showFPS env now st).2 →
          ∃ stats : String, title = APP_TITLE ++ "    FPS: " ++ stats)

/-! ## Sequences of `showFPS` calls -/

/-- The function statics of `showFPS` at program start. -/
def FPSStatics.init : FPSStatics := { previousSeconds := 0, frameCount := 0 }

/-- The statics of `showFPS` after calls at the given times (`step` is the function
`showFPS` of one program). -/
def fpsState (step : ℚ → FPSStatics → FPSStatics × List Ev) (st : FPSStatics) (ts : List ℚ) :
    FPSStatics :=
  ts.foldl (fun s t => (step t s).1) st

/-- The history of a sequence of `showFPS` calls: for each call, oldest first, its time
and the calls it made on the window. -/
def fpsHistory (step : ℚ → FPSStatics → FPSStatics × List Ev) :
    FPSStatics → List ℚ → List (ℚ × List Ev)
  | _, [] => []
  | st, t :: ts => (t, (step t st).2) :: fpsHistory step (step t st).1 ts

/-- Whether a call updated the title. -/
def titleUpdated (out : List Ev) : Bool :=
  out.any (fun e => match e with
    | .glfwSetWindowTitle _ => true
    | _ => false)

/-- In a history given latest call first: the number of calls from the last call that
updated the title (inclusive) to the end; all calls when none updated it. -/
def callsSinceUpdateRev : List (ℚ × List Ev) → Nat
  | [] => 0
  | (_, out) :: older => if titleUpdated out then 1 else callsSinceUpdateRev older + 1

/-- In a history given latest call first: the time of the last call that updated the
title; 0 when none did. -/
def lastUpdateTimeRev : List (ℚ × List Ev) → ℚ
  | [] => 0
  | (t, out) :: older => if titleUpdated out then t else lastUpdateTimeRev older

/-- The number of calls from the previous updating call (inclusive; from program start
when there is none) up to the end of the history. -/
def callsSinceUpdate (h : List (ℚ × List Ev)) : Nat := callsSinceUpdateRev h.reverse

/-- The time of the previous title update (0 when there is none). -/
def lastUpdateTime (h : List (ℚ × List Ev)) : ℚ := lastUpdateTimeRev h.reverse

/-- The times of the calls that updated the title, oldest first. -/
def updateTimes (h : List (ℚ × List Ev)) : List ℚ :=
  (h.filter (fun c => titleUpdated c.2)).map (fun c => c.1)

/-- The contract of C9 for one program: consecutive title updates are more than a
quarter of a second apart, no closed interval of one second contains more than
four of them, and a call at most a quarter of a second after the last update
sets no title and only increments the frame counter. -/
def RateContract (showFPS : Env → ℚ → FPSStatics → FPSStatics × List Ev) : Prop :=
  ∀ (env : Env) (ts : List ℚ),
    List.Chain' (fun a b : ℚ => b - a > 1 / 4)
        (updateTimes (fpsHistory (showFPS env) FPSStatics.init ts))
    ∧ (∀ a : ℚ,
        ((updateTimes (fpsHistory (showFPS env) FPSStatics.init ts)).filter
          (fun u => decide (a ≤ u ∧ u ≤ a + 1))).length ≤ 4)
    ∧ (∀ now : ℚ,
        now - lastUpdateTime (fpsHistory (showFPS env) FPSStatics.init ts) ≤ 1 / 4 →
          showFPS env now (fpsState (showFPS env) FPSStatics.init ts)
            = ({ fpsState (showFPS env) FPSStatics.init ts with
                  frameCount := (fpsState (showFPS env) FPSStatics.init ts).frameCount + 1 }, []))

/-- The common text of the three copies of `showFPS`, for a given `APP_TITLE`. -/
def showFPSCommon (APP_TITLE : String) (env : Env) (now : ℚ) (st : FPSStatics) :
    FPSStatics × List Ev :=
  let elapsedSeconds := now - st.previousSeconds
  let r : FPSStatics × List Ev :=
    if elapsedSeconds > 1 / 4 then
      let fps := Dbl.div (.fin st.frameCount) (.fin elapsedSeconds)
      let msPerFrame := Dbl.div (.fin 1000) fps
      ({ previousSeconds := now, frameCount := 0 },
       [ Ev.glfwSetWindowTitle
           (APP_TITLE ++ "    " ++ "FPS: " ++ env.fixed3 fps ++ "    "
             ++ "Frame Time: " ++ env.fixed3 msPerFrame ++ " (ms)") ])
    else (st, [])
  ({ r.1 with frameCount := r.1.frameCount + 1 }, r.2)

/-- The `FrameBuffer` object that `main` of `HDR.cpp` creates. -/
def HDR.frameBuffer (env : Env) : HDR.FrameBuffer :=
  (HDR.FrameBuffer.new env HDR.gWindowWidth HDR.gWindowHeight).1

/-- The variables of `HDR.cpp` at the start of iteration `i` of the render loop. -/
def HDR.stateAt (env : Env) (inputs : List FrameIn) (i : Nat) : HDR.State :=
  loopState (HDR.frame env (HDR.frameBuffer env)) HDR.State.init inputs i

/-- The variables of `StencilTest.cpp` at the start of iteration `i` of the render loop. -/
def StencilTest.stateAt (env : Env) (inputs : List FrameIn) (i : Nat) : StencilTest.State :=
  loopState (StencilTest.frame env) StencilTest.State.init inputs i

/-- The variables of `VisualNormal.cpp` at the start of iteration `i` of the render loop. -/
def VisualNormal.stateAt (env : Env) (inputs : List FrameIn) (i : Nat) : VisualNormal.State :=
  loopState (VisualNormal.frame env) VisualNormal.State.init inputs i

/-! ## Sample inputs -/

/-- A sample environment in which every library call succeeds.  Its `fixed3` prints the
doubles that occur in the sample runs (0, 4, 250 and infinity), its `floatToString`
the one float printed in them (1). -/
def sampleEnv : Env :=
  { apple := false
    glfwInitOk := true
    createWindowOk := true
    gladOk := true
    shaderOk := fun _ => true
    shaderLog := fun _ => "ERROR: shader program failed to compile or link\n"
    fboName := 1
    tidName := 2
    rboName := 3
    framebufferComplete := true
    fixed3 := fun d =>
      if d = .fin 0 then "0.000" else if d = .fin 4 then "4.000"
      else if d = .fin 250 then "250.000" else if d = .inf false then "inf" else "nan"
    floatToString := fun _ => "1.000000" }

/-- The state of a freshly created OpenGL context (the initial values of the OpenGL
specification; the stencil masks are all ones). -/
def GLState.initial : GLState :=
  { framebuffer := 0
    program := none
    tex := { activeTexture := .TEXTURE0, texture2D := fun _ => 0 }
    uniforms := fun _ _ => none
    depthTest := false
    stencilTest := false
    blend := false
    stencilFunc := (.ALWAYS, 0, 0xFFFFFFFF)
    stencilOp := (.KEEP, .KEEP, .KEEP)
    stencilMask := 0xFFFFFFFF }

/-- A sample draw effect: draws leave the texture units as they are. -/
def sampleDraw : DrawFx := fun _ _ t => t

/-- A sample frame input: no key down, no event. -/
def sampleFrame : FrameIn :=
  { time1 := 1, time2 := 1, keys := fun _ => false, events := [] }

/-- A sample environment in which window creation fails. -/
def noWindowEnv : Env := { sampleEnv with createWindowOk := false }

/-- A sample environment in which `hdrShader` fails to compile. -/
def badShaderEnv : Env :=
  { sampleEnv with shaderOk := fun sh => decide (sh ≠ ShaderId.hdrShader) }


/-! ## Definitions for the invariants of StencilTest -/

/-- The `glClear` calls of a sequence of calls started in state `g`, each with its mask
and the OpenGL state it is issued in. -/
def glClears (dx : DrawFx) : GLState → List Ev → List (ClearMask × GLState)
  | _, [] => []
  | g, .glClear mask :: t => (mask, g) :: glClears dx (glStep dx g (.glClear mask)) t
  | g, e :: t => glClears dx (glStep dx g e) t

/-- Calls of `glClear`. -/
def Ev.isClear : Ev → Bool
  | .glClear _ => true
  | _ => false

/-- The configuration C11 names: stencil function (GL_NOTEQUAL, 1, 0xFF), stencil
operation (GL_KEEP, GL_KEEP, GL_REPLACE), stencil write mask 0xFF, depth and
stencil testing enabled. -/
def StencilConfigured (g : GLState) : Prop :=
  g.stencilFunc = (.NOTEQUAL, 1, 0xFF) ∧ g.stencilOp = (.KEEP, .KEEP, .REPLACE)
  ∧ g.stencilMask = 0xFF ∧ g.depthTest = true ∧ g.stencilTest = true

/-! ## Definitions for the boilerplate callbacks -/

/-- One call of a boilerplate function, with what the outside world supplies: the
result of `glfwGetTime` for `showFPS`, the arguments for the three callbacks. -/
inductive BoilerCall where
  | showFPS (now : ℚ)
  | mouseCallback (xpos ypos : ℚ)
  | scrollCallback (xoffset yoffset : ℚ)
  | glfw_onFramebufferSize (width height : Int)

/-- The four boilerplate functions of one program and the initial values of the
variables of `mouseCallback`. -/
structure Boilerplate where
  showFPS : Env → ℚ → FPSStatics → FPSStatics × List Ev
  mouseCallback : ℚ → ℚ → MouseVars → MouseVars × List Ev
  scrollCallback : ℚ → ℚ → List Ev
  glfw_onFramebufferSize : Int → Int → List Ev
  mouseInit : MouseVars

/-- The boilerplate of `HDR.cpp`. -/
def HDR.boilerplate : Boilerplate :=
  { showFPS := HDR.showFPS
    mouseCallback := HDR.mouseCallback
    scrollCallback := HDR.scrollCallback
    glfw_onFramebufferSize := HDR.glfw_onFramebufferSize
    mouseInit := HDR.State.init.mouse }

/-- The boilerplate of `StencilTest.cpp`. -/
def StencilTest.boilerplate : Boilerplate :=
  { showFPS := StencilTest.showFPS
    mouseCallback := StencilTest.mouseCallback
    scrollCallback := StencilTest.scrollCallback
    glfw_onFramebufferSize := StencilTest.glfw_onFramebufferSize
    mouseInit := StencilTest.State.init.mouse }

/-- The boilerplate of `VisualNormal.cpp`. -/
def VisualNormal.boilerplate : Boilerplate :=
  { showFPS := VisualNormal.showFPS
    mouseCallback := VisualNormal.mouseCallback
    scrollCallback := VisualNormal.scrollCallback
    glfw_onFramebufferSize := VisualNormal.glfw_onFramebufferSize
    mouseInit := VisualNormal.State.init.mouse }

/-- The calls issued by a sequence of boilerplate calls, from the given values of the
variables of `mouseCallback` and `showFPS`. -/
def Boilerplate.run (b : Boilerplate) (env : Env) : MouseVars → FPSStatics → List BoilerCall → List Ev
  | _, _, [] => []
  | m, st, .showFPS now :: cs =>
      (b.showFPS env now st).2 ++ Boilerplate.run b env m (b.showFPS env now st).1 cs
  | m, st, .mouseCallback xpos ypos :: cs =>
      (b.mouseCallback xpos ypos m).2 ++ Boilerplate.run b env (b.mouseCallback xpos ypos m).1 st cs
  | m, st, .scrollCallback xoffset yoffset :: cs =>
      b.scrollCallback xoffset yoffset ++ Boilerplate.run b env m st cs
  | m, st, .glfw_onFramebufferSize width height :: cs =>
      b.glfw_onFramebufferSize width height ++ Boilerplate.run b env m st cs

/-- The calls a program issues for a sequence of boilerplate calls made from program
start. -/
def Boilerplate.trace (b : Boilerplate) (env : Env) (cs : List BoilerCall) : List Ev :=
  b.run env b.mouseInit FPSStatics.init cs

/-- Two calls are the same up to the `APP_TITLE` constants `A` and `B`: either both set
the window title, to `A` and to `B` followed by the same text, or they are the same
call and it is not a title call. -/
def SameCallUpToTitle (A B : String) (e1 e2 : Ev) : Prop :=
  (∃ stats : String, e1 = Ev.glfwSetWindowTitle (A ++ stats) ∧ e2 = Ev.glfwSetWindowTitle (B ++ stats))
  ∨ (e1 = e2 ∧ titleUpdated [e1] = false)

/-- Two sequences of calls are the same, call by call, up to the `APP_TITLE` constants. -/
def SameUpToTitle (A B : String) (t1 t2 : List Ev) : Prop :=
  List.Forall₂ (SameCallUpToTitle A B) t1 t2

/-- The offsets passed to `camera.processMouse` in a sequence of calls. -/
def mouseOffsets : List Ev → List (ℚ × ℚ)
  | [] => []
  | Ev.camera (.processMouse xoffset yoffset) :: t => (xoffset, yoffset) :: mouseOffsets t
  | _ :: t => mouseOffsets t

/-- A sequence of `mouseCallback` calls for the given cursor positions: the final
variables and the calls issued. -/
def mouseRun (mouseCallback : ℚ → ℚ → MouseVars → MouseVars × List Ev) :
    MouseVars → List (ℚ × ℚ) → MouseVars × List Ev
  | m, [] => (m, [])
  | m, p :: ps =>
      ((mouseRun mouseCallback (mouseCallback p.1 p.2 m).1 ps).1,
       (mouseCallback p.1 p.2 m).2 ++ (mouseRun mouseCallback (mouseCallback p.1 p.2 m).1 ps).2)

/-- The contract of C14 for the `mouseCallback` of one program, whose variables start
as `init`: the offset passed to `camera.processMouse` is taken from the position
of the previous callback, with the y component reversed; it is (0, 0) at the first
callback; after every callback `lastX`, `lastY` hold the position of that callback
and `firstMouse` is false. -/
def MouseContract (mouseCallback : ℚ → ℚ → MouseVars → MouseVars × List Ev)
    (init : MouseVars) : Prop :=
  (∀ (xpos ypos : ℚ) (m : MouseVars),
      (m.firstMouse = false →
        (mouseCallback xpos ypos m).2
          = [ Ev.camera (.processMouse (xpos - m.lastX) (m.lastY - ypos)) ])
      ∧ (m.firstMouse = true →
        (mouseCallback xpos ypos m).2 = [ Ev.camera (.processMouse 0 0) ])
      ∧ (mouseCallback xpos ypos m).1 = { firstMouse := false, lastX := xpos, lastY := ypos })
  ∧ (∀ xpos ypos : ℚ, (mouseCallback xpos ypos init).2 = [ Ev.camera (.processMouse 0 0) ])
  ∧ (∀ (ps : List (ℚ × ℚ)) (prev : ℚ × ℚ) (xpos ypos : ℚ),
      (mouseCallback xpos ypos (mouseRun mouseCallback init (ps ++ [prev])).1).2
        = [ Ev.camera (.processMouse (xpos - prev.1) (prev.2 - ypos)) ])

/-- The contract of `mouseCallback` in the arithmetic of the machine, for positions and
variables of magnitude at most `2^126` (so that no conversion overflows): after every
callback `lastX`, `lastY` hold the position of that callback rounded to `float` and
`firstMouse` is false; the offset passed to `camera.processMouse` is the difference
to the previous rounded position, taken in `double` and rounded to `float`, with the
y component reversed; at the first callback the previous position is the rounded
current one, so the offset is (0, 0) when the position is representable in
`float`. -/
def MouseContractIeee (mouseCallbackIn : Arith → ℚ → ℚ → MouseVars → MouseVars × List Ev)
    (init : MouseVars) : Prop :=
  (∀ (xpos ypos : ℚ) (m : MouseVars),
      |xpos| ≤ pow2 126 → |ypos| ≤ pow2 126 → |m.lastX| ≤ pow2 126 → |m.lastY| ≤ pow2 126 →
      (mouseCallbackIn Arith.ieee xpos ypos m).1
          = { firstMouse := false, lastX := binary32.round xpos, lastY := binary32.round ypos }
      ∧ (m.firstMouse = false →
          (mouseCallbackIn Arith.ieee xpos ypos m).2
            = [ Ev.camera (.processMouse
                  (binary32.round (binary64.round (xpos - m.lastX)))
                  (binary32.round (binary64.round (m.lastY - ypos)))) ])
      ∧ (m.firstMouse = true →
          (mouseCallbackIn Arith.ieee xpos ypos m).2
            = [ Ev.camera (.processMouse
                  (binary32.round (binary64.round (xpos - binary32.round xpos)))
                  (binary32.round (binary64.round (binary32.round ypos - ypos)))) ])
      ∧ (m.firstMouse = true → binary32.represents xpos → binary32.represents ypos →
          (mouseCallbackIn Arith.ieee xpos ypos m).2 = [ Ev.camera (.processMouse 0 0) ]
          ∧ (mouseCallbackIn Arith.ieee xpos ypos m).1
              = { firstMouse := false, lastX := xpos, lastY := ypos }))
  ∧ (∀ xpos ypos : ℚ, binary32.represents xpos → binary32.represents ypos →
      (mouseCallbackIn Arith.ieee xpos ypos init).2 = [ Ev.camera (.processMouse 0 0) ])
  ∧ (∀ (ps : List (ℚ × ℚ)) (prev : ℚ × ℚ) (xpos ypos : ℚ),
      |xpos| ≤ pow2 126 → |ypos| ≤ pow2 126 → |prev.1| ≤ pow2 126 → |prev.2| ≤ pow2 126 →
      (mouseCallbackIn Arith.ieee xpos ypos
          (mouseRun (mouseCallbackIn Arith.ieee) init (ps ++ [prev])).1).2
        = [ Ev.camera (.processMouse
              (binary32.round (binary64.round (xpos - binary32.round prev.1)))
              (binary32.round (binary64.round (binary32.round prev.2 - ypos)))) ])

/-- The contract of C20 for the `mouseCallback` of one program: for the cursor positions
`first :: rest` delivered from the start, whatever `lastX` and `lastY` were, the x
offsets passed to `camera.processMouse` sum to the last x minus the first x and the
y offsets to the first y minus the last y. -/
def TelescopeContract (mouseCallback : ℚ → ℚ → MouseVars → MouseVars × List Ev) : Prop :=
  ∀ (lastX lastY : ℚ) (first : ℚ × ℚ) (rest : List (ℚ × ℚ)),
    ((mouseOffsets
        (mouseRun mouseCallback { firstMouse := true, lastX := lastX, lastY := lastY }
          (first :: rest)).2).map Prod.fst).sum
      = (rest.getLastD first).1 - first.1
    ∧ ((mouseOffsets
        (mouseRun mouseCallback { firstMouse := true, lastX := lastX, lastY := lastY }
          (first :: rest)).2).map Prod.snd).sum
      = first.2 - (rest.getLastD first).2

/-! ## The GL objects of `FrameBuffer` -/

/-- The GL objects that the calls of `class FrameBuffer` create and configure: the live
object names of each kind, the current bindings, the storage each texture and
renderbuffer was given (internal format, width, height), and what is attached to
each attachment point of each framebuffer.  The store records what each call
specifies; the validation GL applies to sizes is not modelled.  `FrameBuffer` never
calls `glActiveTexture`, so one `GL_TEXTURE_2D` binding is tracked. -/
structure ObjStore where
  framebuffers : List Nat
  textures : List Nat
  renderbuffers : List Nat
  boundFramebuffer : Nat
  boundTexture : Nat
  boundRenderbuffer : Nat
  texImage : Nat → Option (GLenum × Int × Int)
  rbStorage : Nat → Option (GLenum × Int × Int)
  attachment : Nat → GLenum → Option (GLenum × Nat)

/-- A context without any object. -/
def ObjStore.empty : ObjStore :=
  { framebuffers := [], textures := [], renderbuffers := []
    boundFramebuffer := 0, boundTexture := 0, boundRenderbuffer := 0
    texImage := fun _ => none, rbStorage := fun _ => none, attachment := fun _ _ => none }

/-- Effect of one call on the GL objects. -/
def objStep (s : ObjStore) : Ev → ObjStore
  | .glGenFramebuffers name => { s with framebuffers := name :: s.framebuffers }
  | .glGenTextures name => { s with textures := name :: s.textures }
  | .glGenRenderbuffers name => { s with renderbuffers := name :: s.renderbuffers }
  | .glBindFramebuffer _ name => { s with boundFramebuffer := name }
  | .glBindTexture _ name => { s with boundTexture := name }
  | .glBindRenderbuffer _ name => { s with boundRenderbuffer := name }
  | .glTexImage2D _ _ internalformat width height _ _ _ =>
      { s with texImage := fun t =>
          if t = s.boundTexture then some (internalformat, width, height) else s.texImage t }
  | .glRenderbufferStorage _ internalformat width height =>
      { s with rbStorage := fun r =>
          if r = s.boundRenderbuffer then some (internalformat, width, height) else s.rbStorage r }
  | .glFramebufferTexture2D _ attachment textarget texture _ =>
      { s with attachment := fun f a =>
          if f = s.boundFramebuffer ∧ a = attachment then some (textarget, texture)
          else s.attachment f a }
  | .glFramebufferRenderbuffer _ attachment renderbuffertarget renderbuffer =>
      { s with attachment := fun f a =>
          if f = s.boundFramebuffer ∧ a = attachment then some (renderbuffertarget, renderbuffer)
          else s.attachment f a }
  | .glDeleteFramebuffers name => { s with framebuffers := s.framebuffers.erase name }
  | .glDeleteRenderbuffers name => { s with renderbuffers := s.renderbuffers.erase name }
  | _ => s

/-- The GL objects after a sequence of calls. -/
def objExec (s : ObjStore) (t : List Ev) : ObjStore :=
  t.foldl objStep s

/-- The factor `ratio` of `FrameBuffer::setup`. -/
def HDR.ratio (env : Env) : Int := if env.apple then 2 else 1

/-- The calls of constructing a `FrameBuffer` and destroying it again. -/
def HDR.FrameBuffer.lifetime (env : Env) (width height : Int) : List Ev :=
  (HDR.FrameBuffer.new env width height).2 ++ (HDR.FrameBuffer.new env width height).1.destroy

/-! ## Sequences of `processInput` calls of `HDR.cpp` -/

/-- The variables of `HDR.cpp` after a sequence of `processInput` calls, each given with
the keys that are down and the time `glfwGetTime` returns. -/
def HDR.inputRun (s : HDR.State) (calls : List ((Key → Bool) × ℚ)) : HDR.State :=
  calls.foldl (fun st c => (HDR.processInput c.1 c.2 st).1) s

/-- The variables of `HDR.cpp` after a sequence of `processInput` calls in the arithmetic
`ar`. -/
def HDR.inputRunIn (ar : Arith) (s : HDR.State) (calls : List ((Key → Bool) × ℚ)) : HDR.State :=
  calls.foldl (fun st c => (HDR.processInputIn ar c.1 c.2 st).1) s

/-- The ranges of `use_gamma`, `height_scale` and `use_exposure` widened at either end
by one step and 10^-6: what the three variables satisfy in the arithmetic of the
machine. -/
def HDR.NearRanges (use_gamma height_scale use_exposure : ℚ) : Prop :=
  (1 - 1 / 100 - 1 / 1000000 ≤ use_gamma ∧ use_gamma ≤ 4 + 1 / 100 + 1 / 1000000)
  ∧ (0 - 5 / 10000 - 1 / 1000000 ≤ height_scale ∧ height_scale ≤ 1 + 5 / 10000 + 1 / 1000000)
  ∧ (0 - 1 / 100 - 1 / 1000000 ≤ use_exposure ∧ use_exposure ≤ 5 + 1 / 100 + 1 / 1000000)

/-- The key state in which exactly one key is down. -/
def onlyKey (k : Key) : Key → Bool := fun k1 => decide (k1 = k)

/-- The three tunable variables of `HDR.cpp` lie on the grids their steps generate:
`use_gamma` is a multiple of 0.01 between 1 and 4, `height_scale` a multiple of 0.0005
between 0 and 1, `use_exposure` a multiple of 0.01 between 0 and 5. -/
def HDR.OnGrid (s : HDR.State) : Prop :=
  (∃ k : ℤ, s.use_gamma = (k : ℚ) / (100 : ℤ) ∧ 100 ≤ k ∧ k ≤ 400)
  ∧ (∃ k : ℤ, s.height_scale = (k : ℚ) / (2000 : ℤ) ∧ 0 ≤ k ∧ k ≤ 2000)
  ∧ (∃ k : ℤ, s.use_exposure = (k : ℚ) / (100 : ℤ) ∧ 0 ≤ k ∧ k ≤ 500)

/-- The contract of C17 (as amended) for one program: after any sequence of `showFPS`
calls at times `ts`, a call at time `now` that sets a title divides `frameCount` by an
elapsed time greater than a quarter of a second; when it is not the first call of
the program, `frameCount` is at least 1 and the quotient `fps` is a positive number;
when it is the first call, `frameCount` is 0, `fps` is 0 and `1000.0 / fps` is the
infinity of a division by zero. -/
def DivisionContract (showFPS : Env → ℚ → FPSStatics → FPSStatics × List Ev) : Prop :=
  ∀ (env : Env) (ts : List ℚ) (now : ℚ) (title : String),
    Ev.glfwSetWindowTitle title
        ∈ (showFPS env now (fpsState (showFPS env) FPSStatics.init ts)).2 →
      now - (fpsState (showFPS env) FPSStatics.init ts).previousSeconds > 1 / 4
      ∧ (ts ≠ [] →
          1 ≤ (fpsState (showFPS env) FPSStatics.init ts).frameCount
          ∧ ∃ fps : ℚ, 0 < fps
              ∧ Dbl.div (.fin (fpsState (showFPS env) FPSStatics.init ts).frameCount)
                  (.fin (now - (fpsState (showFPS env) FPSStatics.init ts).previousSeconds))
                = .fin fps
              ∧ Dbl.div (.fin 1000) (.fin fps) = .fin (1000 / fps))
      ∧ (ts = [] →
          (fpsState (showFPS env) FPSStatics.init ts).frameCount = 0
          ∧ Dbl.div (.fin (fpsState (showFPS env) FPSStatics.init ts).frameCount)
              (.fin (now - (fpsState (showFPS env) FPSStatics.init ts).previousSeconds))
            = .fin 0
          ∧ Dbl.div (.fin 1000) (.fin 0) = .inf false)

/-- Calls that set a uniform named `uProjection`. -/
def Ev.isProjection : Ev → Bool
  | .setUniform _ name _ => name == "uProjection"
  | _ => false

/-- The projection `VisualNormal.cpp` computes before its render loop, from the camera as
constructed. -/
def VisualNormal.initialProjection : UVal :=
  .perspective VisualNormal.State.init.camera VisualNormal.width_height_ratio (1 / 10) 100

/-- Both shaders of `VisualNormal.cpp` hold the initial projection in `uProjection`. -/
def VisualNormal.ProjectionKept (g : GLState) : Prop :=
  g.uniforms .objectShader "uProjection" = some VisualNormal.initialProjection
  ∧ g.uniforms .normalVisualShader "uProjection" = some VisualNormal.initialProjection

/-! # Theorems -/

/-! ## General facts about the render loop and the OpenGL state -/

theorem renderLoop_frame_at {σ : Type} (closing : σ → Bool) (body : σ → FrameIn → σ × List Ev)
    (inputs : List FrameIn) (st : σ) (i : Nat) (tr : List Ev)
    (h : (renderLoop closing body st inputs).1[i]? = some tr) :
    ∃ f, inputs[i]? = some f ∧ tr = (body (loopState body st inputs i) f).2 := by
  induction inputs generalizing st i with
  | nil => simp [renderLoop] at h
  | cons f fs ih =>
    unfold renderLoop at h
    by_cases hc : closing st = true
    · simp [hc] at h
    · simp only [hc, Bool.false_eq_true, if_false] at h
      cases i with
      | zero =>
        simp only [List.getElem?_cons_zero, Option.some.injEq] at h
        exact ⟨f, by simp, by simp [loopState, h]⟩
      | succ j =>
        simp only [List.getElem?_cons_succ] at h
        obtain ⟨f1, hf1, htr⟩ := ih _ _ h
        exact ⟨f1, by simpa using hf1, by simpa [loopState] using htr⟩

theorem glExec_append (dx : DrawFx) (g : GLState) (a b : List Ev) :
    glExec dx g (a ++ b) = glExec dx (glExec dx g a) b := by
  simp [glExec, List.foldl_append]

theorem glExec_cons (dx : DrawFx) (g : GLState) (e : Ev) (t : List Ev) :
    glExec dx g (e :: t) = glExec dx (glStep dx g e) t := rfl

theorem glDraws_append (dx : DrawFx) (g : GLState) (a b : List Ev) :
    glDraws dx g (a ++ b) = glDraws dx g a ++ glDraws dx (glExec dx g a) b := by
  induction a generalizing g with
  | nil => simp [glDraws, glExec]
  | cons e t ih =>
    cases e <;> first | exact ih _ | exact congrArg (List.cons _) (ih _)

theorem glStep_inert (dx : DrawFx) (g : GLState) (e : Ev) (h : e.isInert = true) :
    glStep dx g e = g := by
  cases e <;> first | rfl | exact absurd h Bool.false_ne_true

theorem glExec_inert (dx : DrawFx) (g : GLState) (t : List Ev)
    (h : ∀ e ∈ t, e.isInert = true) : glExec dx g t = g := by
  induction t generalizing g with
  | nil => rfl
  | cons e t ih =>
    rw [glExec_cons, glStep_inert dx g e (h e (List.mem_cons_self _ _))]
    exact ih g (fun e1 h1 => h e1 (List.mem_cons_of_mem _ h1))

theorem glDraws_inert (dx : DrawFx) (g : GLState) (t : List Ev)
    (h : ∀ e ∈ t, e.isInert = true) : glDraws dx g t = [] := by
  induction t generalizing g with
  | nil => rfl
  | cons e t ih =>
    have he := h e (List.mem_cons_self _ _)
    have ht := ih (glStep dx g e) (fun e1 h1 => h e1 (List.mem_cons_of_mem _ h1))
    cases e <;> first | exact ht | exact absurd he Bool.false_ne_true

theorem isOutput_of_inert (e : Ev) (h : e.isInert = true) : e.isOutput = false := by
  cases e <;> first | rfl | exact absurd h Bool.false_ne_true

theorem filter_isOutput_inert (t : List Ev) (h : ∀ e ∈ t, e.isInert = true) :
    t.filter Ev.isOutput = [] := by
  rw [List.filter_eq_nil_iff]
  intro e he
  simp [isOutput_of_inert e (h e he)]

/-! ### The calls of `showFPS`, `processInput` and `glfwPollEvents` leave the OpenGL state alone -/

theorem hdr_showFPS_inert (env : Env) (now : ℚ) (st : FPSStatics) :
    ∀ e ∈ (HDR.showFPS env now st).2, e.isInert = true := by
  intro e he
  simp only [HDR.showFPS] at he
  split_ifs at he
  · simp at he; subst he; rfl
  · simp at he

theorem hdr_processInput_inert (keys : Key → Bool) (now : ℚ) (s : HDR.State) :
    ∀ e ∈ (HDR.processInput keys now s).2, e.isInert = true := by
  intro e he
  simp only [HDR.processInput, HDR.processInputIn, List.mem_append, List.mem_map, List.map_cons, List.mem_cons] at he
  rcases he with (he | he) | he
  · split at he
    · simp at he; subst he; rfl
    · simp at he
  · rcases he with he | ⟨k, _, he⟩
    · subst he; rfl
    · subst he; rfl
  · split at he
    · simp at he; subst he; rfl
    · simp at he

theorem hdr_dispatch_inert (s : HDR.State) (ev : InputEvent) :
    ∀ e ∈ (HDR.dispatch s ev).2, e.isInert = true := by
  intro e he
  cases ev <;>
    simp [HDR.dispatch, HDR.mouseCallback, HDR.mouseCallbackIn, HDR.scrollCallback, HDR.glfw_onFramebufferSize] at he <;>
    (subst he; rfl)

theorem hdr_pollEvents_inert (evs : List InputEvent) (s : HDR.State) :
    ∀ e ∈ (HDR.pollEvents evs s).2, e.isInert = true := by
  induction evs generalizing s with
  | nil => simp [HDR.pollEvents]
  | cons ev evs ih =>
    intro e he
    simp only [HDR.pollEvents, List.mem_append] at he
    rcases he with he | he
    · exact hdr_dispatch_inert s ev e he
    · exact ih _ e he

theorem stencil_showFPS_inert (env : Env) (now : ℚ) (st : FPSStatics) :
    ∀ e ∈ (StencilTest.showFPS env now st).2, e.isInert = true := by
  intro e he
  simp only [StencilTest.showFPS] at he
  split_ifs at he
  · simp at he; subst he; rfl
  · simp at he

theorem stencil_processInput_inert (keys : Key → Bool) (s : StencilTest.State) :
    ∀ e ∈ (StencilTest.processInput keys s).2, e.isInert = true := by
  intro e he
  simp only [StencilTest.processInput, List.mem_append, List.mem_map, List.map_cons, List.mem_cons] at he
  rcases he with (he | he) | he
  · split at he
    · simp at he; subst he; rfl
    · simp at he
  · rcases he with he | ⟨k, _, he⟩
    · subst he; rfl
    · subst he; rfl
  · split at he
    · simp at he; subst he; rfl
    · simp at he

theorem stencil_dispatch_inert (s : StencilTest.State) (ev : InputEvent) :
    ∀ e ∈ (StencilTest.dispatch s ev).2, e.isInert = true := by
  intro e he
  cases ev <;>
    simp [StencilTest.dispatch, StencilTest.mouseCallback, StencilTest.mouseCallbackIn, StencilTest.scrollCallback, StencilTest.glfw_onFramebufferSize] at he <;>
    (subst he; rfl)

theorem stencil_pollEvents_inert (evs : List InputEvent) (s : StencilTest.State) :
    ∀ e ∈ (StencilTest.pollEvents evs s).2, e.isInert = true := by
  induction evs generalizing s with
  | nil => simp [StencilTest.pollEvents]
  | cons ev evs ih =>
    intro e he
    simp only [StencilTest.pollEvents, List.mem_append] at he
    rcases he with he | he
    · exact stencil_dispatch_inert s ev e he
    · exact ih _ e he

theorem visual_showFPS_inert (env : Env) (now : ℚ) (st : FPSStatics) :
    ∀ e ∈ (VisualNormal.showFPS env now st).2, e.isInert = true := by
  intro e he
  simp only [VisualNormal.showFPS] at he
  split_ifs at he
  · simp at he; subst he; rfl
  · simp at he

theorem visual_processInput_inert (keys : Key → Bool) (s : VisualNormal.State) :
    ∀ e ∈ (VisualNormal.processInput keys s).2, e.isInert = true := by
  intro e he
  simp only [VisualNormal.processInput, List.mem_append, List.mem_map, List.map_cons, List.mem_cons] at he
  rcases he with (he | he) | he
  · split at he
    · simp at he; subst he; rfl
    · simp at he
  · rcases he with he | ⟨k, _, he⟩
    · subst he; rfl
    · subst he; rfl
  · split at he
    · simp at he; subst he; rfl
    · simp at he

theorem visual_dispatch_inert (s : VisualNormal.State) (ev : InputEvent) :
    ∀ e ∈ (VisualNormal.dispatch s ev).2, e.isInert = true := by
  intro e he
  cases ev <;>
    simp [VisualNormal.dispatch, VisualNormal.mouseCallback, VisualNormal.mouseCallbackIn, VisualNormal.scrollCallback, VisualNormal.glfw_onFramebufferSize] at he <;>
    (subst he; rfl)

theorem visual_pollEvents_inert (evs : List InputEvent) (s : VisualNormal.State) :
    ∀ e ∈ (VisualNormal.pollEvents evs s).2, e.isInert = true := by
  induction evs generalizing s with
  | nil => simp [VisualNormal.pollEvents]
  | cons ev evs ih =>
    intro e he
    simp only [VisualNormal.pollEvents, List.mem_append] at he
    rcases he with he | he
    · exact visual_dispatch_inert s ev e he
    · exact ih _ e he

/-! ## C1: failure of initOpenGL -/

theorem hdr_initContract : InitContract HDR.initOpenGL HDR.main := by
  intro env inputs
  constructor
  · intro h
    cases h1 : env.glfwInitOk <;> cases h2 : env.createWindowOk <;> cases h3 : env.gladOk <;>
      cases h4 : env.apple <;>
      simp_all [HDR.initOpenGL, HDR.main, Run.trace, Ev.isStderr, Ev.isLoad, Ev.isGen]
  · rintro ⟨h1, h2, h3⟩
    simp [HDR.initOpenGL, h1, h2, h3]

theorem stencil_initContract : InitContract StencilTest.initOpenGL StencilTest.main := by
  intro env inputs
  constructor
  · intro h
    cases h1 : env.glfwInitOk <;> cases h2 : env.createWindowOk <;> cases h3 : env.gladOk <;>
      cases h4 : env.apple <;>
      simp_all [StencilTest.initOpenGL, StencilTest.main, Run.trace, Ev.isStderr, Ev.isLoad, Ev.isGen]
  · rintro ⟨h1, h2, h3⟩
    simp [StencilTest.initOpenGL, h1, h2, h3]

theorem visual_initContract : InitContract VisualNormal.initOpenGL VisualNormal.main := by
  intro env inputs
  constructor
  · intro h
    cases h1 : env.glfwInitOk <;> cases h2 : env.createWindowOk <;> cases h3 : env.gladOk <;>
      cases h4 : env.apple <;>
      simp_all [VisualNormal.initOpenGL, VisualNormal.main, Run.trace, Ev.isStderr, Ev.isLoad, Ev.isGen]
  · rintro ⟨h1, h2, h3⟩
    simp [VisualNormal.initOpenGL, h1, h2, h3]

/-- C1: in each of the three programs, when `glfwInit`, `glfwCreateWindow` or the GLAD
loader fails, `initOpenGL` writes to standard error and returns false, and `main`
returns -1 with no iteration of the render loop, no model, primitive, texture or
shader loaded and no GL object generated (so no FrameBuffer created); when all
three succeed, `initOpenGL` returns true. -/
theorem C1_initOpenGL_failure :
    InitContract HDR.initOpenGL HDR.main
    ∧ InitContract StencilTest.initOpenGL StencilTest.main
    ∧ InitContract VisualNormal.initOpenGL VisualNormal.main :=
  ⟨hdr_initContract, stencil_initContract, visual_initContract⟩

/-- C1 at sample inputs: with window creation failing, `main` of `HDR.cpp` returns -1
without a frame; with everything succeeding, `initOpenGL` returns true. -/
theorem C1_initOpenGL_failure_witness :
    ((HDR.initOpenGL noWindowEnv).1 = false
      ∧ (HDR.initOpenGL noWindowEnv).2.any Ev.isStderr = true
      ∧ (HDR.main noWindowEnv [sampleFrame]).exit = Exit.returned (-1)
      ∧ (HDR.main noWindowEnv [sampleFrame]).frames = []
      ∧ (HDR.main noWindowEnv [sampleFrame]).trace.any Ev.isLoad = false
      ∧ (HDR.main noWindowEnv [sampleFrame]).trace.any Ev.isGen = false)
    ∧ (StencilTest.initOpenGL sampleEnv).1 = true :=
  ⟨(C1_initOpenGL_failure.1 noWindowEnv [sampleFrame]).1 (Or.inr (Or.inl rfl)),
   (C1_initOpenGL_failure.2.1 sampleEnv []).2 ⟨rfl, rfl, rfl⟩⟩

/-! ## C2: failure of a shader program -/

theorem hdr_shaderContract :
    ShaderContract .objectShader .hdrShader HDR.initOpenGL HDR.main := by
  intro env inputs h
  cases h0 : (HDR.initOpenGL env).1 <;>
    cases h1 : env.shaderOk .objectShader <;> cases h2 : env.shaderOk .hdrShader <;>
    simp_all [HDR.main, Shader.load]

theorem stencil_shaderContract :
    ShaderContract .objectShader .borderShader StencilTest.initOpenGL StencilTest.main := by
  intro env inputs h
  cases h0 : (StencilTest.initOpenGL env).1 <;>
    cases h1 : env.shaderOk .objectShader <;> cases h2 : env.shaderOk .borderShader <;>
    simp_all [StencilTest.main, Shader.load]

theorem visual_shaderContract :
    ShaderContract .objectShader .normalVisualShader VisualNormal.initOpenGL VisualNormal.main := by
  intro env inputs h
  cases h0 : (VisualNormal.initOpenGL env).1 <;>
    cases h1 : env.shaderOk .objectShader <;> cases h2 : env.shaderOk .normalVisualShader <;>
    simp_all [VisualNormal.main, Shader.load]

/-- C2: in each of the three programs, a run of `main` in which one of its shader
programs fails to load executes no iteration of the render loop; the failure is
reported on standard error and the process is terminated (by the shader loader,
as the specification describes it). -/
theorem C2_shader_failure :
    ShaderContract .objectShader .hdrShader HDR.initOpenGL HDR.main
    ∧ ShaderContract .objectShader .borderShader StencilTest.initOpenGL StencilTest.main
    ∧ ShaderContract .objectShader .normalVisualShader VisualNormal.initOpenGL VisualNormal.main :=
  ⟨hdr_shaderContract, stencil_shaderContract, visual_shaderContract⟩

/-- C2 at a sample input: `hdrShader` fails, `main` of `HDR.cpp` executes no frame. -/
theorem C2_shader_failure_witness :
    (HDR.main badShaderEnv [sampleFrame]).frames = []
    ∧ (HDR.main badShaderEnv [sampleFrame]).exit = Exit.terminated :=
  have h := C2_shader_failure.1 badShaderEnv [sampleFrame] (Or.inr (by decide))
  ⟨h.1, (h.2 (by simp [HDR.initOpenGL, badShaderEnv, sampleEnv])).1⟩


/-! ## C3: the two passes of HDR -/

theorem hdr_main_frame_at (env : Env) (inputs : List FrameIn) (i : Nat) (tr : List Ev)
    (h : (HDR.main env inputs).frames[i]? = some tr) :
    ∃ f, inputs[i]? = some f
      ∧ tr = (HDR.frame env (HDR.frameBuffer env) (HDR.stateAt env inputs i) f).2 := by
  unfold HDR.main at h
  simp only [] at h
  split_ifs at h <;>
    first
    | exact renderLoop_frame_at _ _ _ _ _ _ h
    | (simp at h)

theorem hdr_passes_draws (dx : DrawFx) (g : GLState) (fb : HDR.FrameBuffer) (s : HDR.State) :
    ∃ cube quad : DrawSnap,
      glDraws dx g (HDR.scenePass fb s ++ HDR.tonemapPass fb s) = [cube, quad]
      ∧ cube.obj = .objectCube ∧ cube.shader = .objectShader
      ∧ cube.gl.program = some .objectShader
      ∧ cube.gl.framebuffer = fb.fbo
      ∧ quad.obj = .objectQuad ∧ quad.shader = .hdrShader
      ∧ quad.gl.program = some .hdrShader
      ∧ quad.gl.framebuffer = 0
      ∧ quad.gl.tex.activeTexture = .TEXTURE0
      ∧ quad.gl.tex.texture2D .TEXTURE0 = fb.TID
      ∧ quad.gl.uniforms .hdrShader "uHDRBuffer" = some (.int 0)
      ∧ quad.gl.uniforms .hdrShader "uHDR" = some (.bool s.use_hdr)
      ∧ quad.gl.uniforms .hdrShader "uExposure" = some (.float s.use_exposure)
      ∧ (glExec dx g (HDR.scenePass fb s ++ HDR.tonemapPass fb s)).framebuffer = 0 := by
  refine ⟨_, _, rfl, rfl, rfl, rfl, rfl, rfl, rfl, rfl, rfl, rfl, ?_, ?_, ?_, ?_, rfl⟩
  · simp [glStep]
  · simp [glStep]
  · simp [glStep]
  · simp [glStep]

theorem hdr_frame_gl (env : Env) (dx : DrawFx) (g : GLState) (fb : HDR.FrameBuffer)
    (s : HDR.State) (f : FrameIn) :
    glDraws dx g (HDR.frame env fb s f).2
        = glDraws dx g (HDR.scenePass fb
            (HDR.processInput f.keys f.time2 { s with fps := (HDR.showFPS env f.time1 s.fps).1 }).1
          ++ HDR.tonemapPass fb
            (HDR.processInput f.keys f.time2 { s with fps := (HDR.showFPS env f.time1 s.fps).1 }).1)
    ∧ glExec dx g (HDR.frame env fb s f).2
        = glExec dx g (HDR.scenePass fb
            (HDR.processInput f.keys f.time2 { s with fps := (HDR.showFPS env f.time1 s.fps).1 }).1
          ++ HDR.tonemapPass fb
            (HDR.processInput f.keys f.time2 { s with fps := (HDR.showFPS env f.time1 s.fps).1 }).1) := by
  have h1 := hdr_showFPS_inert env f.time1 s.fps
  have h2 := hdr_processInput_inert f.keys f.time2 { s with fps := (HDR.showFPS env f.time1 s.fps).1 }
  have h3 := hdr_pollEvents_inert f.events
    (HDR.processInput f.keys f.time2 { s with fps := (HDR.showFPS env f.time1 s.fps).1 }).1
  simp only [HDR.frame, glDraws_append, glExec_append, glExec_inert dx _ _ h1, glDraws_inert dx _ _ h1,
    glExec_inert dx _ _ h2, glDraws_inert dx _ _ h2, glExec_inert dx _ _ h3, glDraws_inert dx _ _ h3]
  constructor
  · simp [glDraws, glExec, glStep]
  · simp [glExec, glStep]

theorem hdr_main_sample_frame :
    (HDR.main sampleEnv [sampleFrame]).frames[0]?
      = some (HDR.frame sampleEnv (HDR.frameBuffer sampleEnv) HDR.State.init sampleFrame).2 := by
  simp [HDR.main, HDR.initOpenGL, Shader.load, sampleEnv, renderLoop, HDR.State.init,
    HDR.State.initIn,
    HDR.frameBuffer]

theorem hdr_main_running (env : Env) (inputs : List FrameIn) (i : Nat) (tr : List Ev)
    (h : (HDR.main env inputs).frames[i]? = some tr) :
    (HDR.main env inputs).startup
      = (HDR.initOpenGL env).2 ++ (HDR.FrameBuffer.new env HDR.gWindowWidth HDR.gWindowHeight).2
        ++ HDR.createObjects
        ++ (Shader.load env .objectShader [ "shaders/hdrLighting.vert", "shaders/hdrLighting.frag" ]).2
        ++ (Shader.load env .hdrShader [ "shaders/hdr.vert", "shaders/hdr.frag" ]).2
        ++ HDR.lightConfig := by
  unfold HDR.main at h ⊢
  simp only [] at h ⊢
  split_ifs at h ⊢ <;> first | rfl | (simp at h)

theorem objExec_append (s : ObjStore) (a b : List Ev) :
    objExec s (a ++ b) = objExec (objExec s a) b := by
  simp [objExec, List.foldl_append]

theorem hdr_init_objects (env : Env) (s : ObjStore) : objExec s (HDR.initOpenGL env).2 = s := by
  cases h1 : env.glfwInitOk <;> cases h2 : env.createWindowOk <;> cases h3 : env.gladOk <;>
    cases h4 : env.apple <;>
    simp [HDR.initOpenGL, objExec, objStep, h1, h2, h3, h4]

theorem shader_load_objects (env : Env) (sh : ShaderId) (files : List String) (s : ObjStore) :
    objExec s (Shader.load env sh files).2 = s := by
  cases h : env.shaderOk sh <;> simp [Shader.load, objExec, objStep, h]

theorem hdr_config_objects (s : ObjStore) :
    objExec s HDR.createObjects = s ∧ objExec s HDR.lightConfig = s := by
  constructor
  · rfl
  · rfl

theorem hdr_setup_attachment (env : Env) (width height : Int) (s0 : ObjStore) :
    (objExec s0 (HDR.FrameBuffer.setup env width height).2).attachment
        env.fboName .COLOR_ATTACHMENT0 = some (.TEXTURE_2D, env.tidName) := by
  cases hc : env.framebufferComplete <;>
    simp [HDR.FrameBuffer.setup, hc, objExec, objStep]

theorem hdr_startup_objects (env : Env) (inputs : List FrameIn) (i : Nat) (tr : List Ev)
    (h : (HDR.main env inputs).frames[i]? = some tr) (s0 : ObjStore) :
    objExec s0 (HDR.main env inputs).startup
      = objExec s0 (HDR.FrameBuffer.new env HDR.gWindowWidth HDR.gWindowHeight).2 := by
  rw [hdr_main_running env inputs i tr h]
  simp only [objExec_append, hdr_init_objects, shader_load_objects, (hdr_config_objects _).1,
    (hdr_config_objects _).2]

/-- C3: when `FrameBuffer::setup` returns, framebuffer 0 is bound, and the one framebuffer
and the one texture it has generated are `fbo` and the colour texture `tid`, attached
at GL_COLOR_ATTACHMENT0 of `fbo`; and in every iteration `i` of the render loop of
`HDR.cpp`, whatever the OpenGL state `g` at its start, the draw calls are exactly the
cube and then the quad: the cube is drawn with `objectShader` current while `fbo`
is the bound framebuffer, the quad is drawn with `hdrShader` current while
framebuffer 0 is bound, with the colour texture `tid` (the texture attached at
GL_COLOR_ATTACHMENT0 of the framebuffer the cube is drawn into) bound on unit
`GL_TEXTURE0` and `uHDRBuffer = 0`, `uHDR = use_hdr`, `uExposure = use_exposure` as
the variables stand after the `processInput` call of that iteration; and
framebuffer 0 is bound when the iteration ends. -/
theorem C3_hdr_two_passes (env : Env) (inputs : List FrameIn) (dx : DrawFx) (g : GLState)
    (s0 : ObjStore) :
    (∀ width height : Int,
      (glExec dx g (HDR.FrameBuffer.setup env width height).2).framebuffer = 0
      ∧ (objExec ObjStore.empty (HDR.FrameBuffer.setup env width height).2).framebuffers
          = [ env.fboName ]
      ∧ (objExec ObjStore.empty (HDR.FrameBuffer.setup env width height).2).textures
          = [ env.tidName ]
      ∧ (objExec s0 (HDR.FrameBuffer.setup env width height).2).attachment
          env.fboName .COLOR_ATTACHMENT0 = some (.TEXTURE_2D, env.tidName))
    ∧ ∀ (i : Nat) (tr : List Ev), (HDR.main env inputs).frames[i]? = some tr →
        ∃ (f : FrameIn) (cube quad : DrawSnap),
          inputs[i]? = some f
          ∧ glDraws dx g tr = [cube, quad]
          ∧ cube.obj = .objectCube ∧ cube.shader = .objectShader
          ∧ cube.gl.program = some .objectShader
          ∧ cube.gl.framebuffer = env.fboName
          ∧ quad.obj = .objectQuad ∧ quad.shader = .hdrShader
          ∧ quad.gl.program = some .hdrShader
          ∧ quad.gl.framebuffer = 0
          ∧ quad.gl.tex.activeTexture = .TEXTURE0
          ∧ quad.gl.tex.texture2D .TEXTURE0 = env.tidName
          ∧ (objExec s0 (HDR.main env inputs).startup).attachment
              cube.gl.framebuffer .COLOR_ATTACHMENT0
            = some (.TEXTURE_2D, quad.gl.tex.texture2D .TEXTURE0)
          ∧ quad.gl.uniforms .hdrShader "uHDRBuffer" = some (.int 0)
          ∧ quad.gl.uniforms .hdrShader "uHDR" = some (.bool
              (HDR.processInput f.keys f.time2 (HDR.stateAt env inputs i)).1.use_hdr)
          ∧ quad.gl.uniforms .hdrShader "uExposure" = some (.float
              (HDR.processInput f.keys f.time2 (HDR.stateAt env inputs i)).1.use_exposure)
          ∧ (glExec dx g tr).framebuffer = 0 := by
  constructor
  · intro width height
    refine ⟨?_, ?_, ?_, hdr_setup_attachment env width height s0⟩
    · cases hc : env.framebufferComplete <;> simp [HDR.FrameBuffer.setup, hc, glExec, glStep]
    · cases hc : env.framebufferComplete <;>
        simp [HDR.FrameBuffer.setup, hc, objExec, objStep, ObjStore.empty]
    · cases hc : env.framebufferComplete <;>
        simp [HDR.FrameBuffer.setup, hc, objExec, objStep, ObjStore.empty]
  · intro i tr h
    obtain ⟨f, hf, htr⟩ := hdr_main_frame_at env inputs i tr h
    obtain ⟨hd, he⟩ := hdr_frame_gl env dx g (HDR.frameBuffer env) (HDR.stateAt env inputs i) f
    obtain ⟨cube, quad, hp1, hp2, hp3, hp4, hp5, hp6, hp7, hp8, hp9, hp10, hp11, hp12, hp13,
        hp14, hp15⟩ := hdr_passes_draws dx g (HDR.frameBuffer env)
      (HDR.processInput f.keys f.time2
        { HDR.stateAt env inputs i with
          fps := (HDR.showFPS env f.time1 (HDR.stateAt env inputs i).fps).1 }).1
    have hfbo : cube.gl.framebuffer = env.fboName := hp5
    have htid : quad.gl.tex.texture2D .TEXTURE0 = env.tidName := hp11
    refine ⟨f, cube, quad, hf, ?_, hp2, hp3, hp4, hfbo, hp6, hp7, hp8, hp9, hp10, htid, ?_,
      hp12, hp13, hp14, ?_⟩
    · rw [htr, hd]; exact hp1
    · rw [hfbo, htid, hdr_startup_objects env inputs i tr h s0]
      exact hdr_setup_attachment env _ _ s0
    · rw [htr, he]; exact hp15

/-- C3 at a sample run of one iteration, in which GL names the framebuffer 1 and the
colour texture 2: the draws of the iteration are the cube into framebuffer 1 and the
quad into framebuffer 0 with texture 2 on unit 0, and texture 2 is what the start of
the run has attached at GL_COLOR_ATTACHMENT0 of framebuffer 1. -/
theorem C3_hdr_two_passes_witness :
    ∃ (tr : List Ev) (cube quad : DrawSnap),
      (HDR.main sampleEnv [sampleFrame]).frames[0]? = some tr
      ∧ glDraws sampleDraw GLState.initial tr = [cube, quad]
      ∧ cube.gl.framebuffer = 1 ∧ quad.gl.framebuffer = 0
      ∧ quad.gl.tex.texture2D .TEXTURE0 = 2
      ∧ (objExec ObjStore.empty (HDR.main sampleEnv [sampleFrame]).startup).attachment
            1 .COLOR_ATTACHMENT0 = some (.TEXTURE_2D, 2)
      ∧ quad.gl.uniforms .hdrShader "uHDR" = some (.bool true) := by
  have hrun := hdr_main_sample_frame
  obtain ⟨f, cube, quad, hf, hd, _, _, _, hc, _, _, _, hq, _, ht, ha, _, hu, _, _⟩ :=
    (C3_hdr_two_passes sampleEnv [sampleFrame] sampleDraw GLState.initial ObjStore.empty).2
      0 _ hrun
  simp at hf
  subst hf
  rw [hc, ht] at ha
  exact ⟨_, cube, quad, hrun, hd, hc, hq, ht, ha, hu⟩

/-! ## C4: GL objects generated by FrameBuffer::setup -/

/-- C4, as the code has it: for every width and height, one call of
`FrameBuffer::setup` generates exactly three GL objects (a framebuffer, a texture
and a renderbuffer, in this order), and allocates storage for exactly two of
them (the texture image and the renderbuffer storage). -/
theorem C4_setup_generates_three (env : Env) (width height : Int) :
    ((HDR.FrameBuffer.setup env width height).2.filter Ev.isGen
        = [ Ev.glGenFramebuffers env.fboName, Ev.glGenTextures env.tidName,
            Ev.glGenRenderbuffers env.rboName ])
    ∧ ((HDR.FrameBuffer.setup env width height).2.filter Ev.isGen).length = 3
    ∧ ((HDR.FrameBuffer.setup env width height).2.filter Ev.isStorage).length = 2 := by
  cases hc : env.framebufferComplete <;>
    simp [HDR.FrameBuffer.setup, hc, Ev.isGen, Ev.isStorage]

/-- C4 as stated fails: the call of `FrameBuffer::setup` that `main` makes
(1280 x 720) does not generate exactly two GL objects, it generates three. -/
theorem C4_setup_two_objects_counterexample :
    ((HDR.FrameBuffer.setup sampleEnv 1280 720).2.filter Ev.isGen).length ≠ 2
    ∧ ((HDR.FrameBuffer.setup sampleEnv 1280 720).2.filter Ev.isGen).length = 3 := by
  simp [HDR.FrameBuffer.setup, sampleEnv, Ev.isGen]

/-! ## C5: the four toggle flags of HDR -/

/-- C5: for every combination of pressed keys, one call of `processInput` of `HDR.cpp`
negates `use_torch`, `use_blinn`, `use_normal_tex`, `use_hdr` exactly when its key
(F, B, N, H) is pressed and leaves it as it was otherwise; two consecutive calls
with the key pressed restore the flag; and two key combinations that agree on
the key of a flag give the flag the same value, so no other key changes it. -/
theorem C5_toggle_flags (s : HDR.State) (keys keys2 : Key → Bool) (now now2 : ℚ) :
    ((HDR.processInput keys now s).1.use_torch = (if keys .F then !s.use_torch else s.use_torch)
      ∧ (HDR.processInput keys now s).1.use_blinn = (if keys .B then !s.use_blinn else s.use_blinn)
      ∧ (HDR.processInput keys now s).1.use_normal_tex
          = (if keys .N then !s.use_normal_tex else s.use_normal_tex)
      ∧ (HDR.processInput keys now s).1.use_hdr = (if keys .H then !s.use_hdr else s.use_hdr))
    ∧ ((keys .F = true → keys2 .F = true →
          (HDR.processInput keys2 now2 (HDR.processInput keys now s).1).1.use_torch = s.use_torch)
      ∧ (keys .B = true → keys2 .B = true →
          (HDR.processInput keys2 now2 (HDR.processInput keys now s).1).1.use_blinn = s.use_blinn)
      ∧ (keys .N = true → keys2 .N = true →
          (HDR.processInput keys2 now2 (HDR.processInput keys now s).1).1.use_normal_tex
            = s.use_normal_tex)
      ∧ (keys .H = true → keys2 .H = true →
          (HDR.processInput keys2 now2 (HDR.processInput keys now s).1).1.use_hdr = s.use_hdr))
    ∧ ((keys .F = keys2 .F →
          (HDR.processInput keys now s).1.use_torch = (HDR.processInput keys2 now2 s).1.use_torch)
      ∧ (keys .B = keys2 .B →
          (HDR.processInput keys now s).1.use_blinn = (HDR.processInput keys2 now2 s).1.use_blinn)
      ∧ (keys .N = keys2 .N →
          (HDR.processInput keys now s).1.use_normal_tex
            = (HDR.processInput keys2 now2 s).1.use_normal_tex)
      ∧ (keys .H = keys2 .H →
          (HDR.processInput keys now s).1.use_hdr = (HDR.processInput keys2 now2 s).1.use_hdr)) := by
  refine ⟨⟨rfl, rfl, rfl, rfl⟩, ⟨?_, ?_, ?_, ?_⟩, ⟨?_, ?_, ?_, ?_⟩⟩
  · intro h1 h2; simp [HDR.processInput, HDR.processInputIn, h1, h2]
  · intro h1 h2; simp [HDR.processInput, HDR.processInputIn, h1, h2]
  · intro h1 h2; simp [HDR.processInput, HDR.processInputIn, h1, h2]
  · intro h1 h2; simp [HDR.processInput, HDR.processInputIn, h1, h2]
  · intro h; simp [HDR.processInput, HDR.processInputIn, h]
  · intro h; simp [HDR.processInput, HDR.processInputIn, h]
  · intro h; simp [HDR.processInput, HDR.processInputIn, h]
  · intro h; simp [HDR.processInput, HDR.processInputIn, h]

/-- C5 at a sample input: from the initial variables, pressing F (with W also down)
turns `use_torch` off, pressing F again turns it back on, and a call with every
key but F down leaves it on. -/
theorem C5_toggle_flags_witness :
    (HDR.processInput (fun k => decide (k = Key.F ∨ k = Key.W)) 1 HDR.State.init).1.use_torch = false
    ∧ (HDR.processInput (fun k => decide (k = Key.F)) 2
        (HDR.processInput (fun k => decide (k = Key.F ∨ k = Key.W)) 1 HDR.State.init).1).1.use_torch
        = true
    ∧ (HDR.processInput (fun k => decide (k ≠ Key.F)) 1 HDR.State.init).1.use_torch
        = (HDR.processInput (fun _ => false) 2 HDR.State.init).1.use_torch :=
  have h := C5_toggle_flags HDR.State.init (fun k => decide (k = Key.F ∨ k = Key.W))
    (fun k => decide (k = Key.F)) 1 2
  have h2 := C5_toggle_flags HDR.State.init (fun k => decide (k ≠ Key.F)) (fun _ => false) 1 2
  ⟨h.1.1, h.2.1.1 (by decide) (by decide), h2.2.2.1 (by decide)⟩

/-! ## C6: the window title -/

theorem hdr_titleContract : TitleContract HDR.APP_TITLE HDR.initOpenGL HDR.showFPS := by
  intro env
  constructor
  · intro width height title h
    simp only [HDR.initOpenGL] at h
    split_ifs at h <;> simp at h <;> exact h.2.2
  · intro now st title h
    simp only [HDR.showFPS] at h
    split_ifs at h
    · simp only [List.mem_singleton, Ev.glfwSetWindowTitle.injEq] at h
      refine ⟨env.fixed3 (Dbl.div (.fin st.frameCount) (.fin (now - st.previousSeconds))) ++ "    "
        ++ "Frame Time: "
        ++ env.fixed3 (Dbl.div (.fin 1000)
            (Dbl.div (.fin st.frameCount) (.fin (now - st.previousSeconds)))) ++ " (ms)", ?_⟩
      rw [h]
      simp only [String.append_assoc]
      rfl
    · simp at h

theorem stencil_titleContract : TitleContract StencilTest.APP_TITLE StencilTest.initOpenGL StencilTest.showFPS := by
  intro env
  constructor
  · intro width height title h
    simp only [StencilTest.initOpenGL] at h
    split_ifs at h <;> simp at h <;> exact h.2.2
  · intro now st title h
    simp only [StencilTest.showFPS] at h
    split_ifs at h
    · simp only [List.mem_singleton, Ev.glfwSetWindowTitle.injEq] at h
      refine ⟨env.fixed3 (Dbl.div (.fin st.frameCount) (.fin (now - st.previousSeconds))) ++ "    "
        ++ "Frame Time: "
        ++ env.fixed3 (Dbl.div (.fin 1000)
            (Dbl.div (.fin st.frameCount) (.fin (now - st.previousSeconds)))) ++ " (ms)", ?_⟩
      rw [h]
      simp only [String.append_assoc]
      rfl
    · simp at h

theorem visual_titleContract : TitleContract VisualNormal.APP_TITLE VisualNormal.initOpenGL VisualNormal.showFPS := by
  intro env
  constructor
  · intro width height title h
    simp only [VisualNormal.initOpenGL] at h
    split_ifs at h <;> simp at h <;> exact h.2.2
  · intro now st title h
    simp only [VisualNormal.showFPS] at h
    split_ifs at h
    · simp only [List.mem_singleton, Ev.glfwSetWindowTitle.injEq] at h
      refine ⟨env.fixed3 (Dbl.div (.fin st.frameCount) (.fin (now - st.previousSeconds))) ++ "    "
        ++ "Frame Time: "
        ++ env.fixed3 (Dbl.div (.fin 1000)
            (Dbl.div (.fin st.frameCount) (.fin (now - st.previousSeconds)))) ++ " (ms)", ?_⟩
      rw [h]
      simp only [String.append_assoc]
      rfl
    · simp at h

theorem hdr_showFPS_first_call :
    (HDR.showFPS sampleEnv 1 { previousSeconds := 0, frameCount := 0 }).2
        = [ Ev.glfwSetWindowTitle "Advanced Lighting -- HDR    FPS: 0.000    Frame Time: inf (ms)" ] := by
  norm_num [HDR.showFPS, sampleEnv, Dbl.div, HDR.APP_TITLE]
  decide

/-- C6, as the code has it: in each of the three programs the title given at window
creation equals `APP_TITLE`, and every title set by `showFPS` is `APP_TITLE`
followed by `"    FPS: "` and the frame statistics. -/
theorem C6_window_title :
    TitleContract HDR.APP_TITLE HDR.initOpenGL HDR.showFPS
    ∧ TitleContract StencilTest.APP_TITLE StencilTest.initOpenGL StencilTest.showFPS
    ∧ TitleContract VisualNormal.APP_TITLE VisualNormal.initOpenGL VisualNormal.showFPS :=
  ⟨hdr_titleContract, stencil_titleContract, visual_titleContract⟩

/-- C6 at sample inputs: the window of `HDR.cpp` is created with `APP_TITLE`, and the
title set by the first `showFPS` call at time 1 begins with `APP_TITLE`. -/
theorem C6_window_title_witness :
    (∃ stats : String,
      "Advanced Lighting -- HDR    FPS: 0.000    Frame Time: inf (ms)"
        = HDR.APP_TITLE ++ "    FPS: " ++ stats)
    ∧ "Advanced Lighting -- HDR" = HDR.APP_TITLE :=
  ⟨(C6_window_title.1 sampleEnv).2 1 { previousSeconds := 0, frameCount := 0 } _
      (by rw [hdr_showFPS_first_call]; exact List.mem_singleton.mpr rfl),
   (C6_window_title.1 sampleEnv).1 1280 720 _
      (by simp [HDR.initOpenGL, sampleEnv, HDR.APP_TITLE, HDR.gWindowWidth, HDR.gWindowHeight])⟩

/-- C6 as stated fails: the first `showFPS` call of `HDR.cpp`, at time 1, sets a title
that is not `APP_TITLE`. -/
theorem C6_title_fixed_counterexample :
    (HDR.showFPS sampleEnv 1 { previousSeconds := 0, frameCount := 0 }).2
        = [ Ev.glfwSetWindowTitle "Advanced Lighting -- HDR    FPS: 0.000    Frame Time: inf (ms)" ]
    ∧ "Advanced Lighting -- HDR    FPS: 0.000    Frame Time: inf (ms)" ≠ HDR.APP_TITLE := by
  constructor
  · exact hdr_showFPS_first_call
  · decide

/-! ## C7: what an iteration of the render loop writes -/

theorem stencil_main_frame_at (env : Env) (inputs : List FrameIn) (i : Nat) (tr : List Ev)
    (h : (StencilTest.main env inputs).frames[i]? = some tr) :
    ∃ f, inputs[i]? = some f ∧ tr = (StencilTest.frame env (StencilTest.stateAt env inputs i) f).2 := by
  unfold StencilTest.main at h
  simp only [] at h
  split_ifs at h <;>
    first
    | exact renderLoop_frame_at _ _ _ _ _ _ h
    | (simp at h)

theorem stencil_frame_output (env : Env) (s : StencilTest.State) (f : FrameIn) :
    (StencilTest.frame env s f).2.filter Ev.isOutput = [] := by
  have h1 := filter_isOutput_inert _ (stencil_showFPS_inert env f.time2 s.fps)
  have h2 := filter_isOutput_inert _ (stencil_processInput_inert f.keys
    { s with deltaTime := f.time1 - s.lastFrame, lastFrame := f.time1,
             fps := (StencilTest.showFPS env f.time2 s.fps).1 })
  have h3 := filter_isOutput_inert _ (stencil_pollEvents_inert f.events
    (StencilTest.processInput f.keys
      { s with deltaTime := f.time1 - s.lastFrame, lastFrame := f.time1,
               fps := (StencilTest.showFPS env f.time2 s.fps).1 }).1)
  simp only [StencilTest.frame, List.filter_append, h1, h2, h3]
  simp [StencilTest.render, StencilTest.drawCountryHouse, StencilTest.drawNanosuit, StencilTest.drawBorder, Ev.isOutput]

theorem visual_main_frame_at (env : Env) (inputs : List FrameIn) (i : Nat) (tr : List Ev)
    (h : (VisualNormal.main env inputs).frames[i]? = some tr) :
    ∃ f, inputs[i]? = some f ∧ tr = (VisualNormal.frame env (VisualNormal.stateAt env inputs i) f).2 := by
  unfold VisualNormal.main at h
  simp only [] at h
  split_ifs at h <;>
    first
    | exact renderLoop_frame_at _ _ _ _ _ _ h
    | (simp at h)

theorem visual_frame_output (env : Env) (s : VisualNormal.State) (f : FrameIn) :
    (VisualNormal.frame env s f).2.filter Ev.isOutput = [] := by
  have h1 := filter_isOutput_inert _ (visual_showFPS_inert env f.time2 s.fps)
  have h2 := filter_isOutput_inert _ (visual_processInput_inert f.keys
    { s with deltaTime := f.time1 - s.lastFrame, lastFrame := f.time1,
             fps := (VisualNormal.showFPS env f.time2 s.fps).1 })
  have h3 := filter_isOutput_inert _ (visual_pollEvents_inert f.events
    (VisualNormal.processInput f.keys
      { s with deltaTime := f.time1 - s.lastFrame, lastFrame := f.time1,
               fps := (VisualNormal.showFPS env f.time2 s.fps).1 }).1)
  simp only [VisualNormal.frame, List.filter_append, h1, h2, h3]
  simp [VisualNormal.render, Ev.isOutput]

theorem hdr_frame_output (env : Env) (fb : HDR.FrameBuffer) (s : HDR.State) (f : FrameIn) :
    (HDR.frame env fb s f).2.filter Ev.isOutput
      = [ Ev.write 0 (" HDR : "
            ++ env.floatToString (HDR.processInput f.keys f.time2 s).1.use_exposure ++ "\t\t\r") ] := by
  have h1 := filter_isOutput_inert _ (hdr_showFPS_inert env f.time1 s.fps)
  have h2 := filter_isOutput_inert _ (hdr_processInput_inert f.keys f.time2
    { s with fps := (HDR.showFPS env f.time1 s.fps).1 })
  have h3 := filter_isOutput_inert _ (hdr_pollEvents_inert f.events
    (HDR.processInput f.keys f.time2 { s with fps := (HDR.showFPS env f.time1 s.fps).1 }).1)
  simp only [HDR.frame, List.filter_append, h1, h2, h3]
  simp [HDR.scenePass, HDR.tonemapPass, HDR.FrameBuffer.Bind, HDR.FrameBuffer.Unbind, Ev.isOutput]
  rfl

/-- C7, as the code has it: no iteration of the render loop of `StencilTest.cpp` or
`VisualNormal.cpp` writes to a file descriptor or standard stream; every iteration
of the render loop of `HDR.cpp` writes exactly one line, `" HDR : "` followed by
`use_exposure` (as it stands after `processInput`) and `"\t\t\r"`, to file
descriptor 0, and nothing else. -/
theorem C7_frame_output (env : Env) (inputs : List FrameIn) (i : Nat) (tr : List Ev) :
    ((StencilTest.main env inputs).frames[i]? = some tr → tr.filter Ev.isOutput = [])
    ∧ ((VisualNormal.main env inputs).frames[i]? = some tr → tr.filter Ev.isOutput = [])
    ∧ ((HDR.main env inputs).frames[i]? = some tr →
        ∃ f, inputs[i]? = some f
          ∧ tr.filter Ev.isOutput
            = [ Ev.write 0 (" HDR : "
                ++ env.floatToString
                    (HDR.processInput f.keys f.time2 (HDR.stateAt env inputs i)).1.use_exposure
                ++ "\t\t\r") ]) := by
  refine ⟨?_, ?_, ?_⟩
  · intro h
    obtain ⟨f, _, htr⟩ := stencil_main_frame_at env inputs i tr h
    rw [htr]; exact stencil_frame_output env _ f
  · intro h
    obtain ⟨f, _, htr⟩ := visual_main_frame_at env inputs i tr h
    rw [htr]; exact visual_frame_output env _ f
  · intro h
    obtain ⟨f, hf, htr⟩ := hdr_main_frame_at env inputs i tr h
    exact ⟨f, hf, by rw [htr]; exact hdr_frame_output env _ _ f⟩

/-- C7 at a sample run of `HDR.cpp` with one iteration: the iteration writes one line
to file descriptor 0. -/
theorem C7_frame_output_witness :
    ∃ f, [sampleFrame][0]? = some f
      ∧ (HDR.frame sampleEnv (HDR.frameBuffer sampleEnv) HDR.State.init sampleFrame).2.filter
          Ev.isOutput
        = [ Ev.write 0 (" HDR : "
            ++ sampleEnv.floatToString
                (HDR.processInput f.keys f.time2 (HDR.stateAt sampleEnv [sampleFrame] 0)).1.use_exposure
            ++ "\t\t\r") ] :=
  (C7_frame_output sampleEnv [sampleFrame] 0 _).2.2 hdr_main_sample_frame

/-- C7 as stated fails: the first iteration of the render loop of `HDR.cpp` writes the
line `" HDR : 1.000000\t\t\r"` to file descriptor 0. -/
theorem C7_no_output_counterexample :
    ∃ tr, (HDR.main sampleEnv [sampleFrame]).frames[0]? = some tr
      ∧ tr.filter Ev.isOutput = [ Ev.write 0 " HDR : 1.000000\t\t\r" ] := by
  refine ⟨_, hdr_main_sample_frame, ?_⟩
  rw [hdr_frame_output]
  simp [sampleEnv]

/-! ## C8 and C9: sequences of showFPS calls -/

theorem hdr_showFPS_common : HDR.showFPS = showFPSCommon HDR.APP_TITLE := rfl

theorem stencil_showFPS_common : StencilTest.showFPS = showFPSCommon StencilTest.APP_TITLE := rfl

theorem visual_showFPS_common : VisualNormal.showFPS = showFPSCommon VisualNormal.APP_TITLE := rfl

theorem showFPSCommon_update (A : String) (env : Env) (now : ℚ) (st : FPSStatics)
    (h : now - st.previousSeconds > 1 / 4) :
    showFPSCommon A env now st
      = ({ previousSeconds := now, frameCount := 1 },
         [ Ev.glfwSetWindowTitle
             (A ++ "    FPS: " ++ env.fixed3 (.fin ((st.frameCount : ℚ) / (now - st.previousSeconds)))
               ++ "    Frame Time: "
               ++ env.fixed3 (Dbl.div (.fin 1000)
                   (.fin ((st.frameCount : ℚ) / (now - st.previousSeconds))))
               ++ " (ms)") ]) := by
  have hne : now - st.previousSeconds ≠ 0 := by
    intro h0; rw [h0] at h; norm_num at h
  simp only [showFPSCommon, h, if_true, Dbl.div, hne, if_false, zero_add]
  simp only [String.append_assoc]
  rfl

theorem showFPSCommon_skip (A : String) (env : Env) (now : ℚ) (st : FPSStatics)
    (h : now - st.previousSeconds ≤ 1 / 4) :
    showFPSCommon A env now st = ({ st with frameCount := st.frameCount + 1 }, []) := by
  have h1 : ¬ (now - st.previousSeconds > 1 / 4) := not_lt.mpr h
  simp only [showFPSCommon, h1, if_false]

theorem fpsState_snoc (step : ℚ → FPSStatics → FPSStatics × List Ev) (st : FPSStatics)
    (ts : List ℚ) (t : ℚ) :
    fpsState step st (ts ++ [t]) = (step t (fpsState step st ts)).1 := by
  simp [fpsState, List.foldl_append]

theorem fpsHistory_snoc (step : ℚ → FPSStatics → FPSStatics × List Ev) (st : FPSStatics)
    (ts : List ℚ) (t : ℚ) :
    fpsHistory step st (ts ++ [t])
      = fpsHistory step st ts ++ [(t, (step t (fpsState step st ts)).2)] := by
  induction ts generalizing st with
  | nil => simp [fpsHistory, fpsState]
  | cons u us ih => simp [fpsHistory, fpsState, ih]

theorem callsSinceUpdate_snoc (h : List (ℚ × List Ev)) (t : ℚ) (out : List Ev) :
    callsSinceUpdate (h ++ [(t, out)])
      = if titleUpdated out then 1 else callsSinceUpdate h + 1 := by
  simp [callsSinceUpdate, callsSinceUpdateRev]

theorem lastUpdateTime_snoc (h : List (ℚ × List Ev)) (t : ℚ) (out : List Ev) :
    lastUpdateTime (h ++ [(t, out)])
      = if titleUpdated out then t else lastUpdateTime h := by
  simp [lastUpdateTime, lastUpdateTimeRev]

theorem updateTimes_snoc (h : List (ℚ × List Ev)) (t : ℚ) (out : List Ev) :
    updateTimes (h ++ [(t, out)])
      = updateTimes h ++ (if titleUpdated out then [t] else []) := by
  cases hu : titleUpdated out <;> simp [updateTimes, List.filter_append, hu]

/-- The statics of `showFPS` hold what the history says: `frameCount` is the number of
calls since the last title update and `previousSeconds` is its time; the update
times are more than a quarter of a second apart and end with `previousSeconds`. -/
theorem showFPSCommon_invariant (A : String) (env : Env) (ts : List ℚ) :
    ((fpsState (showFPSCommon A env) FPSStatics.init ts).frameCount
        = (callsSinceUpdate (fpsHistory (showFPSCommon A env) FPSStatics.init ts) : Int))
    ∧ (fpsState (showFPSCommon A env) FPSStatics.init ts).previousSeconds
        = lastUpdateTime (fpsHistory (showFPSCommon A env) FPSStatics.init ts)
    ∧ List.Chain' (fun a b : ℚ => b - a > 1 / 4)
        (updateTimes (fpsHistory (showFPSCommon A env) FPSStatics.init ts))
    ∧ (∀ u ∈ (updateTimes (fpsHistory (showFPSCommon A env) FPSStatics.init ts)).getLast?,
        u = lastUpdateTime (fpsHistory (showFPSCommon A env) FPSStatics.init ts)) := by
  induction ts using List.reverseRecOn with
  | nil =>
    simp [fpsState, fpsHistory, callsSinceUpdate, callsSinceUpdateRev, lastUpdateTime,
      lastUpdateTimeRev, updateTimes, FPSStatics.init]
  | append_singleton ts t ih =>
    obtain ⟨hc, hp, hch, hl⟩ := ih
    rw [fpsState_snoc, fpsHistory_snoc, callsSinceUpdate_snoc, lastUpdateTime_snoc,
      updateTimes_snoc]
    by_cases hgt : t - (fpsState (showFPSCommon A env) FPSStatics.init ts).previousSeconds > 1 / 4
    · rw [showFPSCommon_update A env t _ hgt]
      simp only [titleUpdated, List.any_cons, List.any_nil, Bool.or_false, if_true]
      refine ⟨by simp, trivial, ?_, by simp⟩
      rw [List.chain'_append]
      refine ⟨hch, List.chain'_singleton _, ?_⟩
      intro x hx y hy
      simp only [List.head?_cons, Option.mem_def, Option.some.injEq] at hy
      subst hy
      rw [hl x hx, ← hp]
      exact hgt
    · rw [showFPSCommon_skip A env t _ (not_lt.mp hgt)]
      simp only [titleUpdated, List.any_nil, Bool.false_eq_true, if_false, List.append_nil]
      refine ⟨by simp [hc], hp, hch, hl⟩

/-- Among times that are pairwise more than a quarter apart, at most three lie within
`b` of a time that precedes them all by more than a quarter, when `b ≤ 1`. -/
theorem chain_gap_length (l : List ℚ) (x b : ℚ)
    (hch : List.Chain (fun a b : ℚ => b - a > 1 / 4) x l)
    (hb : ∀ u ∈ l, u ≤ x + b) (hne : l ≠ []) : (l.length : ℚ) / 4 < b := by
  induction l generalizing x b with
  | nil => exact absurd rfl hne
  | cons y l ih =>
    rw [List.chain_cons] at hch
    obtain ⟨hxy, hch⟩ := hch
    by_cases hl : l = []
    · subst hl
      have := hb y (List.mem_cons_self _ _)
      simp only [List.length_singleton, Nat.cast_one]
      linarith
    · have h1 := ih y (b - (y - x)) hch
        (fun u hu => by have := hb u (List.mem_cons_of_mem _ hu); linarith) hl
      simp only [List.length_cons, Nat.cast_add, Nat.cast_one]
      linarith

theorem interval_updates_le_four (l : List ℚ)
    (hch : List.Chain' (fun a b : ℚ => b - a > 1 / 4) l) (a : ℚ) :
    (l.filter (fun u => decide (a ≤ u ∧ u ≤ a + 1))).length ≤ 4 := by
  have htrans : ∀ {p q r : ℚ}, q - p > 1 / 4 → r - q > 1 / 4 → r - p > 1 / 4 := by
    intro p q r h1 h2; linarith
  have hpw : List.Pairwise (fun a b : ℚ => b - a > 1 / 4) l := by
    haveI : IsTrans ℚ (fun a b : ℚ => b - a > 1 / 4) := ⟨fun _ _ _ h1 h2 => htrans h1 h2⟩
    exact List.chain'_iff_pairwise.mp hch
  have hpw2 := hpw.filter (fun u => decide (a ≤ u ∧ u ≤ a + 1))
  have hch2 := hpw2.chain'
  generalize hm : l.filter (fun u => decide (a ≤ u ∧ u ≤ a + 1)) = m at hch2
  have hmem : ∀ u ∈ m, a ≤ u ∧ u ≤ a + 1 := by
    intro u hu
    rw [← hm, List.mem_filter] at hu
    simpa using hu.2
  cases m with
  | nil => simp
  | cons x m =>
    by_cases hm0 : m = []
    · subst hm0; simp
    · have hx := hmem x (List.mem_cons_self _ _)
      have h1 := chain_gap_length m x 1 hch2
        (fun u hu => by have := hmem u (List.mem_cons_of_mem _ hu); linarith) hm0
      have h2 : (m.length : ℚ) < 4 := by linarith
      have h3 : m.length < 4 := by exact_mod_cast h2
      simp only [List.length_cons]
      omega

theorem showFPSCommon_rateContract (A : String) : RateContract (showFPSCommon A) := by
  intro env ts
  obtain ⟨_, hp, hch, _⟩ := showFPSCommon_invariant A env ts
  refine ⟨hch, interval_updates_le_four _ hch, ?_⟩
  intro now h
  rw [← hp] at h
  exact showFPSCommon_skip A env now _ h

theorem hdr_showFPS_sample_state :
    fpsState (HDR.showFPS sampleEnv) FPSStatics.init [1 / 10, 2 / 10]
      = { previousSeconds := 0, frameCount := 2 } := by
  norm_num [fpsState, HDR.showFPS, FPSStatics.init]

theorem hdr_showFPS_sample_history :
    fpsHistory (HDR.showFPS sampleEnv) FPSStatics.init [1 / 10, 2 / 10]
      = [(1 / 10, []), (2 / 10, [])] := by
  norm_num [fpsHistory, HDR.showFPS, FPSStatics.init]

theorem hdr_showFPS_sample_call :
    (HDR.showFPS sampleEnv (1 / 2) { previousSeconds := 0, frameCount := 2 }).2
      = [ Ev.glfwSetWindowTitle "Advanced Lighting -- HDR    FPS: 4.000    Frame Time: 250.000 (ms)" ] := by
  norm_num [HDR.showFPS, sampleEnv, Dbl.div, HDR.APP_TITLE]
  decide

/-- C9: in each of the three programs, for every sequence of `showFPS` calls (whatever
their times), any two consecutive title updates are more than 0.25 seconds apart,
no closed interval of one second contains more than 4 title updates, and a call
whose elapsed time since the last update (since time 0 before the first) is at
most 0.25 sets no title and only increments the frame counter. -/
theorem C9_title_rate :
    RateContract HDR.showFPS ∧ RateContract StencilTest.showFPS
    ∧ RateContract VisualNormal.showFPS :=
  ⟨hdr_showFPS_common ▸ showFPSCommon_rateContract _,
   stencil_showFPS_common ▸ showFPSCommon_rateContract _,
   visual_showFPS_common ▸ showFPSCommon_rateContract _⟩

/-- C9 at a sample: in `HDR.cpp`, after calls at times 0.1 and 0.2 (no title update yet),
a call at time 0.25 sets no title and makes the frame counter 3. -/
theorem C9_title_rate_witness :
    HDR.showFPS sampleEnv (1 / 4) { previousSeconds := 0, frameCount := 2 }
      = ({ previousSeconds := 0, frameCount := 3 }, []) := by
  have h := (C9_title_rate.1 sampleEnv [1 / 10, 2 / 10]).2.2 (1 / 4)
    (by rw [hdr_showFPS_sample_history]
        norm_num [lastUpdateTime, lastUpdateTimeRev, titleUpdated])
  rw [hdr_showFPS_sample_state] at h
  simpa using h

/-! ## C10: the stencil state of the three draws of StencilTest -/

theorem stencil_frame_gl (env : Env) (dx : DrawFx) (g : GLState) (s : StencilTest.State)
    (f : FrameIn) :
    ∃ s2 : StencilTest.State,
      glDraws dx g (StencilTest.frame env s f).2 = glDraws dx g (StencilTest.render s2)
      ∧ glExec dx g (StencilTest.frame env s f).2 = glExec dx g (StencilTest.render s2) := by
  have h1 := stencil_showFPS_inert env f.time2 s.fps
  have h2 := stencil_processInput_inert f.keys
    { s with deltaTime := f.time1 - s.lastFrame, lastFrame := f.time1,
             fps := (StencilTest.showFPS env f.time2 s.fps).1 }
  have h3 := stencil_pollEvents_inert f.events
    (StencilTest.processInput f.keys
      { s with deltaTime := f.time1 - s.lastFrame, lastFrame := f.time1,
               fps := (StencilTest.showFPS env f.time2 s.fps).1 }).1
  refine ⟨(StencilTest.processInput f.keys
      { s with deltaTime := f.time1 - s.lastFrame, lastFrame := f.time1,
               fps := (StencilTest.showFPS env f.time2 s.fps).1 }).1, ?_, ?_⟩
  · simp only [StencilTest.frame, glDraws_append, glExec_append, glExec_inert dx _ _ h1,
      glDraws_inert dx _ _ h1, glExec_inert dx _ _ h2, glDraws_inert dx _ _ h2,
      glDraws_inert dx _ _ h3]
    simp [glDraws]
  · simp only [StencilTest.frame, glExec_append, glExec_inert dx _ _ h1,
      glExec_inert dx _ _ h2, glExec_inert dx _ _ h3]
    simp [glExec, glStep]

theorem stencil_render_depth (dx : DrawFx) (g : GLState) (s : StencilTest.State) :
    (glExec dx g (StencilTest.render s)).depthTest = true := rfl

theorem stencil_render_draws (dx : DrawFx) (g : GLState) (s : StencilTest.State)
    (hd : g.depthTest = true) :
    ∃ house suit border : DrawSnap,
      glDraws dx g (StencilTest.render s) = [house, suit, border]
      ∧ house.obj = .objectCountryhouseModel ∧ house.shader = .objectShader
      ∧ house.gl.stencilMask = 0x00
      ∧ suit.obj = .objectNanosuitModel ∧ suit.shader = .objectShader
      ∧ suit.gl.stencilFunc = (.ALWAYS, 1, 0xFF) ∧ suit.gl.stencilMask = 0xFF
      ∧ suit.gl.depthTest = true
      ∧ suit.gl.uniforms .objectShader "uModel"
          = some (.mat [ .translate (-7) (-45 / 10) 12, .scale (2 / 10) (2 / 10) (2 / 10) ])
      ∧ border.obj = .objectNanosuitModel ∧ border.shader = .borderShader
      ∧ border.gl.program = some .borderShader
      ∧ border.gl.stencilFunc = (.NOTEQUAL, 1, 0xFF) ∧ border.gl.stencilMask = 0x00
      ∧ border.gl.depthTest = false
      ∧ border.gl.uniforms .borderShader "uModel"
          = some (.mat [ .translate (-7) (-45 / 10) 12,
                         .scale (201 / 1000) (201 / 1000) (201 / 1000) ]) := by
  refine ⟨_, _, _, rfl, rfl, rfl, rfl, rfl, rfl, rfl, rfl, ?_, ?_, rfl, rfl, rfl, rfl, rfl, rfl, ?_⟩
  · simp only [glStep]
    exact hd
  · simp [glStep]
  · simp [glStep]

theorem stencil_init_depth (env : Env) (dx : DrawFx) (g : GLState)
    (h : (StencilTest.initOpenGL env).1 = true) :
    (glExec dx g (StencilTest.initOpenGL env).2).depthTest = true := by
  cases h1 : env.glfwInitOk <;> cases h2 : env.createWindowOk <;> cases h3 : env.gladOk <;>
    cases h4 : env.apple <;>
    simp_all [StencilTest.initOpenGL, glExec, glStep, GLState.setCap]

theorem stencil_main_running (env : Env) (inputs : List FrameIn) (i : Nat) (tr : List Ev)
    (h : (StencilTest.main env inputs).frames[i]? = some tr) :
    (StencilTest.initOpenGL env).1 = true ∧ env.shaderOk .objectShader = true
      ∧ env.shaderOk .borderShader = true := by
  cases h0 : (StencilTest.initOpenGL env).1 <;> cases h1 : env.shaderOk .objectShader <;>
    cases h2 : env.shaderOk .borderShader <;>
    simp [StencilTest.main, Shader.load, h0, h1, h2] at h ⊢

theorem stencil_main_startup (env : Env) (inputs : List FrameIn)
    (h0 : (StencilTest.initOpenGL env).1 = true) (h1 : env.shaderOk .objectShader = true)
    (h2 : env.shaderOk .borderShader = true) :
    (StencilTest.main env inputs).startup
      = (StencilTest.initOpenGL env).2
        ++ (StencilTest.loadModels
            ++ [ Ev.shaderLoad .objectShader [ "shaders/stencilTest.vert", "shaders/stencilTest.frag" ],
                 Ev.shaderLoad .borderShader
                   [ "shaders/stencilTest.vert", "shaders/stencilTestSingleColor.frag" ] ]
            ++ StencilTest.lightConfig) := by
  simp [StencilTest.main, Shader.load, h0, h1, h2]

theorem stencil_startup_depth (env : Env) (inputs : List FrameIn) (dx : DrawFx) (g : GLState)
    (i : Nat) (tr : List Ev) (h : (StencilTest.main env inputs).frames[i]? = some tr) :
    (glExec dx g (StencilTest.main env inputs).startup).depthTest = true := by
  obtain ⟨h0, h1, h2⟩ := stencil_main_running env inputs i tr h
  rw [stencil_main_startup env inputs h0 h1 h2, glExec_append]
  have hkeep : ∀ g1 : GLState,
      (glExec dx g1 (StencilTest.loadModels
        ++ [ Ev.shaderLoad .objectShader [ "shaders/stencilTest.vert", "shaders/stencilTest.frag" ],
             Ev.shaderLoad .borderShader
               [ "shaders/stencilTest.vert", "shaders/stencilTestSingleColor.frag" ] ]
        ++ StencilTest.lightConfig)).depthTest = g1.depthTest := by
    intro g1
    simp only [StencilTest.loadModels, StencilTest.lightConfig, List.cons_append, List.nil_append,
      glExec, List.foldl, glStep]
  rw [hkeep]
  exact stencil_init_depth env dx g h0

theorem glExec_flatten_depth (dx : DrawFx) (l : List (List Ev)) (g : GLState)
    (hl : ∀ tr ∈ l, ∀ g1 : GLState, (glExec dx g1 tr).depthTest = true)
    (hg : g.depthTest = true) : (glExec dx g l.flatten).depthTest = true := by
  induction l generalizing g with
  | nil => simpa [glExec] using hg
  | cons tr l ih =>
    rw [List.flatten_cons, glExec_append]
    exact ih _ (fun tr1 h1 => hl tr1 (List.mem_cons_of_mem _ h1))
      (hl tr (List.mem_cons_self _ _) g)

theorem stencil_main_sample_frame :
    (StencilTest.main sampleEnv [sampleFrame, sampleFrame]).frames[1]?
      = some (StencilTest.frame sampleEnv
          (StencilTest.stateAt sampleEnv [sampleFrame, sampleFrame] 1) sampleFrame).2 := by
  simp [StencilTest.main, StencilTest.initOpenGL, Shader.load, sampleEnv, renderLoop,
    StencilTest.State.init, StencilTest.stateAt, loopState, StencilTest.frame,
    StencilTest.processInput, StencilTest.pollEvents, sampleFrame]

/-- C10: in every iteration `i` of the render loop of `StencilTest.cpp`, replaying the
calls of the run from any OpenGL state `g0`, the draw calls of the iteration are
exactly three, in this order: the country house with stencil write mask 0x00; the
nanosuit with `objectShader`, stencil function (GL_ALWAYS, 1, 0xFF), write mask
0xFF, depth test enabled and model matrix translate(-7, -4.5, 12) scale 0.2; the
nanosuit again with `borderShader`, stencil function (GL_NOTEQUAL, 1, 0xFF), write
mask 0x00, depth test disabled and the same translation with scale 0.201. -/
theorem C10_stencil_outline (env : Env) (inputs : List FrameIn) (dx : DrawFx) (g0 : GLState)
    (i : Nat) (tr : List Ev) (h : (StencilTest.main env inputs).frames[i]? = some tr) :
    ∃ house suit border : DrawSnap,
      glDraws dx
          (glExec dx g0 ((StencilTest.main env inputs).startup
            ++ ((StencilTest.main env inputs).frames.take i).flatten)) tr
        = [house, suit, border]
      ∧ house.obj = .objectCountryhouseModel ∧ house.shader = .objectShader
      ∧ house.gl.stencilMask = 0x00
      ∧ suit.obj = .objectNanosuitModel ∧ suit.shader = .objectShader
      ∧ suit.gl.stencilFunc = (.ALWAYS, 1, 0xFF) ∧ suit.gl.stencilMask = 0xFF
      ∧ suit.gl.depthTest = true
      ∧ suit.gl.uniforms .objectShader "uModel"
          = some (.mat [ .translate (-7) (-45 / 10) 12, .scale (2 / 10) (2 / 10) (2 / 10) ])
      ∧ border.obj = .objectNanosuitModel ∧ border.shader = .borderShader
      ∧ border.gl.program = some .borderShader
      ∧ border.gl.stencilFunc = (.NOTEQUAL, 1, 0xFF) ∧ border.gl.stencilMask = 0x00
      ∧ border.gl.depthTest = false
      ∧ border.gl.uniforms .borderShader "uModel"
          = some (.mat [ .translate (-7) (-45 / 10) 12,
                         .scale (201 / 1000) (201 / 1000) (201 / 1000) ]) := by
  have hstart := stencil_startup_depth env inputs dx g0 i tr h
  have hframes : ∀ tr1 ∈ (StencilTest.main env inputs).frames.take i,
      ∀ g1 : GLState, (glExec dx g1 tr1).depthTest = true := by
    intro tr1 h1 g1
    obtain ⟨j, hj⟩ := List.mem_iff_getElem?.mp (List.mem_of_mem_take h1)
    obtain ⟨f, _, htr⟩ := stencil_main_frame_at env inputs j tr1 hj
    obtain ⟨s2, _, he⟩ := stencil_frame_gl env dx g1 (StencilTest.stateAt env inputs j) f
    rw [htr, he]
    exact stencil_render_depth dx g1 s2
  have hpre := glExec_flatten_depth dx _ _ hframes hstart
  rw [← glExec_append] at hpre
  obtain ⟨f, _, htr⟩ := stencil_main_frame_at env inputs i tr h
  obtain ⟨s2, hd, _⟩ := stencil_frame_gl env dx
    (glExec dx g0 ((StencilTest.main env inputs).startup
      ++ ((StencilTest.main env inputs).frames.take i).flatten))
    (StencilTest.stateAt env inputs i) f
  rw [htr, hd]
  exact stencil_render_draws dx _ s2 hpre

/-- C10 at a sample run of two iterations: in the second iteration, replayed from a
fresh OpenGL context, the three draws are issued in the stated stencil state. -/
theorem C10_stencil_outline_witness :
    ∃ (tr : List Ev) (house suit border : DrawSnap),
      (StencilTest.main sampleEnv [sampleFrame, sampleFrame]).frames[1]? = some tr
      ∧ glDraws sampleDraw
          (glExec sampleDraw GLState.initial
            ((StencilTest.main sampleEnv [sampleFrame, sampleFrame]).startup
              ++ ((StencilTest.main sampleEnv [sampleFrame, sampleFrame]).frames.take 1).flatten)) tr
        = [house, suit, border]
      ∧ house.gl.stencilMask = 0x00
      ∧ suit.gl.stencilFunc = (.ALWAYS, 1, 0xFF) ∧ suit.gl.stencilMask = 0xFF
      ∧ suit.gl.depthTest = true
      ∧ border.gl.stencilFunc = (.NOTEQUAL, 1, 0xFF) ∧ border.gl.stencilMask = 0x00
      ∧ border.gl.depthTest = false := by
  obtain ⟨house, suit, border, hd, _, _, h1, _, _, h2, h3, h4, _, _, _, _, h5, h6, h7, _⟩ :=
    C10_stencil_outline sampleEnv [sampleFrame, sampleFrame] sampleDraw GLState.initial 1 _
      stencil_main_sample_frame
  exact ⟨_, house, suit, border, stencil_main_sample_frame, hd, h1, h2, h3, h4, h5, h6, h7⟩

/-! ## C11: the GL configuration of StencilTest at the end of every iteration -/

theorem glClears_append (dx : DrawFx) (g : GLState) (a b : List Ev) :
    glClears dx g (a ++ b) = glClears dx g a ++ glClears dx (glExec dx g a) b := by
  induction a generalizing g with
  | nil => simp [glClears, glExec]
  | cons e t ih =>
    cases e <;> first | exact ih _ | exact congrArg (List.cons _) (ih _)

theorem glClears_inert (dx : DrawFx) (g : GLState) (t : List Ev)
    (h : ∀ e ∈ t, e.isInert = true) : glClears dx g t = [] := by
  induction t generalizing g with
  | nil => rfl
  | cons e t ih =>
    have he := h e (List.mem_cons_self _ _)
    have ht := ih (glStep dx g e) (fun e1 h1 => h e1 (List.mem_cons_of_mem _ h1))
    cases e <;> first | exact ht | exact absurd he Bool.false_ne_true

theorem glExec_flatten_inv (dx : DrawFx) (P : GLState → Prop) (l : List (List Ev)) (g : GLState)
    (hl : ∀ tr ∈ l, ∀ g1 : GLState, P g1 → P (glExec dx g1 tr))
    (hg : P g) : P (glExec dx g l.flatten) := by
  induction l generalizing g with
  | nil => simpa [glExec] using hg
  | cons tr l ih =>
    rw [List.flatten_cons, glExec_append]
    exact ih _ (fun tr1 h1 => hl tr1 (List.mem_cons_of_mem _ h1))
      (hl tr (List.mem_cons_self _ _) g hg)

theorem stencil_init_config (env : Env) (dx : DrawFx) (g : GLState)
    (h : (StencilTest.initOpenGL env).1 = true) :
    (glExec dx g (StencilTest.initOpenGL env).2).stencilFunc = (.NOTEQUAL, 1, 0xFF)
    ∧ (glExec dx g (StencilTest.initOpenGL env).2).stencilOp = (.KEEP, .KEEP, .REPLACE)
    ∧ (glExec dx g (StencilTest.initOpenGL env).2).stencilMask = g.stencilMask
    ∧ (glExec dx g (StencilTest.initOpenGL env).2).depthTest = true
    ∧ (glExec dx g (StencilTest.initOpenGL env).2).stencilTest = true := by
  cases h1 : env.glfwInitOk <;> cases h2 : env.createWindowOk <;> cases h3 : env.gladOk <;>
    cases h4 : env.apple <;>
    simp_all [StencilTest.initOpenGL, glExec, glStep, GLState.setCap]

theorem stencil_config_keeps (dx : DrawFx) (g : GLState) :
    glExec dx g (StencilTest.loadModels
        ++ [ Ev.shaderLoad .objectShader [ "shaders/stencilTest.vert", "shaders/stencilTest.frag" ],
             Ev.shaderLoad .borderShader
               [ "shaders/stencilTest.vert", "shaders/stencilTestSingleColor.frag" ] ]
        ++ StencilTest.lightConfig)
      = { g with
          program := (glExec dx g StencilTest.lightConfig).program
          uniforms := (glExec dx g StencilTest.lightConfig).uniforms } := by
  simp only [StencilTest.loadModels, StencilTest.lightConfig, List.cons_append, List.nil_append,
    glExec, List.foldl, glStep]

/-- The weak invariant of the render loop of `StencilTest.cpp`: what no iteration sets
but every iteration relies on. -/
theorem stencil_render_config (dx : DrawFx) (g : GLState) (s : StencilTest.State)
    (hop : g.stencilOp = (.KEEP, .KEEP, .REPLACE)) (hst : g.stencilTest = true) :
    StencilConfigured (glExec dx g (StencilTest.render s)) := by
  refine ⟨rfl, ?_, rfl, rfl, ?_⟩
  · simp only [StencilTest.render, StencilTest.drawCountryHouse, StencilTest.drawNanosuit,
      StencilTest.drawBorder, List.cons_append, List.nil_append, glExec, List.foldl, glStep,
      GLState.setCap]
    exact hop
  · simp only [StencilTest.render, StencilTest.drawCountryHouse, StencilTest.drawNanosuit,
      StencilTest.drawBorder, List.cons_append, List.nil_append, glExec, List.foldl, glStep,
      GLState.setCap]
    exact hst

theorem stencil_render_clears (dx : DrawFx) (g : GLState) (s : StencilTest.State) :
    ∃ c : ClearMask × GLState,
      glClears dx g (StencilTest.render s) = [c] ∧ c.1.stencil = true
      ∧ c.2.stencilMask = g.stencilMask := by
  refine ⟨_, rfl, rfl, ?_⟩
  simp only [glStep]

theorem stencil_frame_clears (env : Env) (dx : DrawFx) (g : GLState) (s : StencilTest.State)
    (f : FrameIn) :
    ∃ s2 : StencilTest.State,
      glClears dx g (StencilTest.frame env s f).2 = glClears dx g (StencilTest.render s2) := by
  have h1 := stencil_showFPS_inert env f.time2 s.fps
  have h2 := stencil_processInput_inert f.keys
    { s with deltaTime := f.time1 - s.lastFrame, lastFrame := f.time1,
             fps := (StencilTest.showFPS env f.time2 s.fps).1 }
  have h3 := stencil_pollEvents_inert f.events
    (StencilTest.processInput f.keys
      { s with deltaTime := f.time1 - s.lastFrame, lastFrame := f.time1,
               fps := (StencilTest.showFPS env f.time2 s.fps).1 }).1
  refine ⟨(StencilTest.processInput f.keys
      { s with deltaTime := f.time1 - s.lastFrame, lastFrame := f.time1,
               fps := (StencilTest.showFPS env f.time2 s.fps).1 }).1, ?_⟩
  simp only [StencilTest.frame, glClears_append, glExec_append, glExec_inert dx _ _ h1,
    glClears_inert dx _ _ h1, glExec_inert dx _ _ h2, glClears_inert dx _ _ h2,
    glClears_inert dx _ _ h3]
  simp [glClears]

theorem stencil_frame_config (env : Env) (inputs : List FrameIn) (dx : DrawFx) (g : GLState)
    (j : Nat) (tr : List Ev) (h : (StencilTest.main env inputs).frames[j]? = some tr)
    (hop : g.stencilOp = (.KEEP, .KEEP, .REPLACE)) (hst : g.stencilTest = true) :
    StencilConfigured (glExec dx g tr) := by
  obtain ⟨f, _, htr⟩ := stencil_main_frame_at env inputs j tr h
  obtain ⟨s2, _, he⟩ := stencil_frame_gl env dx g (StencilTest.stateAt env inputs j) f
  rw [htr, he]
  exact stencil_render_config dx g s2 hop hst

theorem stencil_startup_config (env : Env) (inputs : List FrameIn) (dx : DrawFx) (g : GLState)
    (i : Nat) (tr : List Ev) (h : (StencilTest.main env inputs).frames[i]? = some tr) :
    (glExec dx g (StencilTest.main env inputs).startup).stencilOp = (.KEEP, .KEEP, .REPLACE)
    ∧ (glExec dx g (StencilTest.main env inputs).startup).stencilTest = true
    ∧ (glExec dx g (StencilTest.main env inputs).startup).stencilMask = g.stencilMask := by
  obtain ⟨h0, h1, h2⟩ := stencil_main_running env inputs i tr h
  obtain ⟨_, hop, hm, _, hst⟩ := stencil_init_config env dx g h0
  rw [stencil_main_startup env inputs h0 h1 h2, glExec_append, stencil_config_keeps]
  exact ⟨hop, hst, hm⟩

theorem stencil_frame_start (env : Env) (inputs : List FrameIn) (dx : DrawFx) (g0 : GLState)
    (i : Nat) (tr : List Ev) (h : (StencilTest.main env inputs).frames[i]? = some tr) :
    (glExec dx g0 ((StencilTest.main env inputs).startup
        ++ ((StencilTest.main env inputs).frames.take i).flatten)).stencilOp
      = (.KEEP, .KEEP, .REPLACE)
    ∧ (glExec dx g0 ((StencilTest.main env inputs).startup
        ++ ((StencilTest.main env inputs).frames.take i).flatten)).stencilTest = true := by
  obtain ⟨hop, hst, _⟩ := stencil_startup_config env inputs dx g0 i tr h
  have hframes : ∀ tr1 ∈ (StencilTest.main env inputs).frames.take i, ∀ g1 : GLState,
      (g1.stencilOp = (.KEEP, .KEEP, .REPLACE) ∧ g1.stencilTest = true) →
      ((glExec dx g1 tr1).stencilOp = (.KEEP, .KEEP, .REPLACE)
        ∧ (glExec dx g1 tr1).stencilTest = true) := by
    intro tr1 h1 g1 hg1
    obtain ⟨j, hj⟩ := List.mem_iff_getElem?.mp (List.mem_of_mem_take h1)
    obtain ⟨_, hop1, _, _, hst1⟩ := stencil_frame_config env inputs dx g1 j tr1 hj hg1.1 hg1.2
    exact ⟨hop1, hst1⟩
  rw [glExec_append]
  exact glExec_flatten_inv dx
    (fun g1 => g1.stencilOp = (.KEEP, .KEEP, .REPLACE) ∧ g1.stencilTest = true) _ _ hframes
    ⟨hop, hst⟩

theorem stencil_frame_end (env : Env) (inputs : List FrameIn) (dx : DrawFx) (g0 : GLState)
    (i : Nat) (tr : List Ev) (h : (StencilTest.main env inputs).frames[i]? = some tr) :
    StencilConfigured
      (glExec dx g0 ((StencilTest.main env inputs).startup
        ++ ((StencilTest.main env inputs).frames.take (i + 1)).flatten)) := by
  obtain ⟨hop, hst⟩ := stencil_frame_start env inputs dx g0 i tr h
  have htake : (StencilTest.main env inputs).frames.take (i + 1)
      = (StencilTest.main env inputs).frames.take i ++ [tr] := by
    rw [List.take_succ, h]; rfl
  rw [htake, List.flatten_append, ← List.append_assoc, glExec_append]
  simp only [List.flatten_cons, List.flatten_nil, List.append_nil]
  exact stencil_frame_config env inputs dx _ i tr h hop hst

theorem stencil_frame_mask (env : Env) (inputs : List FrameIn) (dx : DrawFx) (g0 : GLState)
    (i : Nat) (tr : List Ev) (h : (StencilTest.main env inputs).frames[i]? = some tr) :
    (glExec dx g0 ((StencilTest.main env inputs).startup
        ++ ((StencilTest.main env inputs).frames.take i).flatten)).stencilMask
      = if i = 0 then g0.stencilMask else 0xFF := by
  cases i with
  | zero =>
    obtain ⟨_, _, hm⟩ := stencil_startup_config env inputs dx g0 0 tr h
    simpa using hm
  | succ j =>
    have hj : j < (StencilTest.main env inputs).frames.length := by
      have := (List.getElem?_eq_some_iff.mp h).1
      omega
    have h1 : (StencilTest.main env inputs).frames[j]?
        = some ((StencilTest.main env inputs).frames[j]) := List.getElem?_eq_getElem hj
    have := (stencil_frame_end env inputs dx g0 j _ h1).2.2.1
    simpa using this

theorem stencil_no_clear_outside_loop (env : Env) (inputs : List FrameIn) :
    (StencilTest.main env inputs).startup.any Ev.isClear = false
    ∧ (StencilTest.main env inputs).shutdown.any Ev.isClear = false := by
  cases h1 : env.glfwInitOk <;> cases h2 : env.createWindowOk <;> cases h3 : env.gladOk <;>
    cases h4 : env.apple <;> cases h5 : env.shaderOk .objectShader <;>
    cases h6 : env.shaderOk .borderShader <;>
    cases h7 : (renderLoop (fun s => s.shouldClose) (StencilTest.frame env)
      StencilTest.State.init inputs).2.2 <;>
    simp [StencilTest.main, StencilTest.initOpenGL, Shader.load, StencilTest.loadModels,
      StencilTest.lightConfig, Ev.isClear, h1, h2, h3, h4, h5, h6, h7]

theorem stencil_main_sample_first :
    (StencilTest.main sampleEnv [sampleFrame, sampleFrame]).frames[0]?
      = some (StencilTest.frame sampleEnv
          (StencilTest.stateAt sampleEnv [sampleFrame, sampleFrame] 0) sampleFrame).2 := by
  rfl

/-- C11 (amended): in `StencilTest.cpp`, replaying a run from the state `g0` of the
context at its creation: after a successful `initOpenGL` the stencil function is
(GL_NOTEQUAL, 1, 0xFF), the stencil operation is (GL_KEEP, GL_KEEP, GL_REPLACE), depth
and stencil testing are enabled, and the stencil write mask is still the one the context
was created with (`initOpenGL` never calls `glStencilMask`); at the end of every
iteration of the render loop all five hold with write mask 0xFF; every iteration calls
`glClear` once, with GL_STENCIL_BUFFER_BIT, and the write mask at that call is the one
the context was created with in the first iteration and 0xFF in every later one;
`glClear` is called nowhere else. -/
theorem C11_stencil_restored (env : Env) (inputs : List FrameIn) (dx : DrawFx) (g0 : GLState) :
    ((StencilTest.initOpenGL env).1 = true →
        (glExec dx g0 (StencilTest.initOpenGL env).2).stencilFunc = (.NOTEQUAL, 1, 0xFF)
        ∧ (glExec dx g0 (StencilTest.initOpenGL env).2).stencilOp = (.KEEP, .KEEP, .REPLACE)
        ∧ (glExec dx g0 (StencilTest.initOpenGL env).2).stencilMask = g0.stencilMask
        ∧ (glExec dx g0 (StencilTest.initOpenGL env).2).depthTest = true
        ∧ (glExec dx g0 (StencilTest.initOpenGL env).2).stencilTest = true)
    ∧ (∀ (i : Nat) (tr : List Ev), (StencilTest.main env inputs).frames[i]? = some tr →
        StencilConfigured
          (glExec dx g0 ((StencilTest.main env inputs).startup
            ++ ((StencilTest.main env inputs).frames.take (i + 1)).flatten)))
    ∧ (∀ (i : Nat) (tr : List Ev), (StencilTest.main env inputs).frames[i]? = some tr →
          ∃ c : ClearMask × GLState,
            glClears dx
                (glExec dx g0 ((StencilTest.main env inputs).startup
                  ++ ((StencilTest.main env inputs).frames.take i).flatten)) tr = [c]
            ∧ c.1.stencil = true
            ∧ c.2.stencilMask = if i = 0 then g0.stencilMask else 0xFF)
    ∧ (StencilTest.main env inputs).startup.any Ev.isClear = false
    ∧ (StencilTest.main env inputs).shutdown.any Ev.isClear = false := by
  refine ⟨stencil_init_config env dx g0, stencil_frame_end env inputs dx g0, ?_,
    stencil_no_clear_outside_loop env inputs⟩
  intro i tr h
  have hm := stencil_frame_mask env inputs dx g0 i tr h
  obtain ⟨f, _, htr⟩ := stencil_main_frame_at env inputs i tr h
  obtain ⟨s2, hc⟩ := stencil_frame_clears env dx
    (glExec dx g0 ((StencilTest.main env inputs).startup
      ++ ((StencilTest.main env inputs).frames.take i).flatten))
    (StencilTest.stateAt env inputs i) f
  obtain ⟨c, hc1, hc2, hc3⟩ := stencil_render_clears dx
    (glExec dx g0 ((StencilTest.main env inputs).startup
      ++ ((StencilTest.main env inputs).frames.take i).flatten)) s2
  exact ⟨c, by rw [htr, hc, hc1], hc2, hc3.trans hm⟩

/-- C11 (amended) at a sample run of two iterations from a fresh context
(`GLState.initial`): after `initOpenGL` the write mask is the initial 0xFFFFFFFF, the
configuration with write mask 0xFF holds at the end of the first iteration, and the
write mask is 0xFF at the `glClear` of the second iteration. -/
theorem C11_stencil_restored_witness :
    (glExec sampleDraw GLState.initial (StencilTest.initOpenGL sampleEnv).2).stencilMask
      = 0xFFFFFFFF
    ∧ StencilConfigured
        (glExec sampleDraw GLState.initial
          ((StencilTest.main sampleEnv [sampleFrame, sampleFrame]).startup
            ++ ((StencilTest.main sampleEnv [sampleFrame, sampleFrame]).frames.take 1).flatten))
    ∧ ∃ (tr : List Ev) (c : ClearMask × GLState),
        (StencilTest.main sampleEnv [sampleFrame, sampleFrame]).frames[1]? = some tr
        ∧ glClears sampleDraw
            (glExec sampleDraw GLState.initial
              ((StencilTest.main sampleEnv [sampleFrame, sampleFrame]).startup
                ++ ((StencilTest.main sampleEnv [sampleFrame, sampleFrame]).frames.take 1).flatten))
            tr = [c]
        ∧ c.1.stencil = true ∧ c.2.stencilMask = 0xFF :=
  have h := C11_stencil_restored sampleEnv [sampleFrame, sampleFrame] sampleDraw GLState.initial
  ⟨((h.1 (by simp [StencilTest.initOpenGL, sampleEnv])).2.2.1).trans rfl,
   h.2.1 0 _ stencil_main_sample_first,
   _, (h.2.2.1 1 _ stencil_main_sample_frame).choose, stencil_main_sample_frame,
   (h.2.2.1 1 _ stencil_main_sample_frame).choose_spec⟩

/-- C11 as stated fails from a fresh context (`GLState.initial`, whose stencil write mask
is all ones): after a successful `initOpenGL` the write mask is 4294967295, not 0xFF, so
the configuration C11 names does not hold there, and the `glClear` of the first
iteration, which includes GL_STENCIL_BUFFER_BIT, is issued with write mask 4294967295. -/
theorem C11_default_mask_counterexample :
    (StencilTest.initOpenGL sampleEnv).1 = true
    ∧ (glExec sampleDraw GLState.initial (StencilTest.initOpenGL sampleEnv).2).stencilMask
        = 4294967295
    ∧ ¬ StencilConfigured
          (glExec sampleDraw GLState.initial (StencilTest.initOpenGL sampleEnv).2)
    ∧ ∃ (tr : List Ev) (c : ClearMask × GLState),
        (StencilTest.main sampleEnv [sampleFrame, sampleFrame]).frames[0]? = some tr
        ∧ glClears sampleDraw
            (glExec sampleDraw GLState.initial
              (StencilTest.main sampleEnv [sampleFrame, sampleFrame]).startup) tr = [c]
        ∧ c.1.stencil = true ∧ c.2.stencilMask = 4294967295 ∧ c.2.stencilMask ≠ 0xFF := by
  have hm : (glExec sampleDraw GLState.initial (StencilTest.initOpenGL sampleEnv).2).stencilMask
      = 4294967295 :=
    ((stencil_init_config sampleEnv sampleDraw GLState.initial
      (by simp [StencilTest.initOpenGL, sampleEnv])).2.2.1).trans rfl
  refine ⟨by simp [StencilTest.initOpenGL, sampleEnv], hm, ?_, ?_⟩
  · intro hc
    have := hc.2.2.1
    rw [hm] at this
    exact absurd this (by decide)
  · have h0 := stencil_frame_mask sampleEnv [sampleFrame, sampleFrame] sampleDraw GLState.initial
      0 _ stencil_main_sample_first
    simp only [List.take_zero, List.flatten_nil, List.append_nil, if_true] at h0
    obtain ⟨s2, hc⟩ := stencil_frame_clears sampleEnv sampleDraw
      (glExec sampleDraw GLState.initial
        (StencilTest.main sampleEnv [sampleFrame, sampleFrame]).startup)
      (StencilTest.stateAt sampleEnv [sampleFrame, sampleFrame] 0) sampleFrame
    obtain ⟨c, hc1, hc2, hc3⟩ := stencil_render_clears sampleDraw
      (glExec sampleDraw GLState.initial
        (StencilTest.main sampleEnv [sampleFrame, sampleFrame]).startup) s2
    have hcm : c.2.stencilMask = 4294967295 := (hc3.trans h0).trans rfl
    exact ⟨_, c, stencil_main_sample_first, by rw [hc, hc1], hc2, hcm, by rw [hcm]; decide⟩

/-! ## C12: the boilerplate of the three programs -/

theorem hdr_mouseCallback_stencil : HDR.mouseCallback = StencilTest.mouseCallback := rfl

theorem hdr_mouseCallback_visual : HDR.mouseCallback = VisualNormal.mouseCallback := rfl

theorem mouseCallback_first (xpos ypos : ℚ) (m1 m2 : MouseVars)
    (h1 : m1.firstMouse = true) (h2 : m2.firstMouse = true) :
    HDR.mouseCallback xpos ypos m1 = HDR.mouseCallback xpos ypos m2 := by
  simp [HDR.mouseCallback, HDR.mouseCallbackIn, Arith.exact, h1, h2]

theorem sameUpToTitle_append (A B : String) (a1 a2 b1 b2 : List Ev)
    (ha : SameUpToTitle A B a1 a2) (hb : SameUpToTitle A B b1 b2) :
    SameUpToTitle A B (a1 ++ b1) (a2 ++ b2) :=
  List.rel_append ha hb

theorem sameUpToTitle_showFPS (A B : String) (env : Env) (now : ℚ) (st : FPSStatics) :
    (showFPSCommon A env now st).1 = (showFPSCommon B env now st).1
    ∧ SameUpToTitle A B (showFPSCommon A env now st).2 (showFPSCommon B env now st).2 := by
  by_cases hgt : now - st.previousSeconds > 1 / 4
  · rw [showFPSCommon_update A env now st hgt, showFPSCommon_update B env now st hgt]
    refine ⟨rfl, List.Forall₂.cons (Or.inl
      ⟨"    FPS: " ++ env.fixed3 (.fin ((st.frameCount : ℚ) / (now - st.previousSeconds)))
        ++ "    Frame Time: "
        ++ env.fixed3 (Dbl.div (.fin 1000)
            (.fin ((st.frameCount : ℚ) / (now - st.previousSeconds))))
        ++ " (ms)", ?_, ?_⟩) List.Forall₂.nil⟩
    · simp only [String.append_assoc]
    · simp only [String.append_assoc]
  · rw [showFPSCommon_skip A env now st (not_lt.mp hgt),
      showFPSCommon_skip B env now st (not_lt.mp hgt)]
    exact ⟨rfl, List.Forall₂.nil⟩

theorem sameUpToTitle_refl_mouse (A B : String) (xpos ypos : ℚ) (m : MouseVars) :
    SameUpToTitle A B (HDR.mouseCallback xpos ypos m).2 (HDR.mouseCallback xpos ypos m).2 :=
  List.Forall₂.cons (Or.inr ⟨rfl, rfl⟩) List.Forall₂.nil

/-- The copies of the boilerplate agree: from equal statics of `showFPS`, and from
variables of `mouseCallback` that are equal or both still flagged `firstMouse`. -/
theorem boilerplate_run_same (A B : String) (b1 b2 : Boilerplate)
    (hf1 : b1.showFPS = showFPSCommon A) (hf2 : b2.showFPS = showFPSCommon B)
    (hm1 : b1.mouseCallback = HDR.mouseCallback) (hm2 : b2.mouseCallback = HDR.mouseCallback)
    (hs1 : b1.scrollCallback = HDR.scrollCallback) (hs2 : b2.scrollCallback = HDR.scrollCallback)
    (hz1 : b1.glfw_onFramebufferSize = HDR.glfw_onFramebufferSize)
    (hz2 : b2.glfw_onFramebufferSize = HDR.glfw_onFramebufferSize)
    (env : Env) (cs : List BoilerCall) (m1 m2 : MouseVars) (st : FPSStatics)
    (hm : m1 = m2 ∨ (m1.firstMouse = true ∧ m2.firstMouse = true)) :
    SameUpToTitle A B (b1.run env m1 st cs) (b2.run env m2 st cs) := by
  induction cs generalizing m1 m2 st with
  | nil => exact List.Forall₂.nil
  | cons c cs ih =>
    cases c with
    | showFPS now =>
      simp only [Boilerplate.run, hf1, hf2]
      obtain ⟨hst, hev⟩ := sameUpToTitle_showFPS A B env now st
      rw [← hst]
      exact sameUpToTitle_append _ _ _ _ _ _ hev (ih m1 m2 _ hm)
    | mouseCallback xpos ypos =>
      simp only [Boilerplate.run, hm1, hm2]
      have heq : HDR.mouseCallback xpos ypos m1 = HDR.mouseCallback xpos ypos m2 := by
        rcases hm with hm | ⟨h1, h2⟩
        · rw [hm]
        · exact mouseCallback_first xpos ypos m1 m2 h1 h2
      rw [heq]
      exact sameUpToTitle_append _ _ _ _ _ _ (sameUpToTitle_refl_mouse A B xpos ypos m2)
        (ih _ _ st (Or.inl rfl))
    | scrollCallback xoffset yoffset =>
      simp only [Boilerplate.run, hs1, hs2]
      exact sameUpToTitle_append _ _ _ _ _ _
        (List.Forall₂.cons (Or.inr ⟨rfl, rfl⟩) List.Forall₂.nil) (ih m1 m2 st hm)
    | glfw_onFramebufferSize width height =>
      simp only [Boilerplate.run, hz1, hz2]
      exact sameUpToTitle_append _ _ _ _ _ _
        (List.Forall₂.cons (Or.inr ⟨rfl, rfl⟩) List.Forall₂.nil) (ih m1 m2 st hm)

theorem boilerplate_run_first (b : Boilerplate) (hm1 : b.mouseCallback = HDR.mouseCallback)
    (env : Env) (cs : List BoilerCall) (m1 m2 : MouseVars) (st : FPSStatics)
    (hm : m1 = m2 ∨ (m1.firstMouse = true ∧ m2.firstMouse = true)) :
    b.run env m1 st cs = b.run env m2 st cs := by
  induction cs generalizing m1 m2 st with
  | nil => rfl
  | cons c cs ih =>
    cases c with
    | showFPS now => simp only [Boilerplate.run]; rw [ih m1 m2 _ hm]
    | mouseCallback xpos ypos =>
      simp only [Boilerplate.run, hm1]
      have heq : HDR.mouseCallback xpos ypos m1 = HDR.mouseCallback xpos ypos m2 := by
        rcases hm with hm | ⟨h1, h2⟩
        · rw [hm]
        · exact mouseCallback_first xpos ypos m1 m2 h1 h2
      rw [heq]
    | scrollCallback xoffset yoffset => simp only [Boilerplate.run]; rw [ih m1 m2 st hm]
    | glfw_onFramebufferSize width height => simp only [Boilerplate.run]; rw [ih m1 m2 st hm]

/-- C12: given the same sequence of `showFPS`, `mouseCallback`, `scrollCallback` and
`glfw_onFramebufferSize` calls with the same times and arguments from program start,
`HDR.cpp`, `StencilTest.cpp` and `VisualNormal.cpp` issue the same sequence of window,
viewport and camera calls with the same arguments, up to each program's `APP_TITLE`
at the head of the titles; and whatever the initial values of `lastX` and `lastY`,
the sequence issued is the same. -/
theorem C12_boilerplate_same (env : Env) (cs : List BoilerCall) :
    SameUpToTitle HDR.APP_TITLE StencilTest.APP_TITLE
        (HDR.boilerplate.trace env cs) (StencilTest.boilerplate.trace env cs)
    ∧ SameUpToTitle HDR.APP_TITLE VisualNormal.APP_TITLE
        (HDR.boilerplate.trace env cs) (VisualNormal.boilerplate.trace env cs)
    ∧ SameUpToTitle StencilTest.APP_TITLE VisualNormal.APP_TITLE
        (StencilTest.boilerplate.trace env cs) (VisualNormal.boilerplate.trace env cs)
    ∧ (∀ lastX lastY : ℚ,
        HDR.boilerplate.run env { firstMouse := true, lastX := lastX, lastY := lastY }
            FPSStatics.init cs = HDR.boilerplate.trace env cs
        ∧ StencilTest.boilerplate.run env { firstMouse := true, lastX := lastX, lastY := lastY }
            FPSStatics.init cs = StencilTest.boilerplate.trace env cs
        ∧ VisualNormal.boilerplate.run env { firstMouse := true, lastX := lastX, lastY := lastY }
            FPSStatics.init cs = VisualNormal.boilerplate.trace env cs) := by
  refine ⟨?_, ?_, ?_, ?_⟩
  · exact boilerplate_run_same _ _ HDR.boilerplate StencilTest.boilerplate rfl rfl rfl rfl rfl rfl
      rfl rfl env cs _ _ _ (Or.inr ⟨rfl, rfl⟩)
  · exact boilerplate_run_same _ _ HDR.boilerplate VisualNormal.boilerplate rfl rfl rfl rfl rfl rfl
      rfl rfl env cs _ _ _ (Or.inr ⟨rfl, rfl⟩)
  · exact boilerplate_run_same _ _ StencilTest.boilerplate VisualNormal.boilerplate rfl rfl rfl rfl
      rfl rfl rfl rfl env cs _ _ _ (Or.inr ⟨rfl, rfl⟩)
  · intro lastX lastY
    exact ⟨boilerplate_run_first HDR.boilerplate rfl env cs _ _ _ (Or.inr ⟨rfl, rfl⟩),
      boilerplate_run_first StencilTest.boilerplate rfl env cs _ _ _ (Or.inr ⟨rfl, rfl⟩),
      boilerplate_run_first VisualNormal.boilerplate rfl env cs _ _ _ (Or.inr ⟨rfl, rfl⟩)⟩

/-! ## C13: the attachments of the FrameBuffer -/

theorem wrapInt32_of_range (n : Int) (h1 : -2 ^ 31 ≤ n) (h2 : n < 2 ^ 31) : wrapInt32 n = n := by
  unfold wrapInt32
  norm_num at h1 h2 ⊢
  omega

/-- C13: for every width and height, after `FrameBuffer::setup`, whatever the GL objects
before it, the texture attached at GL_COLOR_ATTACHMENT0 of the framebuffer `fbo` is
`tid`, with internal format GL_RGBA16F, and the renderbuffer attached at
GL_DEPTH_STENCIL_ATTACHMENT is `rbo`, with format GL_DEPTH24_STENCIL8 and the same
width and height as the texture: the `int` products `ratio * width` and
`ratio * height`, where ratio is 2 on Apple builds and 1 otherwise; these are the
numbers ratio * width and ratio * height whenever those are `int`s (on 32 bits);
for the instance `main` creates on a non-Apple build the size is 1280 x 720. -/
theorem C13_attachment_sizes (env : Env) (width height : Int) (s0 : ObjStore) :
    ((objExec s0 (HDR.FrameBuffer.setup env width height).2).attachment
          env.fboName .COLOR_ATTACHMENT0 = some (.TEXTURE_2D, env.tidName)
      ∧ (objExec s0 (HDR.FrameBuffer.setup env width height).2).texImage env.tidName
        = some (.RGBA16F, mulInt32 (HDR.ratio env) width, mulInt32 (HDR.ratio env) height)
      ∧ (objExec s0 (HDR.FrameBuffer.setup env width height).2).attachment
          env.fboName .DEPTH_STENCIL_ATTACHMENT = some (.RENDERBUFFER, env.rboName)
      ∧ (objExec s0 (HDR.FrameBuffer.setup env width height).2).rbStorage env.rboName
        = some (.DEPTH24_STENCIL8, mulInt32 (HDR.ratio env) width,
            mulInt32 (HDR.ratio env) height))
    ∧ ((HDR.FrameBuffer.setup env width height).1.fbo = env.fboName
      ∧ (HDR.FrameBuffer.setup env width height).1.tid = env.tidName
      ∧ (HDR.FrameBuffer.setup env width height).1.rbo = env.rboName)
    ∧ (HDR.ratio env = if env.apple then 2 else 1)
    ∧ (-2 ^ 31 ≤ HDR.ratio env * width → HDR.ratio env * width < 2 ^ 31 →
        -2 ^ 31 ≤ HDR.ratio env * height → HDR.ratio env * height < 2 ^ 31 →
        (objExec s0 (HDR.FrameBuffer.setup env width height).2).texImage env.tidName
          = some (.RGBA16F, HDR.ratio env * width, HDR.ratio env * height)
        ∧ (objExec s0 (HDR.FrameBuffer.setup env width height).2).rbStorage env.rboName
          = some (.DEPTH24_STENCIL8, HDR.ratio env * width, HDR.ratio env * height))
    ∧ (env.apple = false →
        (objExec s0 (HDR.FrameBuffer.new env HDR.gWindowWidth HDR.gWindowHeight).2).texImage
            (HDR.frameBuffer env).tid = some (.RGBA16F, 1280, 720)
        ∧ (objExec s0 (HDR.FrameBuffer.new env HDR.gWindowWidth HDR.gWindowHeight).2).rbStorage
            (HDR.frameBuffer env).rbo = some (.DEPTH24_STENCIL8, 1280, 720)) := by
  have hmain : (objExec s0 (HDR.FrameBuffer.setup env width height).2).attachment
          env.fboName .COLOR_ATTACHMENT0 = some (.TEXTURE_2D, env.tidName)
      ∧ (objExec s0 (HDR.FrameBuffer.setup env width height).2).texImage env.tidName
        = some (.RGBA16F, mulInt32 (HDR.ratio env) width, mulInt32 (HDR.ratio env) height)
      ∧ (objExec s0 (HDR.FrameBuffer.setup env width height).2).attachment
          env.fboName .DEPTH_STENCIL_ATTACHMENT = some (.RENDERBUFFER, env.rboName)
      ∧ (objExec s0 (HDR.FrameBuffer.setup env width height).2).rbStorage env.rboName
        = some (.DEPTH24_STENCIL8, mulInt32 (HDR.ratio env) width,
            mulInt32 (HDR.ratio env) height) := by
    cases hc : env.framebufferComplete <;>
      simp [HDR.FrameBuffer.setup, hc, objExec, objStep, HDR.ratio]
  refine ⟨hmain, ⟨rfl, rfl, rfl⟩, rfl, ?_, ?_⟩
  · intro h1 h2 h3 h4
    have hw : mulInt32 (HDR.ratio env) width = HDR.ratio env * width :=
      wrapInt32_of_range _ h1 h2
    have hh : mulInt32 (HDR.ratio env) height = HDR.ratio env * height :=
      wrapInt32_of_range _ h3 h4
    rw [← hw, ← hh]
    exact ⟨hmain.2.1, hmain.2.2.2⟩
  · intro ha
    have h1 : mulInt32 1 1280 = 1280 := by decide
    have h2 : mulInt32 1 720 = 720 := by decide
    cases hc : env.framebufferComplete <;>
      simp [HDR.FrameBuffer.new, HDR.FrameBuffer.setup, HDR.frameBuffer, hc, ha, objExec, objStep,
        HDR.gWindowWidth, HDR.gWindowHeight, h1, h2]

/-- C13 at three samples: on an Apple build a 1280 x 720 `FrameBuffer` has a 2560 x 1440
GL_RGBA16F texture and a 2560 x 1440 GL_DEPTH24_STENCIL8 renderbuffer; on a non-Apple
build the `FrameBuffer` of `main` has them at 1280 x 720; and on an Apple build a
`FrameBuffer` of width 2^30, whose product with ratio is not an `int`, has a texture
and a renderbuffer of the same width -2147483648. -/
theorem C13_attachment_sizes_witness :
    ((objExec ObjStore.empty
          (HDR.FrameBuffer.setup { sampleEnv with apple := true } 1280 720).2).texImage 2
        = some (.RGBA16F, 2560, 1440)
      ∧ (objExec ObjStore.empty
          (HDR.FrameBuffer.setup { sampleEnv with apple := true } 1280 720).2).rbStorage 3
        = some (.DEPTH24_STENCIL8, 2560, 1440))
    ∧ ((objExec ObjStore.empty
        (HDR.FrameBuffer.new sampleEnv HDR.gWindowWidth HDR.gWindowHeight).2).texImage
        (HDR.frameBuffer sampleEnv).tid = some (.RGBA16F, 1280, 720)
      ∧ (objExec ObjStore.empty
        (HDR.FrameBuffer.new sampleEnv HDR.gWindowWidth HDR.gWindowHeight).2).rbStorage
        (HDR.frameBuffer sampleEnv).rbo = some (.DEPTH24_STENCIL8, 1280, 720))
    ∧ ((objExec ObjStore.empty
          (HDR.FrameBuffer.setup { sampleEnv with apple := true } (2 ^ 30) 1).2).texImage 2
        = some (.RGBA16F, -2147483648, 2)
      ∧ (objExec ObjStore.empty
          (HDR.FrameBuffer.setup { sampleEnv with apple := true } (2 ^ 30) 1).2).rbStorage 3
        = some (.DEPTH24_STENCIL8, -2147483648, 2)) :=
  ⟨(C13_attachment_sizes { sampleEnv with apple := true } 1280 720 ObjStore.empty).2.2.2.1
      (by decide) (by decide) (by decide) (by decide),
   (C13_attachment_sizes sampleEnv 0 0 ObjStore.empty).2.2.2.2 rfl,
   ((C13_attachment_sizes { sampleEnv with apple := true } (2 ^ 30) 1
      ObjStore.empty).1.2.1).trans (by decide),
   ((C13_attachment_sizes { sampleEnv with apple := true } (2 ^ 30) 1
      ObjStore.empty).1.2.2.2).trans (by decide)⟩

/-! ## C18: the GL objects left by the FrameBuffer -/

/-- C18 evaluated on the code: after constructing a `FrameBuffer` and destroying it, in a
context without any other object, the framebuffer and the renderbuffer are gone but
the texture `tid` is still live: the destructor never deletes it. -/
theorem C18_texture_not_deleted (env : Env) (width height : Int) :
    (objExec ObjStore.empty (HDR.FrameBuffer.lifetime env width height)).framebuffers = []
    ∧ (objExec ObjStore.empty (HDR.FrameBuffer.lifetime env width height)).renderbuffers = []
    ∧ (objExec ObjStore.empty (HDR.FrameBuffer.lifetime env width height)).textures
        = [ env.tidName ] := by
  cases hc : env.framebufferComplete <;>
    simp [HDR.FrameBuffer.lifetime, HDR.FrameBuffer.new, HDR.FrameBuffer.setup,
      HDR.FrameBuffer.destroy, hc, objExec, objStep, ObjStore.empty]

/-! ## Binary floating point: the error of one rounding -/

theorem pow2_eq_zpow (k : Int) : pow2 k = (2 : ℚ) ^ k := by
  unfold pow2
  split_ifs with h
  · conv_rhs => rw [← Int.toNat_of_nonneg h]
    rw [zpow_natCast]
  · have h1 : (0 : Int) ≤ -k := by omega
    have h2 : k = -((-k).toNat : Int) := by rw [Int.toNat_of_nonneg h1]; ring
    conv_rhs => rw [h2]
    rw [zpow_neg, zpow_natCast, one_div]

theorem pow2_pos (k : Int) : 0 < pow2 k := by
  rw [pow2_eq_zpow]; positivity

theorem pow2_le_pow2 {a b : Int} (h : a ≤ b) : pow2 a ≤ pow2 b := by
  rw [pow2_eq_zpow, pow2_eq_zpow]
  exact zpow_le_zpow_right₀ (by norm_num) h

theorem pow2_lt_imp {a b : Int} (h : pow2 a < pow2 b) : a < b := by
  by_contra hc
  exact absurd (pow2_le_pow2 (not_lt.mp hc)) (not_le.mpr h)

theorem ilog2_spec (fuel n : Nat) (h1 : n ≤ fuel) (h2 : 1 ≤ n) :
    2 ^ ilog2 fuel n ≤ n ∧ n < 2 ^ (ilog2 fuel n + 1) := by
  induction fuel generalizing n with
  | zero => omega
  | succ fuel ih =>
    unfold ilog2
    split_ifs with h
    · constructor <;> simp <;> omega
    · have h3 : n / 2 ≤ fuel := by omega
      have h4 : 1 ≤ n / 2 := by omega
      obtain ⟨i1, i2⟩ := ih (n / 2) h3 h4
      constructor
      · rw [pow_succ]; omega
      · rw [pow_succ]; omega

/-- The binary exponent is not too large: `2^e ≤ |q|`. -/
theorem binExponent_spec (q : ℚ) (hq : q ≠ 0) : pow2 (binExponent q) ≤ |q| := by
  unfold binExponent
  simp only []
  split_ifs with h
  · exact h
  · have hn : 1 ≤ q.num.natAbs := by
      have := Rat.num_ne_zero.mpr hq
      omega
    have hd : 1 ≤ q.den := q.den_pos
    obtain ⟨a1, _⟩ := ilog2_spec q.num.natAbs q.num.natAbs le_rfl hn
    obtain ⟨_, b2⟩ := ilog2_spec q.den q.den le_rfl hd
    have habs : |q| = (q.num.natAbs : ℚ) / (q.den : ℚ) := by
      conv_lhs => rw [← Rat.num_div_den q]
      rw [abs_div, Nat.abs_cast, Nat.cast_natAbs, Int.cast_abs]
    rw [habs, pow2_eq_zpow]
    have e : ((ilog2 q.num.natAbs q.num.natAbs : Int) - (ilog2 q.den q.den : Int) - 1)
        = (ilog2 q.num.natAbs q.num.natAbs : Int) - ((ilog2 q.den q.den + 1 : Nat) : Int) := by
      push_cast; ring
    rw [e, zpow_sub₀ (by norm_num : (2 : ℚ) ≠ 0), zpow_natCast, zpow_natCast]
    have a1q : (2 : ℚ) ^ ilog2 q.num.natAbs q.num.natAbs ≤ (q.num.natAbs : ℚ) := by
      exact_mod_cast a1
    have b2q : (q.den : ℚ) ≤ (2 : ℚ) ^ (ilog2 q.den q.den + 1) := by
      exact_mod_cast b2.le
    have hdq : (0 : ℚ) < q.den := by exact_mod_cast q.den_pos
    exact div_le_div₀ (by positivity) a1q hdq b2q

theorem roundHalfEven_near (r : ℚ) : |(roundHalfEven r : ℚ) - r| ≤ 1 / 2 := by
  have h1 := Int.floor_le r
  have h2 := Int.lt_floor_add_one r
  unfold roundHalfEven
  simp only []
  rw [abs_le]
  split_ifs with a b c
  · constructor <;> linarith
  · constructor <;> push_cast <;> linarith
  · have : r - ⌊r⌋ = 1 / 2 := le_antisymm (not_lt.mp b) (not_lt.mp a)
    constructor <;> linarith
  · have : r - ⌊r⌋ = 1 / 2 := le_antisymm (not_lt.mp b) (not_lt.mp a)
    constructor <;> push_cast <;> linarith

/-- A rounding is off by at most half the spacing of the format. -/
theorem round_near (F : FloatFormat) (q : ℚ) : |F.round q - q| ≤ F.ulp q / 2 := by
  have hu : 0 < F.ulp q := pow2_pos _
  have h := roundHalfEven_near (q / F.ulp q)
  unfold FloatFormat.round
  have e : (roundHalfEven (q / F.ulp q) : ℚ) * F.ulp q - q
      = ((roundHalfEven (q / F.ulp q) : ℚ) - q / F.ulp q) * F.ulp q := by
    field_simp
  rw [e, abs_mul, abs_of_pos hu]
  calc |(roundHalfEven (q / F.ulp q) : ℚ) - q / F.ulp q| * F.ulp q
      ≤ 1 / 2 * F.ulp q := mul_le_mul_of_nonneg_right h hu.le
    _ = F.ulp q / 2 := by ring

theorem binExponent_zero : binExponent 0 = -1 := by decide!

theorem binExponent_lt (q : ℚ) (k : Int) (hk : 0 ≤ k) (h : |q| < pow2 k) : binExponent q < k := by
  by_cases hq : q = 0
  · rw [hq, binExponent_zero]; omega
  · exact pow2_lt_imp (lt_of_le_of_lt (binExponent_spec q hq) h)

/-- Below 8 a rounding to `float` is off by at most `2^-22`. -/
theorem binary32_round_near (q : ℚ) (h : |q| < 8) : |binary32.round q - q| ≤ 1 / 2 ^ 22 := by
  have h8 : pow2 3 = 8 := by decide!
  have he : binExponent q < 3 := binExponent_lt q 3 (by norm_num) (by rw [h8]; exact h)
  have hu : binary32.ulp q ≤ pow2 (-21) := by
    unfold FloatFormat.ulp
    apply pow2_le_pow2
    have : max (binExponent q) binary32.emin ≤ 2 := by
      apply max_le
      · omega
      · decide
    have hp : ((binary32.precision - 1 : Nat) : Int) = 23 := by decide
    rw [hp]
    omega
  have h21 : pow2 (-21) / 2 = 1 / 2 ^ 22 := by decide!
  calc |binary32.round q - q| ≤ binary32.ulp q / 2 := round_near _ q
    _ ≤ pow2 (-21) / 2 := by linarith
    _ = 1 / 2 ^ 22 := h21

theorem binary32_round_zero : binary32.round 0 = 0 := by decide!

theorem binary64_round_zero : binary64.round 0 = 0 := by decide!

theorem binary32_hundredth : binary32.round (1 / 100) = 5368709 / 536870912 := by decide!

theorem binary32_two_thousandth : binary32.round (5 / 10000) = 8589935 / 17179869184 := by
  decide!

/-! ## C14 and C20: the offsets of mouseCallback -/

theorem mouseCallback_after (xpos ypos : ℚ) (m : MouseVars) :
    (HDR.mouseCallback xpos ypos m).1 = { firstMouse := false, lastX := xpos, lastY := ypos } := by
  cases h : m.firstMouse <;> simp [HDR.mouseCallback, HDR.mouseCallbackIn, Arith.exact, h]

theorem mouseRun_snoc (cb : ℚ → ℚ → MouseVars → MouseVars × List Ev) (m : MouseVars)
    (ps : List (ℚ × ℚ)) (p : ℚ × ℚ) :
    (mouseRun cb m (ps ++ [p])).1 = (cb p.1 p.2 (mouseRun cb m ps).1).1 := by
  induction ps generalizing m with
  | nil => rfl
  | cons q qs ih => exact ih _

theorem hdr_mouseContract (init : MouseVars) (hinit : init.firstMouse = true) :
    MouseContract HDR.mouseCallback init := by
  refine ⟨?_, ?_, ?_⟩
  · intro xpos ypos m
    refine ⟨?_, ?_, mouseCallback_after xpos ypos m⟩
    · intro h; simp [HDR.mouseCallback, HDR.mouseCallbackIn, Arith.exact, h]
    · intro h; simp [HDR.mouseCallback, HDR.mouseCallbackIn, Arith.exact, h]
  · intro xpos ypos
    simp [HDR.mouseCallback, HDR.mouseCallbackIn, Arith.exact, hinit]
  · intro ps prev xpos ypos
    rw [mouseRun_snoc, mouseCallback_after]
    simp [HDR.mouseCallback, HDR.mouseCallbackIn, Arith.exact]

theorem hdr_mouseCallbackIn_exact : HDR.mouseCallbackIn Arith.exact = HDR.mouseCallback := rfl

theorem hdr_mouseCallbackIn_stencil : HDR.mouseCallbackIn = StencilTest.mouseCallbackIn := rfl

theorem hdr_mouseCallbackIn_visual : HDR.mouseCallbackIn = VisualNormal.mouseCallbackIn := rfl

theorem mouseCallbackIn_after (ar : Arith) (xpos ypos : ℚ) (m : MouseVars) :
    (HDR.mouseCallbackIn ar xpos ypos m).1
      = { firstMouse := false, lastX := ar.f32 xpos, lastY := ar.f32 ypos } := by
  cases h : m.firstMouse <;> simp [HDR.mouseCallbackIn, h]

theorem hdr_mouseContractIeee (init : MouseVars) (hinit : init.firstMouse = true) :
    MouseContractIeee HDR.mouseCallbackIn init := by
  have hfirst : ∀ (xpos ypos : ℚ) (m : MouseVars), m.firstMouse = true →
      binary32.represents xpos → binary32.represents ypos →
      (HDR.mouseCallbackIn Arith.ieee xpos ypos m).2 = [ Ev.camera (.processMouse 0 0) ]
      ∧ (HDR.mouseCallbackIn Arith.ieee xpos ypos m).1
          = { firstMouse := false, lastX := xpos, lastY := ypos } := by
    intro xpos ypos m h hx hy
    have ex : binary32.round xpos = xpos := hx.1
    have ey : binary32.round ypos = ypos := hy.1
    simp [HDR.mouseCallbackIn, h, Arith.ieee, ex, ey, binary32_round_zero, binary64_round_zero]
  refine ⟨?_, ?_, ?_⟩
  · intro xpos ypos m _ _ _ _
    refine ⟨mouseCallbackIn_after _ xpos ypos m, ?_, ?_, hfirst xpos ypos m⟩
    · intro h; simp [HDR.mouseCallbackIn, h, Arith.ieee]
    · intro h; simp [HDR.mouseCallbackIn, h, Arith.ieee]
  · intro xpos ypos hx hy
    exact (hfirst xpos ypos init hinit hx hy).1
  · intro ps prev xpos ypos _ _ _ _
    rw [mouseRun_snoc, mouseCallbackIn_after]
    simp [HDR.mouseCallbackIn, Arith.ieee]

/-- C14 (amended): in each of the three programs, in the arithmetic of the machine and
for positions of magnitude at most 2^126, `mouseCallback` passes to
`camera.processMouse` the offset (xpos - lastX, lastY - ypos), the differences taken
in `double` and rounded to `float`, where (lastX, lastY) is the position of the
previous callback rounded to `float`; at the first callback the rounded current
position is used as the previous one, so the offset passed is (0, 0) for every first
position that is representable in `float`; after every callback (lastX, lastY) is the
position of that callback rounded to `float` and `firstMouse` is false.  In exact
arithmetic the offset is (xpos - lastX, lastY - ypos) with (lastX, lastY) the
position of the previous callback, it is (0, 0) at the first callback for every
position, and after every callback (lastX, lastY) is the position of that callback. -/
theorem C14_mouse_offset :
    (MouseContractIeee HDR.mouseCallbackIn (HDR.State.initIn Arith.ieee).mouse
      ∧ MouseContractIeee StencilTest.mouseCallbackIn StencilTest.State.init.mouse
      ∧ MouseContractIeee VisualNormal.mouseCallbackIn VisualNormal.State.init.mouse)
    ∧ (MouseContract (HDR.mouseCallbackIn Arith.exact) (HDR.State.initIn Arith.exact).mouse
      ∧ MouseContract (StencilTest.mouseCallbackIn Arith.exact) StencilTest.State.init.mouse
      ∧ MouseContract (VisualNormal.mouseCallbackIn Arith.exact)
          VisualNormal.State.init.mouse) :=
  ⟨⟨hdr_mouseContractIeee _ rfl, hdr_mouseCallbackIn_stencil ▸ hdr_mouseContractIeee _ rfl,
    hdr_mouseCallbackIn_visual ▸ hdr_mouseContractIeee _ rfl⟩,
   ⟨hdr_mouseContract _ rfl, hdr_mouseContract _ rfl, hdr_mouseContract _ rfl⟩⟩

/-- C14 (amended) at samples, in `HDR.cpp` and in the arithmetic of the machine: the first
callback at (10, 20), a position representable in `float`, passes (0, 0); the next
one at (13.1, 18), where 13.1 stands for the `double` 7374644389819187 / 2^49, passes
the offset rounded to `float`, (6501171 / 2^21, 2), and leaves in `lastX` the
`float` 6868173 / 2^19 and in `lastY` 18. -/
theorem C14_mouse_offset_witness :
    (HDR.mouseCallbackIn Arith.ieee 10 20 (HDR.State.initIn Arith.ieee).mouse).2
        = [ Ev.camera (.processMouse 0 0) ]
    ∧ (HDR.mouseCallbackIn Arith.ieee (7374644389819187 / 562949953421312) 18
          { firstMouse := false, lastX := 10, lastY := 20 }).2
        = [ Ev.camera (.processMouse (6501171 / 2097152) 2) ]
    ∧ (HDR.mouseCallbackIn Arith.ieee (7374644389819187 / 562949953421312) 18
          { firstMouse := false, lastX := 10, lastY := 20 }).1
        = { firstMouse := false, lastX := 6868173 / 524288, lastY := 18 } := by
  have h := C14_mouse_offset.1.1
  have p126 : ∀ q : ℚ, |q| ≤ 1000 → |q| ≤ pow2 126 := by
    intro q hq
    exact le_trans hq (by decide!)
  have h1 := h.2.1 10 20 ⟨by decide!, by decide!⟩ ⟨by decide!, by decide!⟩
  have h2 := h.1 (7374644389819187 / 562949953421312) 18
    { firstMouse := false, lastX := 10, lastY := 20 }
    (p126 _ (by norm_num [abs_le])) (p126 _ (by norm_num [abs_le]))
    (p126 _ (by norm_num [abs_le])) (p126 _ (by norm_num [abs_le]))
  refine ⟨h1, ?_, ?_⟩
  · rw [h2.2.1 rfl]
    have e1 : binary32.round (binary64.round (7374644389819187 / 562949953421312 - 10))
        = 6501171 / 2097152 := by decide!
    have e2 : binary32.round (binary64.round (20 - 18)) = 2 := by decide!
    simp only [e1, e2]
  · rw [h2.1]
    have e1 : binary32.round (7374644389819187 / 562949953421312) = 6868173 / 524288 := by
      decide!
    have e2 : binary32.round 18 = 18 := by decide!
    simp only [e1, e2]

/-- C14 as stated fails on the program: in the arithmetic of the machine, when the first
callback of `HDR.cpp` arrives at the position (0.1, 0.7), given as the doubles
3602879701896397 / 2^55 and 3152519739159347 / 2^52, the offset passed to
`camera.processMouse` is (-13421773 / 2^53, -13421773 / 2^50), about
(-1.49e-9, -1.19e-8), not (0, 0), and afterwards `lastX` is the `float`
13421773 / 2^27 and `lastY` the `float` 11744051 / 2^24, not the position of the
callback. -/
theorem C14_float_position_counterexample :
    (binary64.round (3602879701896397 / 36028797018963968)
        = 3602879701896397 / 36028797018963968
      ∧ binary64.round (3152519739159347 / 4503599627370496)
        = 3152519739159347 / 4503599627370496)
    ∧ (HDR.State.initIn Arith.ieee).mouse.firstMouse = true
    ∧ mouseOffsets
        (HDR.mouseCallbackIn Arith.ieee (3602879701896397 / 36028797018963968)
          (3152519739159347 / 4503599627370496) (HDR.State.initIn Arith.ieee).mouse).2
      = [ (-13421773 / 9007199254740992, -13421773 / 1125899906842624) ]
    ∧ mouseOffsets
        (HDR.mouseCallbackIn Arith.ieee (3602879701896397 / 36028797018963968)
          (3152519739159347 / 4503599627370496) (HDR.State.initIn Arith.ieee).mouse).2
      ≠ [ (0, 0) ]
    ∧ (HDR.mouseCallbackIn Arith.ieee (3602879701896397 / 36028797018963968)
          (3152519739159347 / 4503599627370496) (HDR.State.initIn Arith.ieee).mouse).1.lastX
      = 13421773 / 134217728
    ∧ (HDR.mouseCallbackIn Arith.ieee (3602879701896397 / 36028797018963968)
          (3152519739159347 / 4503599627370496) (HDR.State.initIn Arith.ieee).mouse).1.lastX
      ≠ 3602879701896397 / 36028797018963968
    ∧ (HDR.mouseCallbackIn Arith.ieee (3602879701896397 / 36028797018963968)
          (3152519739159347 / 4503599627370496) (HDR.State.initIn Arith.ieee).mouse).1.lastY
      = 11744051 / 16777216
    ∧ (HDR.mouseCallbackIn Arith.ieee (3602879701896397 / 36028797018963968)
          (3152519739159347 / 4503599627370496) (HDR.State.initIn Arith.ieee).mouse).1.lastY
      ≠ 3152519739159347 / 4503599627370496 := by
  decide!

theorem mouseOffsets_append (a b : List Ev) :
    mouseOffsets (a ++ b) = mouseOffsets a ++ mouseOffsets b := by
  induction a with
  | nil => rfl
  | cons e t ih =>
    cases e with
    | camera k => cases k <;> simp [mouseOffsets, ih]
    | _ => simp [mouseOffsets, ih]

theorem mouseRun_sums (m : MouseVars) (hm : m.firstMouse = false) (ps : List (ℚ × ℚ)) :
    ((mouseOffsets (mouseRun HDR.mouseCallback m ps).2).map Prod.fst).sum
      = (ps.getLastD (m.lastX, m.lastY)).1 - m.lastX
    ∧ ((mouseOffsets (mouseRun HDR.mouseCallback m ps).2).map Prod.snd).sum
      = m.lastY - (ps.getLastD (m.lastX, m.lastY)).2 := by
  induction ps generalizing m with
  | nil => simp [mouseRun, mouseOffsets]
  | cons p ps ih =>
    have h1 := ih (HDR.mouseCallback p.1 p.2 m).1 (by rw [mouseCallback_after])
    rw [mouseCallback_after] at h1
    simp only [mouseRun, mouseOffsets_append, List.map_append, List.sum_append]
    rw [mouseCallback_after, h1.1, h1.2]
    have h2 : (HDR.mouseCallback p.1 p.2 m).2
        = [ Ev.camera (.processMouse (p.1 - m.lastX) (m.lastY - p.2)) ] := by
      simp [HDR.mouseCallback, HDR.mouseCallbackIn, Arith.exact, hm]
    have h3 : ∀ d : ℚ × ℚ, (p :: ps).getLastD d = ps.getLastD p := by
      intro d; cases ps <;> simp [List.getLastD]
    rw [h2, h3]
    simp only [mouseOffsets, List.map_cons, List.map_nil, List.sum_cons, List.sum_nil]
    constructor <;> ring

theorem hdr_telescopeContract : TelescopeContract HDR.mouseCallback := by
  intro lastX lastY first rest
  have h1 := mouseRun_sums { firstMouse := false, lastX := first.1, lastY := first.2 } rfl rest
  have h2 : HDR.mouseCallback first.1 first.2 { firstMouse := true, lastX := lastX, lastY := lastY }
      = ({ firstMouse := false, lastX := first.1, lastY := first.2 },
         [ Ev.camera (.processMouse 0 0) ]) := by
    simp [HDR.mouseCallback, HDR.mouseCallbackIn, Arith.exact]
  simp only [mouseRun, h2, mouseOffsets_append, List.map_append, List.sum_append]
  rw [h1.1, h1.2]
  simp [mouseOffsets]

/-- C20: in exact arithmetic, in each of the three programs, for every non-empty
sequence of cursor positions delivered to `mouseCallback` from the initial state,
the x offsets passed to `camera.processMouse` sum to x_n - x_1 and the y offsets to
y_1 - y_n, whatever the initial values of `lastX` and `lastY`. -/
theorem C20_mouse_telescope :
    TelescopeContract HDR.mouseCallback ∧ TelescopeContract StencilTest.mouseCallback
    ∧ TelescopeContract VisualNormal.mouseCallback :=
  ⟨hdr_telescopeContract, hdr_mouseCallback_stencil ▸ hdr_telescopeContract,
   hdr_mouseCallback_visual ▸ hdr_telescopeContract⟩

/-! ## C15: the ranges of use_gamma, height_scale and use_exposure -/

theorem hdr_processInput_tunables (keys : Key → Bool) (now : ℚ) (s : HDR.State) :
    (HDR.processInput keys now s).1.use_gamma
        = HDR.gammaAfterMinus keys (HDR.gammaAfterEqual keys s.use_gamma)
    ∧ (HDR.processInput keys now s).1.height_scale
        = HDR.heightAfterComma keys (HDR.heightAfterPeriod keys s.height_scale)
    ∧ (HDR.processInput keys now s).1.use_exposure
        = HDR.exposureAfterLeftBracket keys (HDR.exposureAfterRightBracket keys s.use_exposure) :=
  ⟨rfl, rfl, rfl⟩

/-- A value on the grid of multiples of `1 / d` between `lo / d` and `hi / d`. -/
theorem grid_up (d lo hi : ℤ) (hd : 0 < d) (x : ℚ)
    (hx : ∃ k : ℤ, x = (k : ℚ) / d ∧ lo ≤ k ∧ k ≤ hi) (b : Bool) :
    ∃ k : ℤ, (if b = true then (if x ≥ (hi : ℚ) / d then (hi : ℚ) / d else x + 1 / d) else x)
        = (k : ℚ) / d ∧ lo ≤ k ∧ k ≤ hi := by
  obtain ⟨k, hk, hlo, hhi⟩ := hx
  have hdq : (0 : ℚ) < d := by exact_mod_cast hd
  cases b
  · exact ⟨k, by simpa using hk, hlo, hhi⟩
  · by_cases hge : x ≥ (hi : ℚ) / d
    · exact ⟨hi, by simp [hge], le_trans hlo hhi, le_refl _⟩
    · have hlt : k < hi := by
        by_contra hcon
        have hkhi : k = hi := le_antisymm hhi (not_lt.mp hcon)
        apply hge
        rw [hk, hkhi]
      refine ⟨k + 1, ?_, by omega, by omega⟩
      simp only [hge, if_false, if_true]
      rw [hk]
      push_cast
      ring

theorem grid_down (d lo hi : ℤ) (hd : 0 < d) (x : ℚ)
    (hx : ∃ k : ℤ, x = (k : ℚ) / d ∧ lo ≤ k ∧ k ≤ hi) (b : Bool) :
    ∃ k : ℤ, (if b = true then (if x ≤ (lo : ℚ) / d then (lo : ℚ) / d else x - 1 / d) else x)
        = (k : ℚ) / d ∧ lo ≤ k ∧ k ≤ hi := by
  obtain ⟨k, hk, hlo, hhi⟩ := hx
  have hdq : (0 : ℚ) < d := by exact_mod_cast hd
  cases b
  · exact ⟨k, by simpa using hk, hlo, hhi⟩
  · by_cases hle : x ≤ (lo : ℚ) / d
    · exact ⟨lo, by simp [hle], le_refl _, le_trans hlo hhi⟩
    · have hlt : lo < k := by
        by_contra hcon
        have hklo : k = lo := le_antisymm (not_lt.mp hcon) hlo
        apply hle
        rw [hk, hklo]
      refine ⟨k - 1, ?_, by omega, by omega⟩
      simp only [hle, if_false, if_true]
      rw [hk]
      push_cast
      ring

theorem grid_bounds (d lo hi : ℤ) (hd : 0 < d) (x : ℚ)
    (hx : ∃ k : ℤ, x = (k : ℚ) / d ∧ lo ≤ k ∧ k ≤ hi) :
    (lo : ℚ) / d ≤ x ∧ x ≤ (hi : ℚ) / d := by
  obtain ⟨k, hk, hlo, hhi⟩ := hx
  have hdq : (0 : ℚ) < d := by exact_mod_cast hd
  rw [hk]
  constructor
  · exact div_le_div_of_nonneg_right (by exact_mod_cast hlo) hdq.le
  · exact div_le_div_of_nonneg_right (by exact_mod_cast hhi) hdq.le

theorem hdr_gammaAfterEqual_grid (keys : Key → Bool) (g : ℚ)
    (hx : ∃ k : ℤ, g = (k : ℚ) / (100 : ℤ) ∧ 100 ≤ k ∧ k ≤ 400) :
    ∃ k : ℤ, HDR.gammaAfterEqual keys g = (k : ℚ) / (100 : ℤ) ∧ 100 ≤ k ∧ k ≤ 400 := by
  have h := grid_up 100 100 400 (by norm_num) g hx (keys .EQUAL)
  have e : HDR.gammaAfterEqual keys g
      = (if keys .EQUAL = true then
          (if g ≥ ((400 : ℤ) : ℚ) / (100 : ℤ) then ((400 : ℤ) : ℚ) / (100 : ℤ)
           else g + 1 / (100 : ℤ)) else g) := by
    unfold HDR.gammaAfterEqual HDR.gammaAfterEqualIn; norm_num [Arith.exact]
  rw [e]; exact h

theorem hdr_gammaAfterMinus_grid (keys : Key → Bool) (g : ℚ)
    (hx : ∃ k : ℤ, g = (k : ℚ) / (100 : ℤ) ∧ 100 ≤ k ∧ k ≤ 400) :
    ∃ k : ℤ, HDR.gammaAfterMinus keys g = (k : ℚ) / (100 : ℤ) ∧ 100 ≤ k ∧ k ≤ 400 := by
  have h := grid_down 100 100 400 (by norm_num) g hx (keys .MINUS)
  have e : HDR.gammaAfterMinus keys g
      = (if keys .MINUS = true then
          (if g ≤ ((100 : ℤ) : ℚ) / (100 : ℤ) then ((100 : ℤ) : ℚ) / (100 : ℤ)
           else g - 1 / (100 : ℤ)) else g) := by
    unfold HDR.gammaAfterMinus HDR.gammaAfterMinusIn; norm_num [Arith.exact]
  rw [e]; exact h

theorem hdr_heightAfterPeriod_grid (keys : Key → Bool) (x : ℚ)
    (hx : ∃ k : ℤ, x = (k : ℚ) / (2000 : ℤ) ∧ 0 ≤ k ∧ k ≤ 2000) :
    ∃ k : ℤ, HDR.heightAfterPeriod keys x = (k : ℚ) / (2000 : ℤ) ∧ 0 ≤ k ∧ k ≤ 2000 := by
  have h := grid_up 2000 0 2000 (by norm_num) x hx (keys .PERIOD)
  have e : HDR.heightAfterPeriod keys x
      = (if keys .PERIOD = true then
          (if x ≥ ((2000 : ℤ) : ℚ) / (2000 : ℤ) then ((2000 : ℤ) : ℚ) / (2000 : ℤ)
           else x + 1 / (2000 : ℤ)) else x) := by
    unfold HDR.heightAfterPeriod HDR.heightAfterPeriodIn; norm_num [Arith.exact]
  rw [e]; exact h

theorem hdr_heightAfterComma_grid (keys : Key → Bool) (x : ℚ)
    (hx : ∃ k : ℤ, x = (k : ℚ) / (2000 : ℤ) ∧ 0 ≤ k ∧ k ≤ 2000) :
    ∃ k : ℤ, HDR.heightAfterComma keys x = (k : ℚ) / (2000 : ℤ) ∧ 0 ≤ k ∧ k ≤ 2000 := by
  have h := grid_down 2000 0 2000 (by norm_num) x hx (keys .COMMA)
  have e : HDR.heightAfterComma keys x
      = (if keys .COMMA = true then
          (if x ≤ ((0 : ℤ) : ℚ) / (2000 : ℤ) then ((0 : ℤ) : ℚ) / (2000 : ℤ)
           else x - 1 / (2000 : ℤ)) else x) := by
    unfold HDR.heightAfterComma HDR.heightAfterCommaIn; norm_num [Arith.exact]
  rw [e]; exact h

theorem hdr_exposureAfterRightBracket_grid (keys : Key → Bool) (x : ℚ)
    (hx : ∃ k : ℤ, x = (k : ℚ) / (100 : ℤ) ∧ 0 ≤ k ∧ k ≤ 500) :
    ∃ k : ℤ, HDR.exposureAfterRightBracket keys x = (k : ℚ) / (100 : ℤ) ∧ 0 ≤ k ∧ k ≤ 500 := by
  have h := grid_up 100 0 500 (by norm_num) x hx (keys .RIGHT_BRACKET)
  have e : HDR.exposureAfterRightBracket keys x
      = (if keys .RIGHT_BRACKET = true then
          (if x ≥ ((500 : ℤ) : ℚ) / (100 : ℤ) then ((500 : ℤ) : ℚ) / (100 : ℤ)
           else x + 1 / (100 : ℤ)) else x) := by
    unfold HDR.exposureAfterRightBracket HDR.exposureAfterRightBracketIn; norm_num [Arith.exact]
  rw [e]; exact h

theorem hdr_exposureAfterLeftBracket_grid (keys : Key → Bool) (x : ℚ)
    (hx : ∃ k : ℤ, x = (k : ℚ) / (100 : ℤ) ∧ 0 ≤ k ∧ k ≤ 500) :
    ∃ k : ℤ, HDR.exposureAfterLeftBracket keys x = (k : ℚ) / (100 : ℤ) ∧ 0 ≤ k ∧ k ≤ 500 := by
  have h := grid_down 100 0 500 (by norm_num) x hx (keys .LEFT_BRACKET)
  have e : HDR.exposureAfterLeftBracket keys x
      = (if keys .LEFT_BRACKET = true then
          (if x ≤ ((0 : ℤ) : ℚ) / (100 : ℤ) then ((0 : ℤ) : ℚ) / (100 : ℤ)
           else x - 1 / (100 : ℤ)) else x) := by
    unfold HDR.exposureAfterLeftBracket HDR.exposureAfterLeftBracketIn; norm_num [Arith.exact]
  rw [e]; exact h

theorem hdr_init_onGrid : HDR.OnGrid HDR.State.init := by
  refine ⟨⟨220, ?_, by norm_num, by norm_num⟩, ⟨200, ?_, by norm_num, by norm_num⟩,
    ⟨100, ?_, by norm_num, by norm_num⟩⟩ <;> norm_num [HDR.State.init, HDR.State.initIn, Arith.exact]

theorem hdr_processInput_onGrid (keys : Key → Bool) (now : ℚ) (s : HDR.State)
    (h : HDR.OnGrid s) : HDR.OnGrid (HDR.processInput keys now s).1 := by
  obtain ⟨hg, hh, he⟩ := h
  obtain ⟨e1, e2, e3⟩ := hdr_processInput_tunables keys now s
  refine ⟨?_, ?_, ?_⟩
  · rw [e1]; exact hdr_gammaAfterMinus_grid keys _ (hdr_gammaAfterEqual_grid keys _ hg)
  · rw [e2]; exact hdr_heightAfterComma_grid keys _ (hdr_heightAfterPeriod_grid keys _ hh)
  · rw [e3]
    exact hdr_exposureAfterLeftBracket_grid keys _ (hdr_exposureAfterRightBracket_grid keys _ he)

theorem hdr_inputRun_onGrid (calls : List ((Key → Bool) × ℚ)) (s : HDR.State)
    (h : HDR.OnGrid s) : HDR.OnGrid (HDR.inputRun s calls) := by
  induction calls generalizing s with
  | nil => exact h
  | cons c cs ih => exact ih _ (hdr_processInput_onGrid c.1 c.2 s h)

/-! ## C15: the ranges of the tunables in the arithmetic of the machine -/

/-- One increase statement in `float` arithmetic keeps a widened range. -/
theorem f32_step_up (g c hi lo1 hi1 : ℚ) (h1 : lo1 ≤ g) (_h2 : g ≤ hi1)
    (hc : 1 / 2 ^ 22 ≤ c) (hhi : hi + c + 1 / 2 ^ 22 ≤ hi1) (hlo : -8 < lo1) (h8 : hi + c < 8)
    (hl : lo1 ≤ hi) :
    lo1 ≤ (if g ≥ hi then hi else binary32.round (g + c))
    ∧ (if g ≥ hi then hi else binary32.round (g + c)) ≤ hi1 := by
  have hp : (0 : ℚ) < 1 / 2 ^ 22 := by positivity
  split_ifs with h
  · constructor <;> linarith
  · have hx : |g + c| < 8 := by
      rw [abs_lt]; constructor <;> linarith
    have hn := abs_le.mp (binary32_round_near (g + c) hx)
    constructor <;> linarith [hn.1, hn.2]

/-- One decrease statement in `float` arithmetic keeps a widened range. -/
theorem f32_step_down (g c lo lo1 hi1 : ℚ) (_h1 : lo1 ≤ g) (h2 : g ≤ hi1)
    (hc : 1 / 2 ^ 22 ≤ c) (hlo : lo1 ≤ lo - c - 1 / 2 ^ 22) (hlo8 : -8 < lo - c) (h8 : hi1 < 8)
    (hl : lo ≤ hi1) :
    lo1 ≤ (if g ≤ lo then lo else binary32.round (g - c))
    ∧ (if g ≤ lo then lo else binary32.round (g - c)) ≤ hi1 := by
  have hp : (0 : ℚ) < 1 / 2 ^ 22 := by positivity
  split_ifs with h
  · constructor <;> linarith
  · have hx : |g - c| < 8 := by
      rw [abs_lt]; constructor <;> linarith
    have hn := abs_le.mp (binary32_round_near (g - c) hx)
    constructor <;> linarith [hn.1, hn.2]

theorem hdr_gammaAfterEqualIn_near (keys : Key → Bool) (g : ℚ)
    (h : 1 - 1 / 100 - 1 / 1000000 ≤ g ∧ g ≤ 4 + 1 / 100 + 1 / 1000000) :
    1 - 1 / 100 - 1 / 1000000 ≤ HDR.gammaAfterEqualIn Arith.ieee keys g
    ∧ HDR.gammaAfterEqualIn Arith.ieee keys g ≤ 4 + 1 / 100 + 1 / 1000000 := by
  unfold HDR.gammaAfterEqualIn
  simp only [Arith.ieee, binary32_hundredth]
  by_cases hk : keys .EQUAL = true
  · rw [if_pos hk]
    exact f32_step_up g (5368709 / 536870912) 4 _ _ h.1 h.2 (by norm_num) (by norm_num) (by norm_num) (by norm_num)
      (by norm_num)
  · rw [if_neg hk]
    exact h

theorem hdr_gammaAfterMinusIn_near (keys : Key → Bool) (g : ℚ)
    (h : 1 - 1 / 100 - 1 / 1000000 ≤ g ∧ g ≤ 4 + 1 / 100 + 1 / 1000000) :
    1 - 1 / 100 - 1 / 1000000 ≤ HDR.gammaAfterMinusIn Arith.ieee keys g
    ∧ HDR.gammaAfterMinusIn Arith.ieee keys g ≤ 4 + 1 / 100 + 1 / 1000000 := by
  unfold HDR.gammaAfterMinusIn
  simp only [Arith.ieee, binary32_hundredth]
  by_cases hk : keys .MINUS = true
  · rw [if_pos hk]
    exact f32_step_down g (5368709 / 536870912) 1 _ _ h.1 h.2 (by norm_num) (by norm_num) (by norm_num)
      (by norm_num) (by norm_num)
  · rw [if_neg hk]
    exact h

theorem hdr_heightAfterPeriodIn_near (keys : Key → Bool) (x : ℚ)
    (h : 0 - 5 / 10000 - 1 / 1000000 ≤ x ∧ x ≤ 1 + 5 / 10000 + 1 / 1000000) :
    0 - 5 / 10000 - 1 / 1000000 ≤ HDR.heightAfterPeriodIn Arith.ieee keys x
    ∧ HDR.heightAfterPeriodIn Arith.ieee keys x ≤ 1 + 5 / 10000 + 1 / 1000000 := by
  unfold HDR.heightAfterPeriodIn
  simp only [Arith.ieee, binary32_two_thousandth]
  by_cases hk : keys .PERIOD = true
  · rw [if_pos hk]
    exact f32_step_up x (8589935 / 17179869184) 1 _ _ h.1 h.2 (by norm_num) (by norm_num) (by norm_num) (by norm_num)
      (by norm_num)
  · rw [if_neg hk]
    exact h

theorem hdr_heightAfterCommaIn_near (keys : Key → Bool) (x : ℚ)
    (h : 0 - 5 / 10000 - 1 / 1000000 ≤ x ∧ x ≤ 1 + 5 / 10000 + 1 / 1000000) :
    0 - 5 / 10000 - 1 / 1000000 ≤ HDR.heightAfterCommaIn Arith.ieee keys x
    ∧ HDR.heightAfterCommaIn Arith.ieee keys x ≤ 1 + 5 / 10000 + 1 / 1000000 := by
  unfold HDR.heightAfterCommaIn
  simp only [Arith.ieee, binary32_two_thousandth]
  by_cases hk : keys .COMMA = true
  · rw [if_pos hk]
    exact f32_step_down x (8589935 / 17179869184) 0 _ _ h.1 h.2 (by norm_num) (by norm_num) (by norm_num)
      (by norm_num) (by norm_num)
  · rw [if_neg hk]
    exact h

theorem hdr_exposureAfterRightBracketIn_near (keys : Key → Bool) (x : ℚ)
    (h : 0 - 1 / 100 - 1 / 1000000 ≤ x ∧ x ≤ 5 + 1 / 100 + 1 / 1000000) :
    0 - 1 / 100 - 1 / 1000000 ≤ HDR.exposureAfterRightBracketIn Arith.ieee keys x
    ∧ HDR.exposureAfterRightBracketIn Arith.ieee keys x ≤ 5 + 1 / 100 + 1 / 1000000 := by
  unfold HDR.exposureAfterRightBracketIn
  simp only [Arith.ieee, binary32_hundredth]
  by_cases hk : keys .RIGHT_BRACKET = true
  · rw [if_pos hk]
    exact f32_step_up x (5368709 / 536870912) 5 _ _ h.1 h.2 (by norm_num) (by norm_num) (by norm_num) (by norm_num)
      (by norm_num)
  · rw [if_neg hk]
    exact h

theorem hdr_exposureAfterLeftBracketIn_near (keys : Key → Bool) (x : ℚ)
    (h : 0 - 1 / 100 - 1 / 1000000 ≤ x ∧ x ≤ 5 + 1 / 100 + 1 / 1000000) :
    0 - 1 / 100 - 1 / 1000000 ≤ HDR.exposureAfterLeftBracketIn Arith.ieee keys x
    ∧ HDR.exposureAfterLeftBracketIn Arith.ieee keys x ≤ 5 + 1 / 100 + 1 / 1000000 := by
  unfold HDR.exposureAfterLeftBracketIn
  simp only [Arith.ieee, binary32_hundredth]
  by_cases hk : keys .LEFT_BRACKET = true
  · rw [if_pos hk]
    exact f32_step_down x (5368709 / 536870912) 0 _ _ h.1 h.2 (by norm_num) (by norm_num) (by norm_num)
      (by norm_num) (by norm_num)
  · rw [if_neg hk]
    exact h

theorem hdr_processInputIn_tunables (ar : Arith) (keys : Key → Bool) (now : ℚ) (s : HDR.State) :
    (HDR.processInputIn ar keys now s).1.use_gamma
        = HDR.gammaAfterMinusIn ar keys (HDR.gammaAfterEqualIn ar keys s.use_gamma)
    ∧ (HDR.processInputIn ar keys now s).1.height_scale
        = HDR.heightAfterCommaIn ar keys (HDR.heightAfterPeriodIn ar keys s.height_scale)
    ∧ (HDR.processInputIn ar keys now s).1.use_exposure
        = HDR.exposureAfterLeftBracketIn ar keys
            (HDR.exposureAfterRightBracketIn ar keys s.use_exposure) :=
  ⟨rfl, rfl, rfl⟩

theorem hdr_initIn_near :
    HDR.NearRanges (HDR.State.initIn Arith.ieee).use_gamma
      (HDR.State.initIn Arith.ieee).height_scale (HDR.State.initIn Arith.ieee).use_exposure := by
  unfold HDR.NearRanges
  decide!

theorem hdr_processInputIn_near (keys : Key → Bool) (now : ℚ) (s : HDR.State)
    (h : HDR.NearRanges s.use_gamma s.height_scale s.use_exposure) :
    HDR.NearRanges (HDR.processInputIn Arith.ieee keys now s).1.use_gamma
      (HDR.processInputIn Arith.ieee keys now s).1.height_scale
      (HDR.processInputIn Arith.ieee keys now s).1.use_exposure := by
  obtain ⟨hg, hh, he⟩ := h
  obtain ⟨e1, e2, e3⟩ := hdr_processInputIn_tunables Arith.ieee keys now s
  rw [e1, e2, e3]
  exact ⟨hdr_gammaAfterMinusIn_near keys _ (hdr_gammaAfterEqualIn_near keys _ hg),
    hdr_heightAfterCommaIn_near keys _ (hdr_heightAfterPeriodIn_near keys _ hh),
    hdr_exposureAfterLeftBracketIn_near keys _ (hdr_exposureAfterRightBracketIn_near keys _ he)⟩

theorem hdr_inputRunIn_near (calls : List ((Key → Bool) × ℚ)) (s : HDR.State)
    (h : HDR.NearRanges s.use_gamma s.height_scale s.use_exposure) :
    HDR.NearRanges (HDR.inputRunIn Arith.ieee s calls).use_gamma
      (HDR.inputRunIn Arith.ieee s calls).height_scale
      (HDR.inputRunIn Arith.ieee s calls).use_exposure := by
  induction calls generalizing s with
  | nil => exact h
  | cons c cs ih => exact ih _ (hdr_processInputIn_near c.1 c.2 s h)

theorem hdr_inputRunIn_exact (calls : List ((Key → Bool) × ℚ)) :
    HDR.inputRunIn Arith.exact (HDR.State.initIn Arith.exact) calls
      = HDR.inputRun HDR.State.init calls := rfl

/-- C15 (amended): in `HDR.cpp`, in exact arithmetic (the constants and the arithmetic on
the variables exact), after any sequence of `processInput` calls from the initial
values, with any keys down in each call, 1 <= use_gamma <= 4, 0 <= height_scale <= 1
and 0 <= use_exposure <= 5, and in a further call with any keys down the
intermediate values, after the increase statement and before the decrease statement
of each quantity, lie in the same ranges; in the arithmetic of the machine the same
states and intermediate values lie in the ranges widened at either end by one
step and 10^-6: 0.99 - 10^-6 <= use_gamma <= 4.01 + 10^-6,
-0.0005 - 10^-6 <= height_scale <= 1.0005 + 10^-6 and
-0.01 - 10^-6 <= use_exposure <= 5.01 + 10^-6. -/
theorem C15_tunable_ranges (calls : List ((Key → Bool) × ℚ)) (keys : Key → Bool) :
    ((1 ≤ (HDR.inputRunIn Arith.exact (HDR.State.initIn Arith.exact) calls).use_gamma
        ∧ (HDR.inputRunIn Arith.exact (HDR.State.initIn Arith.exact) calls).use_gamma ≤ 4
        ∧ 0 ≤ (HDR.inputRunIn Arith.exact (HDR.State.initIn Arith.exact) calls).height_scale
        ∧ (HDR.inputRunIn Arith.exact (HDR.State.initIn Arith.exact) calls).height_scale ≤ 1
        ∧ 0 ≤ (HDR.inputRunIn Arith.exact (HDR.State.initIn Arith.exact) calls).use_exposure
        ∧ (HDR.inputRunIn Arith.exact (HDR.State.initIn Arith.exact) calls).use_exposure ≤ 5)
      ∧ (1 ≤ HDR.gammaAfterEqualIn Arith.exact keys
              (HDR.inputRunIn Arith.exact (HDR.State.initIn Arith.exact) calls).use_gamma
        ∧ HDR.gammaAfterEqualIn Arith.exact keys
              (HDR.inputRunIn Arith.exact (HDR.State.initIn Arith.exact) calls).use_gamma ≤ 4
        ∧ 0 ≤ HDR.heightAfterPeriodIn Arith.exact keys
              (HDR.inputRunIn Arith.exact (HDR.State.initIn Arith.exact) calls).height_scale
        ∧ HDR.heightAfterPeriodIn Arith.exact keys
              (HDR.inputRunIn Arith.exact (HDR.State.initIn Arith.exact) calls).height_scale ≤ 1
        ∧ 0 ≤ HDR.exposureAfterRightBracketIn Arith.exact keys
              (HDR.inputRunIn Arith.exact (HDR.State.initIn Arith.exact) calls).use_exposure
        ∧ HDR.exposureAfterRightBracketIn Arith.exact keys
              (HDR.inputRunIn Arith.exact (HDR.State.initIn Arith.exact) calls).use_exposure
            ≤ 5))
    ∧ (HDR.NearRanges
          (HDR.inputRunIn Arith.ieee (HDR.State.initIn Arith.ieee) calls).use_gamma
          (HDR.inputRunIn Arith.ieee (HDR.State.initIn Arith.ieee) calls).height_scale
          (HDR.inputRunIn Arith.ieee (HDR.State.initIn Arith.ieee) calls).use_exposure
      ∧ HDR.NearRanges
          (HDR.gammaAfterEqualIn Arith.ieee keys
            (HDR.inputRunIn Arith.ieee (HDR.State.initIn Arith.ieee) calls).use_gamma)
          (HDR.heightAfterPeriodIn Arith.ieee keys
            (HDR.inputRunIn Arith.ieee (HDR.State.initIn Arith.ieee) calls).height_scale)
          (HDR.exposureAfterRightBracketIn Arith.ieee keys
            (HDR.inputRunIn Arith.ieee (HDR.State.initIn Arith.ieee) calls).use_exposure)) := by
  constructor
  · rw [hdr_inputRunIn_exact]
    obtain ⟨hg, hh, he⟩ := hdr_inputRun_onGrid calls _ hdr_init_onGrid
    have b1 := grid_bounds 100 100 400 (by norm_num) _ hg
    have b2 := grid_bounds 2000 0 2000 (by norm_num) _ hh
    have b3 := grid_bounds 100 0 500 (by norm_num) _ he
    have c1 := grid_bounds 100 100 400 (by norm_num) _ (hdr_gammaAfterEqual_grid keys _ hg)
    have c2 := grid_bounds 2000 0 2000 (by norm_num) _ (hdr_heightAfterPeriod_grid keys _ hh)
    have c3 := grid_bounds 100 0 500 (by norm_num) _
      (hdr_exposureAfterRightBracket_grid keys _ he)
    norm_num at b1 b2 b3 c1 c2 c3
    exact ⟨⟨b1.1, b1.2, b2.1, b2.2, b3.1, b3.2⟩, ⟨c1.1, c1.2, c2.1, c2.2, c3.1, c3.2⟩⟩
  · have h := hdr_inputRunIn_near calls _ hdr_initIn_near
    exact ⟨h, hdr_gammaAfterEqualIn_near keys _ h.1, hdr_heightAfterPeriodIn_near keys _ h.2.1,
      hdr_exposureAfterRightBracketIn_near keys _ h.2.2⟩

/-- C15 as stated fails on the program: in the arithmetic of the machine, from the initial
values, 101 `processInput` calls with only GLFW_KEY_LEFT_BRACKET down leave
`use_exposure` at -5368349 / 2^29 (about -0.0099993), below 0; 181 calls with only
GLFW_KEY_EQUAL down leave `use_gamma` at 1051197 / 2^18 (about 4.0099983), above 4; and
200 calls with only GLFW_KEY_COMMA down leave `height_scale` at -975 / 2^33, below 0.
Taking the constants as exact decimals does not help: with the literals exact and
only the operations rounding, the 101 calls leave `use_exposure` below 0 as well. -/
theorem C15_float_accumulation_counterexample :
    ((HDR.inputRunIn Arith.ieee (HDR.State.initIn Arith.ieee)
          (List.replicate 101 (onlyKey .LEFT_BRACKET, 0))).use_exposure = -5368349 / 536870912
      ∧ (HDR.inputRunIn Arith.ieee (HDR.State.initIn Arith.ieee)
          (List.replicate 101 (onlyKey .LEFT_BRACKET, 0))).use_exposure < 0)
    ∧ ((HDR.inputRunIn Arith.ieee (HDR.State.initIn Arith.ieee)
          (List.replicate 181 (onlyKey .EQUAL, 0))).use_gamma = 1051197 / 262144
      ∧ 4 < (HDR.inputRunIn Arith.ieee (HDR.State.initIn Arith.ieee)
          (List.replicate 181 (onlyKey .EQUAL, 0))).use_gamma)
    ∧ ((HDR.inputRunIn Arith.ieee (HDR.State.initIn Arith.ieee)
          (List.replicate 200 (onlyKey .COMMA, 0))).height_scale = -975 / 8589934592
      ∧ (HDR.inputRunIn Arith.ieee (HDR.State.initIn Arith.ieee)
          (List.replicate 200 (onlyKey .COMMA, 0))).height_scale < 0)
    ∧ (HDR.inputRunIn Arith.decimal (HDR.State.initIn Arith.decimal)
          (List.replicate 101 (onlyKey .LEFT_BRACKET, 0))).use_exposure < 0 := by
  decide!

/-! ## C16: the limits are tested before the step -/

theorem hdr_gammaUp_only (s : HDR.State) (now : ℚ) :
    (HDR.processInput (onlyKey .EQUAL) now s).1.use_gamma = (if s.use_gamma ≥ 4 then 4 else s.use_gamma + 1 / 100) := by
  simp [HDR.processInput, HDR.processInputIn, HDR.gammaAfterEqualIn, HDR.gammaAfterMinusIn, HDR.heightAfterPeriodIn,
    HDR.heightAfterCommaIn, HDR.exposureAfterRightBracketIn, HDR.exposureAfterLeftBracketIn, Arith.exact,
    onlyKey]

theorem hdr_gammaDown_only (s : HDR.State) (now : ℚ) :
    (HDR.processInput (onlyKey .MINUS) now s).1.use_gamma = (if s.use_gamma ≤ 1 then 1 else s.use_gamma - 1 / 100) := by
  simp [HDR.processInput, HDR.processInputIn, HDR.gammaAfterEqualIn, HDR.gammaAfterMinusIn, HDR.heightAfterPeriodIn,
    HDR.heightAfterCommaIn, HDR.exposureAfterRightBracketIn, HDR.exposureAfterLeftBracketIn, Arith.exact,
    onlyKey]

theorem hdr_heightUp_only (s : HDR.State) (now : ℚ) :
    (HDR.processInput (onlyKey .PERIOD) now s).1.height_scale = (if s.height_scale ≥ 1 then 1 else s.height_scale + 5 / 10000) := by
  simp [HDR.processInput, HDR.processInputIn, HDR.gammaAfterEqualIn, HDR.gammaAfterMinusIn, HDR.heightAfterPeriodIn,
    HDR.heightAfterCommaIn, HDR.exposureAfterRightBracketIn, HDR.exposureAfterLeftBracketIn, Arith.exact,
    onlyKey]

theorem hdr_heightDown_only (s : HDR.State) (now : ℚ) :
    (HDR.processInput (onlyKey .COMMA) now s).1.height_scale = (if s.height_scale ≤ 0 then 0 else s.height_scale - 5 / 10000) := by
  simp [HDR.processInput, HDR.processInputIn, HDR.gammaAfterEqualIn, HDR.gammaAfterMinusIn, HDR.heightAfterPeriodIn,
    HDR.heightAfterCommaIn, HDR.exposureAfterRightBracketIn, HDR.exposureAfterLeftBracketIn, Arith.exact,
    onlyKey]

theorem hdr_exposureUp_only (s : HDR.State) (now : ℚ) :
    (HDR.processInput (onlyKey .RIGHT_BRACKET) now s).1.use_exposure = (if s.use_exposure ≥ 5 then 5 else s.use_exposure + 1 / 100) := by
  simp [HDR.processInput, HDR.processInputIn, HDR.gammaAfterEqualIn, HDR.gammaAfterMinusIn, HDR.heightAfterPeriodIn,
    HDR.heightAfterCommaIn, HDR.exposureAfterRightBracketIn, HDR.exposureAfterLeftBracketIn, Arith.exact,
    onlyKey]

theorem hdr_exposureDown_only (s : HDR.State) (now : ℚ) :
    (HDR.processInput (onlyKey .LEFT_BRACKET) now s).1.use_exposure = (if s.use_exposure ≤ 0 then 0 else s.use_exposure - 1 / 100) := by
  simp [HDR.processInput, HDR.processInputIn, HDR.gammaAfterEqualIn, HDR.gammaAfterMinusIn, HDR.heightAfterPeriodIn,
    HDR.heightAfterCommaIn, HDR.exposureAfterRightBracketIn, HDR.exposureAfterLeftBracketIn, Arith.exact,
    onlyKey]

theorem hdr_gammaUp_onlyIn (ar : Arith) (s : HDR.State) (now : ℚ) :
    (HDR.processInputIn ar (onlyKey .EQUAL) now s).1.use_gamma
      = (if s.use_gamma ≥ 4 then 4 else ar.f32 (s.use_gamma + ar.lit32 (1 / 100))) := by
  simp [HDR.processInputIn, HDR.gammaAfterEqualIn, HDR.gammaAfterMinusIn, onlyKey]

theorem hdr_gammaDown_onlyIn (ar : Arith) (s : HDR.State) (now : ℚ) :
    (HDR.processInputIn ar (onlyKey .MINUS) now s).1.use_gamma
      = (if s.use_gamma ≤ 1 then 1 else ar.f32 (s.use_gamma - ar.lit32 (1 / 100))) := by
  simp [HDR.processInputIn, HDR.gammaAfterEqualIn, HDR.gammaAfterMinusIn, onlyKey]

theorem hdr_heightUp_onlyIn (ar : Arith) (s : HDR.State) (now : ℚ) :
    (HDR.processInputIn ar (onlyKey .PERIOD) now s).1.height_scale
      = (if s.height_scale ≥ 1 then 1 else ar.f32 (s.height_scale + ar.lit32 (5 / 10000))) := by
  simp [HDR.processInputIn, HDR.heightAfterPeriodIn, HDR.heightAfterCommaIn, onlyKey]

theorem hdr_heightDown_onlyIn (ar : Arith) (s : HDR.State) (now : ℚ) :
    (HDR.processInputIn ar (onlyKey .COMMA) now s).1.height_scale
      = (if s.height_scale ≤ 0 then 0 else ar.f32 (s.height_scale - ar.lit32 (5 / 10000))) := by
  simp [HDR.processInputIn, HDR.heightAfterPeriodIn, HDR.heightAfterCommaIn, onlyKey]

theorem hdr_exposureUp_onlyIn (ar : Arith) (s : HDR.State) (now : ℚ) :
    (HDR.processInputIn ar (onlyKey .RIGHT_BRACKET) now s).1.use_exposure
      = (if s.use_exposure ≥ 5 then 5 else ar.f32 (s.use_exposure + ar.lit32 (1 / 100))) := by
  simp [HDR.processInputIn, HDR.exposureAfterRightBracketIn, HDR.exposureAfterLeftBracketIn,
    onlyKey]

theorem hdr_exposureDown_onlyIn (ar : Arith) (s : HDR.State) (now : ℚ) :
    (HDR.processInputIn ar (onlyKey .LEFT_BRACKET) now s).1.use_exposure
      = (if s.use_exposure ≤ 0 then 0 else ar.f32 (s.use_exposure - ar.lit32 (1 / 100))) := by
  simp [HDR.processInputIn, HDR.exposureAfterRightBracketIn, HDR.exposureAfterLeftBracketIn,
    onlyKey]

theorem hdr_processInputIn_exact (keys : Key → Bool) (now : ℚ) (s : HDR.State) :
    HDR.processInputIn Arith.exact keys now s = HDR.processInput keys now s := rfl

/-- C16 (amended): in `HDR.cpp` the limits are tested before the step is applied: for every
value g of `use_gamma` a `processInput` call with only GLFW_KEY_EQUAL down yields 4
when g >= 4 and, when g < 4, the `float` sum of g and `0.01f`; in exact arithmetic
that sum is g + 0.01, so for g <= 4 the result is below 4.01 and for 3.99 < g < 4 it is
above the limit 4.  Symmetrically for GLFW_KEY_MINUS and the limit 1, for
`height_scale` (PERIOD and COMMA, step 0.0005, limits 1 and 0) and for `use_exposure`
(RIGHT_BRACKET and LEFT_BRACKET, step 0.01, limits 5 and 0). -/
theorem C16_limit_before_step (s : HDR.State) (now : ℚ) :
    (((HDR.processInputIn Arith.ieee (onlyKey .EQUAL) now s).1.use_gamma
          = (if s.use_gamma ≥ 4 then 4
             else binary32.round (s.use_gamma + binary32.round (1 / 100)))
      ∧ (HDR.processInputIn Arith.ieee (onlyKey .MINUS) now s).1.use_gamma
          = (if s.use_gamma ≤ 1 then 1
             else binary32.round (s.use_gamma - binary32.round (1 / 100)))
      ∧ (HDR.processInputIn Arith.ieee (onlyKey .PERIOD) now s).1.height_scale
          = (if s.height_scale ≥ 1 then 1
             else binary32.round (s.height_scale + binary32.round (5 / 10000)))
      ∧ (HDR.processInputIn Arith.ieee (onlyKey .COMMA) now s).1.height_scale
          = (if s.height_scale ≤ 0 then 0
             else binary32.round (s.height_scale - binary32.round (5 / 10000)))
      ∧ (HDR.processInputIn Arith.ieee (onlyKey .RIGHT_BRACKET) now s).1.use_exposure
          = (if s.use_exposure ≥ 5 then 5
             else binary32.round (s.use_exposure + binary32.round (1 / 100)))
      ∧ (HDR.processInputIn Arith.ieee (onlyKey .LEFT_BRACKET) now s).1.use_exposure
          = (if s.use_exposure ≤ 0 then 0
             else binary32.round (s.use_exposure - binary32.round (1 / 100)))))
    ∧
    ((HDR.processInputIn Arith.exact (onlyKey .EQUAL) now s).1.use_gamma
          = (if s.use_gamma ≥ 4 then 4 else s.use_gamma + 1 / 100)
      ∧ (s.use_gamma ≤ 4 →
          (HDR.processInputIn Arith.exact (onlyKey .EQUAL) now s).1.use_gamma < 4 + 1 / 100)
      ∧ (4 - 1 / 100 < s.use_gamma → s.use_gamma < 4 →
          4 < (HDR.processInputIn Arith.exact (onlyKey .EQUAL) now s).1.use_gamma))
    ∧
    ((HDR.processInputIn Arith.exact (onlyKey .MINUS) now s).1.use_gamma
          = (if s.use_gamma ≤ 1 then 1 else s.use_gamma - 1 / 100)
      ∧ (1 ≤ s.use_gamma →
          1 - 1 / 100 < (HDR.processInputIn Arith.exact (onlyKey .MINUS) now s).1.use_gamma)
      ∧ (1 < s.use_gamma → s.use_gamma < 1 + 1 / 100 →
          (HDR.processInputIn Arith.exact (onlyKey .MINUS) now s).1.use_gamma < 1))
    ∧
    ((HDR.processInputIn Arith.exact (onlyKey .PERIOD) now s).1.height_scale
          = (if s.height_scale ≥ 1 then 1 else s.height_scale + 5 / 10000)
      ∧ (s.height_scale ≤ 1 →
          (HDR.processInputIn Arith.exact (onlyKey .PERIOD) now s).1.height_scale
            < 1 + 5 / 10000)
      ∧ (1 - 5 / 10000 < s.height_scale → s.height_scale < 1 →
          1 < (HDR.processInputIn Arith.exact (onlyKey .PERIOD) now s).1.height_scale))
    ∧
    ((HDR.processInputIn Arith.exact (onlyKey .COMMA) now s).1.height_scale
          = (if s.height_scale ≤ 0 then 0 else s.height_scale - 5 / 10000)
      ∧ (0 ≤ s.height_scale →
          0 - 5 / 10000
            < (HDR.processInputIn Arith.exact (onlyKey .COMMA) now s).1.height_scale)
      ∧ (0 < s.height_scale → s.height_scale < 0 + 5 / 10000 →
          (HDR.processInputIn Arith.exact (onlyKey .COMMA) now s).1.height_scale < 0))
    ∧
    ((HDR.processInputIn Arith.exact (onlyKey .RIGHT_BRACKET) now s).1.use_exposure
          = (if s.use_exposure ≥ 5 then 5 else s.use_exposure + 1 / 100)
      ∧ (s.use_exposure ≤ 5 →
          (HDR.processInputIn Arith.exact (onlyKey .RIGHT_BRACKET) now s).1.use_exposure
            < 5 + 1 / 100)
      ∧ (5 - 1 / 100 < s.use_exposure → s.use_exposure < 5 →
          5 < (HDR.processInputIn Arith.exact (onlyKey .RIGHT_BRACKET) now s).1.use_exposure))
    ∧
    ((HDR.processInputIn Arith.exact (onlyKey .LEFT_BRACKET) now s).1.use_exposure
          = (if s.use_exposure ≤ 0 then 0 else s.use_exposure - 1 / 100)
      ∧ (0 ≤ s.use_exposure →
          0 - 1 / 100
            < (HDR.processInputIn Arith.exact (onlyKey .LEFT_BRACKET) now s).1.use_exposure)
      ∧ (0 < s.use_exposure → s.use_exposure < 0 + 1 / 100 →
          (HDR.processInputIn Arith.exact (onlyKey .LEFT_BRACKET) now s).1.use_exposure < 0)) := by
  simp only [hdr_processInputIn_exact]
  refine ⟨⟨hdr_gammaUp_onlyIn _ s now, hdr_gammaDown_onlyIn _ s now, hdr_heightUp_onlyIn _ s now,
      hdr_heightDown_onlyIn _ s now, hdr_exposureUp_onlyIn _ s now,
      hdr_exposureDown_onlyIn _ s now⟩,
    ⟨hdr_gammaUp_only s now, ?_, ?_⟩, ⟨hdr_gammaDown_only s now, ?_, ?_⟩,
    ⟨hdr_heightUp_only s now, ?_, ?_⟩, ⟨hdr_heightDown_only s now, ?_, ?_⟩,
    ⟨hdr_exposureUp_only s now, ?_, ?_⟩, ⟨hdr_exposureDown_only s now, ?_, ?_⟩⟩
  · intro h; rw [hdr_gammaUp_only]; split_ifs <;> linarith
  · intro h1 h2; rw [hdr_gammaUp_only]; split_ifs <;> linarith
  · intro h; rw [hdr_gammaDown_only]; split_ifs <;> linarith
  · intro h1 h2; rw [hdr_gammaDown_only]; split_ifs <;> linarith
  · intro h; rw [hdr_heightUp_only]; split_ifs <;> linarith
  · intro h1 h2; rw [hdr_heightUp_only]; split_ifs <;> linarith
  · intro h; rw [hdr_heightDown_only]; split_ifs <;> linarith
  · intro h1 h2; rw [hdr_heightDown_only]; split_ifs <;> linarith
  · intro h; rw [hdr_exposureUp_only]; split_ifs <;> linarith
  · intro h1 h2; rw [hdr_exposureUp_only]; split_ifs <;> linarith
  · intro h; rw [hdr_exposureDown_only]; split_ifs <;> linarith
  · intro h1 h2; rw [hdr_exposureDown_only]; split_ifs <;> linarith

/-- C16 (amended) at samples: in exact arithmetic, from `use_gamma = 3.995` a call with
only GLFW_KEY_EQUAL down yields a value above the limit 4, and from `use_gamma = 4` a
value below 4.01; in the arithmetic of the machine, from the `float` 16735273 / 2^22
the call yields the `float` sum of it and `0.01f`. -/
theorem C16_limit_before_step_witness :
    4 < (HDR.processInputIn Arith.exact (onlyKey .EQUAL) 1
          { HDR.State.init with use_gamma := 3995 / 1000 }).1.use_gamma
    ∧ (HDR.processInputIn Arith.exact (onlyKey .EQUAL) 1
          { HDR.State.init with use_gamma := 4 }).1.use_gamma < 4 + 1 / 100
    ∧ (HDR.processInputIn Arith.ieee (onlyKey .EQUAL) 1
          { HDR.State.init with use_gamma := 16735273 / 4194304 }).1.use_gamma
        = binary32.round (16735273 / 4194304 + binary32.round (1 / 100)) :=
  ⟨(C16_limit_before_step { HDR.State.init with use_gamma := 3995 / 1000 } 1).2.1.2.2
      (by norm_num) (by norm_num),
   (C16_limit_before_step { HDR.State.init with use_gamma := 4 } 1).2.1.2.1 (le_refl _),
   ((C16_limit_before_step { HDR.State.init with use_gamma := 16735273 / 4194304 } 1).1.1).trans
      (by decide!)⟩

/-- C16 as stated fails on the program: in the arithmetic of the machine, `use_gamma` =
16735273 / 2^22 is a `float` with 3.99 < g < 4, and a `processInput` call with only
GLFW_KEY_EQUAL down yields exactly 4, which is neither g + 0.01 nor greater than the
limit 4; `height_scale` = 4192207 / 2^22 is a `float` with 0.9995 < h < 1 and the call
with only GLFW_KEY_PERIOD down yields exactly 1, not more; `use_gamma` =
4236247 / 2^22 is a `float` with 1 < g < 1.01 and the call with only GLFW_KEY_MINUS
down yields exactly 1, not less. -/
theorem C16_float_step_counterexample :
    (binary32.round (16735273 / 4194304) = 16735273 / 4194304
      ∧ (4 - 1 / 100 < (16735273 / 4194304 : ℚ) ∧ (16735273 / 4194304 : ℚ) < 4)
      ∧ (HDR.processInputIn Arith.ieee (onlyKey .EQUAL) 0
            { HDR.State.initIn Arith.ieee with use_gamma := 16735273 / 4194304 }).1.use_gamma = 4
      ∧ (HDR.processInputIn Arith.ieee (onlyKey .EQUAL) 0
            { HDR.State.initIn Arith.ieee with use_gamma := 16735273 / 4194304 }).1.use_gamma
          ≠ 16735273 / 4194304 + 1 / 100
      ∧ ¬ (4 < (HDR.processInputIn Arith.ieee (onlyKey .EQUAL) 0
            { HDR.State.initIn Arith.ieee with use_gamma := 16735273 / 4194304 }).1.use_gamma))
    ∧ (binary32.round (4192207 / 4194304) = 4192207 / 4194304
      ∧ (1 - 5 / 10000 < (4192207 / 4194304 : ℚ) ∧ (4192207 / 4194304 : ℚ) < 1)
      ∧ (HDR.processInputIn Arith.ieee (onlyKey .PERIOD) 0
            { HDR.State.initIn Arith.ieee with height_scale := 4192207 / 4194304 }).1.height_scale
          = 1
      ∧ ¬ (1 < (HDR.processInputIn Arith.ieee (onlyKey .PERIOD) 0
            { HDR.State.initIn Arith.ieee with
                height_scale := 4192207 / 4194304 }).1.height_scale))
    ∧ (binary32.round (4236247 / 4194304) = 4236247 / 4194304
      ∧ (1 < (4236247 / 4194304 : ℚ) ∧ (4236247 / 4194304 : ℚ) < 1 + 1 / 100)
      ∧ (HDR.processInputIn Arith.ieee (onlyKey .MINUS) 0
            { HDR.State.initIn Arith.ieee with use_gamma := 4236247 / 4194304 }).1.use_gamma = 1
      ∧ ¬ ((HDR.processInputIn Arith.ieee (onlyKey .MINUS) 0
            { HDR.State.initIn Arith.ieee with use_gamma := 4236247 / 4194304 }).1.use_gamma
          < 1)) := by
  decide!

/-! ## C17: the divisions of showFPS -/

theorem callsSinceUpdate_pos (h : List (ℚ × List Ev)) (hne : h ≠ []) :
    1 ≤ callsSinceUpdate h := by
  unfold callsSinceUpdate
  have hr : h.reverse ≠ [] := by simpa using hne
  cases hrev : h.reverse with
  | nil => exact absurd hrev hr
  | cons c older =>
    obtain ⟨t, out⟩ := c
    simp only [callsSinceUpdateRev]
    split_ifs <;> omega

theorem fpsHistory_length (step : ℚ → FPSStatics → FPSStatics × List Ev) (st : FPSStatics)
    (ts : List ℚ) : (fpsHistory step st ts).length = ts.length := by
  induction ts generalizing st with
  | nil => rfl
  | cons t ts ih => simp [fpsHistory, ih]

theorem showFPSCommon_divisionContract (A : String) : DivisionContract (showFPSCommon A) := by
  intro env ts now title h
  obtain ⟨hc, _, _, _⟩ := showFPSCommon_invariant A env ts
  by_cases hgt : now - (fpsState (showFPSCommon A env) FPSStatics.init ts).previousSeconds > 1 / 4
  · have hpos : (0 : ℚ)
        < now - (fpsState (showFPSCommon A env) FPSStatics.init ts).previousSeconds :=
      lt_trans (by norm_num) hgt
    refine ⟨hgt, ?_, ?_⟩
    · intro hne
      have hh : fpsHistory (showFPSCommon A env) FPSStatics.init ts ≠ [] := by
        intro h0
        have := fpsHistory_length (showFPSCommon A env) FPSStatics.init ts
        rw [h0] at this
        exact hne (List.length_eq_zero.mp this.symm)
      have h1 : (1 : ℤ) ≤ (fpsState (showFPSCommon A env) FPSStatics.init ts).frameCount := by
        rw [hc]; exact_mod_cast callsSinceUpdate_pos _ hh
      have h1q : (1 : ℚ) ≤ ((fpsState (showFPSCommon A env) FPSStatics.init ts).frameCount : ℚ) := by
        exact_mod_cast h1
      have hfps : (0 : ℚ)
          < ((fpsState (showFPSCommon A env) FPSStatics.init ts).frameCount : ℚ)
            / (now - (fpsState (showFPSCommon A env) FPSStatics.init ts).previousSeconds) :=
        div_pos (lt_of_lt_of_le (by norm_num) h1q) hpos
      refine ⟨h1, _, hfps, ?_, ?_⟩
      · simp [Dbl.div, hpos.ne']
      · simp [Dbl.div, hfps.ne']
    · intro hnil
      subst hnil
      have hnow : now ≠ 0 := by
        simp only [fpsState, FPSStatics.init, List.foldl_nil, sub_zero] at hpos
        exact hpos.ne'
      refine ⟨rfl, ?_, ?_⟩
      · simp [Dbl.div, fpsState, FPSStatics.init, hnow]
      · simp [Dbl.div]
  · rw [showFPSCommon_skip A env now _ (not_lt.mp hgt)] at h
    simp at h

/-- C17, as the code has it: in each of the three programs, for every sequence of
`showFPS` calls, whenever a call updates the title the elapsed time it divides by is
greater than 0.25; if the call is not the first `showFPS` call of the program, the
frame count is at least 1 and fps is non-zero in `1000.0 / fps`; if it is the first
call, the frame count is 0, fps is 0 and `1000.0 / fps` divides by zero (giving
infinity). -/
theorem C17_showFPS_division :
    DivisionContract HDR.showFPS ∧ DivisionContract StencilTest.showFPS
    ∧ DivisionContract VisualNormal.showFPS :=
  ⟨hdr_showFPS_common ▸ showFPSCommon_divisionContract _,
   stencil_showFPS_common ▸ showFPSCommon_divisionContract _,
   visual_showFPS_common ▸ showFPSCommon_divisionContract _⟩

/-- C17 at a sample: in `HDR.cpp`, after calls at times 0.1 and 0.2 the call at time 0.5
updates the title with elapsed time above 0.25 and frame count 2. -/
theorem C17_showFPS_division_witness :
    (1 : ℚ) / 2 - (fpsState (HDR.showFPS sampleEnv) FPSStatics.init [1 / 10, 2 / 10]).previousSeconds
        > 1 / 4
    ∧ 1 ≤ (fpsState (HDR.showFPS sampleEnv) FPSStatics.init [1 / 10, 2 / 10]).frameCount := by
  have h := C17_showFPS_division.1 sampleEnv [1 / 10, 2 / 10] (1 / 2)
    "Advanced Lighting -- HDR    FPS: 4.000    Frame Time: 250.000 (ms)"
    (by rw [hdr_showFPS_sample_state, hdr_showFPS_sample_call]; exact List.mem_singleton.mpr rfl)
  exact ⟨h.1, (h.2.1 (by simp)).1⟩

/-- C17 as stated fails: when the first `showFPS` call of `HDR.cpp` comes at time 1, it
updates the title with frame count 0: fps is 0 and `1000.0 / fps` divides by zero. -/
theorem C17_division_by_zero_counterexample :
    (HDR.showFPS sampleEnv 1 (fpsState (HDR.showFPS sampleEnv) FPSStatics.init [])).2
        = [ Ev.glfwSetWindowTitle "Advanced Lighting -- HDR    FPS: 0.000    Frame Time: inf (ms)" ]
    ∧ (fpsState (HDR.showFPS sampleEnv) FPSStatics.init []).frameCount = 0
    ∧ Dbl.div (.fin (fpsState (HDR.showFPS sampleEnv) FPSStatics.init []).frameCount)
          (.fin (1 - (fpsState (HDR.showFPS sampleEnv) FPSStatics.init []).previousSeconds))
        = .fin 0
    ∧ Dbl.div (.fin 1000) (.fin 0) = .inf false := by
  refine ⟨hdr_showFPS_first_call, rfl, ?_, ?_⟩
  · simp [Dbl.div, fpsState, FPSStatics.init]
  · simp [Dbl.div]

/-! ## C19: where uProjection is set -/

theorem filter_isProjection_inert (t : List Ev) (h : ∀ e ∈ t, e.isInert = true) :
    t.filter Ev.isProjection = [] := by
  rw [List.filter_eq_nil_iff]
  intro e he
  have hi := h e he
  cases e <;> first | (simp [Ev.isProjection]; done) | exact absurd hi Bool.false_ne_true

theorem hdr_frame_projection (env : Env) (fb : HDR.FrameBuffer) (s : HDR.State) (f : FrameIn) :
    (HDR.frame env fb s f).2.filter Ev.isProjection
      = [ Ev.setUniform .objectShader "uProjection"
            (.perspective (HDR.processInput f.keys f.time2 s).1.camera HDR.aspect (1 / 10) 100) ] := by
  have h1 := filter_isProjection_inert _ (hdr_showFPS_inert env f.time1 s.fps)
  have h2 := filter_isProjection_inert _ (hdr_processInput_inert f.keys f.time2
    { s with fps := (HDR.showFPS env f.time1 s.fps).1 })
  have h3 := filter_isProjection_inert _ (hdr_pollEvents_inert f.events
    (HDR.processInput f.keys f.time2 { s with fps := (HDR.showFPS env f.time1 s.fps).1 }).1)
  simp only [HDR.frame, List.filter_append, h1, h2, h3]
  simp [HDR.scenePass, HDR.tonemapPass, HDR.FrameBuffer.Bind, HDR.FrameBuffer.Unbind,
    Ev.isProjection]
  rfl

theorem stencil_frame_projection (env : Env) (s : StencilTest.State) (f : FrameIn) :
    (StencilTest.frame env s f).2.filter Ev.isProjection
      = [ Ev.setUniform .objectShader "uProjection"
            (.perspective
              (StencilTest.processInput f.keys
                { s with deltaTime := f.time1 - s.lastFrame, lastFrame := f.time1 }).1.camera
              StencilTest.width_height_ratio (1 / 10) 100),
          Ev.setUniform .borderShader "uProjection"
            (.perspective
              (StencilTest.processInput f.keys
                { s with deltaTime := f.time1 - s.lastFrame, lastFrame := f.time1 }).1.camera
              StencilTest.width_height_ratio (1 / 10) 100) ] := by
  have h1 := filter_isProjection_inert _ (stencil_showFPS_inert env f.time2 s.fps)
  have h2 := filter_isProjection_inert _ (stencil_processInput_inert f.keys
    { s with deltaTime := f.time1 - s.lastFrame, lastFrame := f.time1,
             fps := (StencilTest.showFPS env f.time2 s.fps).1 })
  have h3 := filter_isProjection_inert _ (stencil_pollEvents_inert f.events
    (StencilTest.processInput f.keys
      { s with deltaTime := f.time1 - s.lastFrame, lastFrame := f.time1,
               fps := (StencilTest.showFPS env f.time2 s.fps).1 }).1)
  simp only [StencilTest.frame, List.filter_append, h1, h2, h3]
  simp [StencilTest.render, StencilTest.drawCountryHouse, StencilTest.drawNanosuit,
    StencilTest.drawBorder, Ev.isProjection]
  rfl

theorem visual_frame_projection (env : Env) (s : VisualNormal.State) (f : FrameIn) :
    (VisualNormal.frame env s f).2.filter Ev.isProjection = [] := by
  have h1 := filter_isProjection_inert _ (visual_showFPS_inert env f.time2 s.fps)
  have h2 := filter_isProjection_inert _ (visual_processInput_inert f.keys
    { s with deltaTime := f.time1 - s.lastFrame, lastFrame := f.time1,
             fps := (VisualNormal.showFPS env f.time2 s.fps).1 })
  have h3 := filter_isProjection_inert _ (visual_pollEvents_inert f.events
    (VisualNormal.processInput f.keys
      { s with deltaTime := f.time1 - s.lastFrame, lastFrame := f.time1,
               fps := (VisualNormal.showFPS env f.time2 s.fps).1 }).1)
  simp only [VisualNormal.frame, List.filter_append, h1, h2, h3]
  simp [VisualNormal.render, Ev.isProjection]

theorem visual_main_running (env : Env) (inputs : List FrameIn) (i : Nat) (tr : List Ev)
    (h : (VisualNormal.main env inputs).frames[i]? = some tr) :
    (VisualNormal.initOpenGL env).1 = true ∧ env.shaderOk .objectShader = true
      ∧ env.shaderOk .normalVisualShader = true := by
  cases h0 : (VisualNormal.initOpenGL env).1 <;> cases h1 : env.shaderOk .objectShader <;>
    cases h2 : env.shaderOk .normalVisualShader <;>
    simp [VisualNormal.main, Shader.load, h0, h1, h2] at h ⊢

theorem visual_main_startup (env : Env) (inputs : List FrameIn)
    (h0 : (VisualNormal.initOpenGL env).1 = true) (h1 : env.shaderOk .objectShader = true)
    (h2 : env.shaderOk .normalVisualShader = true) :
    (VisualNormal.main env inputs).startup
      = (VisualNormal.initOpenGL env).2
        ++ (VisualNormal.loadModels
            ++ [ Ev.shaderLoad .objectShader [ "shaders/demo.vert", "shaders/demo.frag" ],
                 Ev.shaderLoad .normalVisualShader
                   [ "shaders/visualnormal.vert", "shaders/visualnormal.frag",
                     "shaders/visualnormal.geom" ] ]
            ++ VisualNormal.lightConfig
            ++ VisualNormal.projectionConfig VisualNormal.State.init) := by
  simp [VisualNormal.main, Shader.load, h0, h1, h2]

theorem visual_init_projection (env : Env) :
    (VisualNormal.initOpenGL env).2.filter Ev.isProjection = [] := by
  cases h1 : env.glfwInitOk <;> cases h2 : env.createWindowOk <;> cases h3 : env.gladOk <;>
    cases h4 : env.apple <;>
    simp [VisualNormal.initOpenGL, Ev.isProjection, h1, h2, h3, h4]

theorem visual_startup_projection (env : Env) (inputs : List FrameIn) (i : Nat) (tr : List Ev)
    (h : (VisualNormal.main env inputs).frames[i]? = some tr) :
    (VisualNormal.main env inputs).startup.filter Ev.isProjection
      = [ Ev.setUniform .objectShader "uProjection" VisualNormal.initialProjection,
          Ev.setUniform .normalVisualShader "uProjection" VisualNormal.initialProjection ] := by
  obtain ⟨h0, h1, h2⟩ := visual_main_running env inputs i tr h
  rw [visual_main_startup env inputs h0 h1 h2, List.filter_append, visual_init_projection]
  simp [VisualNormal.loadModels, VisualNormal.lightConfig, VisualNormal.projectionConfig,
    Ev.isProjection, VisualNormal.initialProjection]

theorem visual_frame_gl (env : Env) (dx : DrawFx) (g : GLState) (s : VisualNormal.State)
    (f : FrameIn) :
    ∃ s2 : VisualNormal.State,
      glDraws dx g (VisualNormal.frame env s f).2 = glDraws dx g (VisualNormal.render s2)
      ∧ glExec dx g (VisualNormal.frame env s f).2 = glExec dx g (VisualNormal.render s2) := by
  have h1 := visual_showFPS_inert env f.time2 s.fps
  have h2 := visual_processInput_inert f.keys
    { s with deltaTime := f.time1 - s.lastFrame, lastFrame := f.time1,
             fps := (VisualNormal.showFPS env f.time2 s.fps).1 }
  have h3 := visual_pollEvents_inert f.events
    (VisualNormal.processInput f.keys
      { s with deltaTime := f.time1 - s.lastFrame, lastFrame := f.time1,
               fps := (VisualNormal.showFPS env f.time2 s.fps).1 }).1
  refine ⟨(VisualNormal.processInput f.keys
      { s with deltaTime := f.time1 - s.lastFrame, lastFrame := f.time1,
               fps := (VisualNormal.showFPS env f.time2 s.fps).1 }).1, ?_, ?_⟩
  · simp only [VisualNormal.frame, glDraws_append, glExec_append, glExec_inert dx _ _ h1,
      glDraws_inert dx _ _ h1, glExec_inert dx _ _ h2, glDraws_inert dx _ _ h2,
      glDraws_inert dx _ _ h3]
    simp [glDraws]
  · simp only [VisualNormal.frame, glExec_append, glExec_inert dx _ _ h1,
      glExec_inert dx _ _ h2, glExec_inert dx _ _ h3]
    simp [glExec, glStep]

theorem visual_render_kept (dx : DrawFx) (g : GLState) (s : VisualNormal.State)
    (hg : VisualNormal.ProjectionKept g) :
    VisualNormal.ProjectionKept (glExec dx g (VisualNormal.render s)) := by
  obtain ⟨h1, h2⟩ := hg
  constructor
  · simpa [VisualNormal.render, glExec, glStep] using h1
  · simpa [VisualNormal.render, glExec, glStep] using h2

theorem visual_render_draws (dx : DrawFx) (g : GLState) (s : VisualNormal.State)
    (hg : VisualNormal.ProjectionKept g) :
    ∃ d1 d2 : DrawSnap,
      glDraws dx g (VisualNormal.render s) = [d1, d2]
      ∧ d1.obj = .objectNanosuit ∧ d1.shader = .objectShader
      ∧ d1.gl.uniforms .objectShader "uProjection" = some VisualNormal.initialProjection
      ∧ d2.obj = .objectNanosuit ∧ d2.shader = .normalVisualShader
      ∧ d2.gl.uniforms .normalVisualShader "uProjection" = some VisualNormal.initialProjection := by
  obtain ⟨h1, h2⟩ := hg
  refine ⟨_, _, rfl, rfl, rfl, ?_, rfl, rfl, ?_⟩
  · simpa [glStep] using h1
  · simpa [glStep] using h2

theorem visual_config_kept (dx : DrawFx) (g : GLState) :
    VisualNormal.ProjectionKept
      (glExec dx g (VisualNormal.loadModels
        ++ [ Ev.shaderLoad .objectShader [ "shaders/demo.vert", "shaders/demo.frag" ],
             Ev.shaderLoad .normalVisualShader
               [ "shaders/visualnormal.vert", "shaders/visualnormal.frag",
                 "shaders/visualnormal.geom" ] ]
        ++ VisualNormal.lightConfig
        ++ VisualNormal.projectionConfig VisualNormal.State.init)) := by
  constructor <;>
    simp [VisualNormal.loadModels, VisualNormal.lightConfig, VisualNormal.projectionConfig,
      VisualNormal.initialProjection, glExec, glStep]

theorem visual_frame_start_kept (env : Env) (inputs : List FrameIn) (dx : DrawFx) (g0 : GLState)
    (i : Nat) (tr : List Ev) (h : (VisualNormal.main env inputs).frames[i]? = some tr) :
    VisualNormal.ProjectionKept
      (glExec dx g0 ((VisualNormal.main env inputs).startup
        ++ ((VisualNormal.main env inputs).frames.take i).flatten)) := by
  obtain ⟨h0, h1, h2⟩ := visual_main_running env inputs i tr h
  have hstart : VisualNormal.ProjectionKept (glExec dx g0 (VisualNormal.main env inputs).startup) := by
    rw [visual_main_startup env inputs h0 h1 h2, glExec_append]
    exact visual_config_kept dx _
  have hframes : ∀ tr1 ∈ (VisualNormal.main env inputs).frames.take i, ∀ g1 : GLState,
      VisualNormal.ProjectionKept g1 → VisualNormal.ProjectionKept (glExec dx g1 tr1) := by
    intro tr1 h1 g1 hg1
    obtain ⟨j, hj⟩ := List.mem_iff_getElem?.mp (List.mem_of_mem_take h1)
    obtain ⟨f, _, htr⟩ := visual_main_frame_at env inputs j tr1 hj
    obtain ⟨s2, _, he⟩ := visual_frame_gl env dx g1 (VisualNormal.stateAt env inputs j) f
    rw [htr, he]
    exact visual_render_kept dx g1 s2 hg1
  rw [glExec_append]
  exact glExec_flatten_inv dx VisualNormal.ProjectionKept _ _ hframes hstart

theorem visual_main_sample_frame :
    (VisualNormal.main sampleEnv [sampleFrame, sampleFrame]).frames[1]?
      = some (VisualNormal.frame sampleEnv
          (VisualNormal.stateAt sampleEnv [sampleFrame, sampleFrame] 1) sampleFrame).2 := by
  simp [VisualNormal.main, VisualNormal.initOpenGL, Shader.load, sampleEnv, renderLoop,
    VisualNormal.State.init, VisualNormal.stateAt, loopState, VisualNormal.frame,
    VisualNormal.processInput, VisualNormal.pollEvents, sampleFrame]

/-- C19: in every iteration of the render loop of `HDR.cpp` and of `StencilTest.cpp`, the
`uProjection` uniform is set (on `objectShader`, and on `borderShader` in StencilTest) to
perspective(radians(camera.fov), width / height, 0.1, 100) for the camera as it stands
after the `processInput` call of that iteration; in `VisualNormal.cpp` `uProjection` is set
exactly once on each of its two shaders before the render loop, from the camera as
constructed, it is set in no iteration, and at both draw calls of every iteration,
whatever the inputs of the run, the uniform still holds that initial projection. -/
theorem C19_projection (env : Env) (inputs : List FrameIn) (dx : DrawFx) (g0 : GLState)
    (i : Nat) (tr : List Ev) :
    ((HDR.main env inputs).frames[i]? = some tr →
        ∃ f, inputs[i]? = some f
          ∧ tr.filter Ev.isProjection
            = [ Ev.setUniform .objectShader "uProjection"
                  (.perspective
                    (HDR.processInput f.keys f.time2 (HDR.stateAt env inputs i)).1.camera
                    ((HDR.gWindowWidth : ℚ) / (HDR.gWindowHeight : ℚ)) (1 / 10) 100) ])
    ∧ ((StencilTest.main env inputs).frames[i]? = some tr →
        ∃ f, inputs[i]? = some f
          ∧ tr.filter Ev.isProjection
            = [ Ev.setUniform .objectShader "uProjection"
                  (.perspective
                    (StencilTest.processInput f.keys
                      { StencilTest.stateAt env inputs i with
                        deltaTime := f.time1 - (StencilTest.stateAt env inputs i).lastFrame
                        lastFrame := f.time1 }).1.camera
                    ((StencilTest.gWindowWidth : ℚ) / (StencilTest.gWindowHeight : ℚ))
                    (1 / 10) 100),
                Ev.setUniform .borderShader "uProjection"
                  (.perspective
                    (StencilTest.processInput f.keys
                      { StencilTest.stateAt env inputs i with
                        deltaTime := f.time1 - (StencilTest.stateAt env inputs i).lastFrame
                        lastFrame := f.time1 }).1.camera
                    ((StencilTest.gWindowWidth : ℚ) / (StencilTest.gWindowHeight : ℚ))
                    (1 / 10) 100) ])
    ∧ ((VisualNormal.main env inputs).frames[i]? = some tr →
        (VisualNormal.main env inputs).startup.filter Ev.isProjection
          = [ Ev.setUniform .objectShader "uProjection"
                (.perspective VisualNormal.State.init.camera
                  ((VisualNormal.gWindowWidth : ℚ) / (VisualNormal.gWindowHeight : ℚ)) (1 / 10) 100),
              Ev.setUniform .normalVisualShader "uProjection"
                (.perspective VisualNormal.State.init.camera
                  ((VisualNormal.gWindowWidth : ℚ) / (VisualNormal.gWindowHeight : ℚ)) (1 / 10) 100) ]
        ∧ tr.filter Ev.isProjection = []
        ∧ ∃ d1 d2 : DrawSnap,
            glDraws dx
                (glExec dx g0 ((VisualNormal.main env inputs).startup
                  ++ ((VisualNormal.main env inputs).frames.take i).flatten)) tr = [d1, d2]
            ∧ d1.obj = .objectNanosuit ∧ d1.shader = .objectShader
            ∧ d1.gl.uniforms .objectShader "uProjection"
                = some (.perspective VisualNormal.State.init.camera
                    ((VisualNormal.gWindowWidth : ℚ) / (VisualNormal.gWindowHeight : ℚ)) (1 / 10) 100)
            ∧ d2.obj = .objectNanosuit ∧ d2.shader = .normalVisualShader
            ∧ d2.gl.uniforms .normalVisualShader "uProjection"
                = some (.perspective VisualNormal.State.init.camera
                    ((VisualNormal.gWindowWidth : ℚ) / (VisualNormal.gWindowHeight : ℚ))
                    (1 / 10) 100)) := by
  refine ⟨?_, ?_, ?_⟩
  · intro h
    obtain ⟨f, hf, htr⟩ := hdr_main_frame_at env inputs i tr h
    exact ⟨f, hf, by rw [htr]; exact hdr_frame_projection env _ _ f⟩
  · intro h
    obtain ⟨f, hf, htr⟩ := stencil_main_frame_at env inputs i tr h
    exact ⟨f, hf, by rw [htr]; exact stencil_frame_projection env _ f⟩
  · intro h
    obtain ⟨f, _, htr⟩ := visual_main_frame_at env inputs i tr h
    refine ⟨visual_startup_projection env inputs i tr h,
      by rw [htr]; exact visual_frame_projection env _ f, ?_⟩
    have hkept := visual_frame_start_kept env inputs dx g0 i tr h
    obtain ⟨s2, hd, _⟩ := visual_frame_gl env dx
      (glExec dx g0 ((VisualNormal.main env inputs).startup
        ++ ((VisualNormal.main env inputs).frames.take i).flatten))
      (VisualNormal.stateAt env inputs i) f
    rw [htr, hd]
    exact visual_render_draws dx _ s2 hkept

/-- C19 at a sample run of `VisualNormal.cpp` with two iterations: in the second iteration
`uProjection` is not set, and at both draws it holds the initial projection. -/
theorem C19_projection_witness :
    ∃ (tr : List Ev) (d1 d2 : DrawSnap),
      (VisualNormal.main sampleEnv [sampleFrame, sampleFrame]).frames[1]? = some tr
      ∧ tr.filter Ev.isProjection = []
      ∧ glDraws sampleDraw
          (glExec sampleDraw GLState.initial
            ((VisualNormal.main sampleEnv [sampleFrame, sampleFrame]).startup
              ++ ((VisualNormal.main sampleEnv [sampleFrame, sampleFrame]).frames.take 1).flatten))
          tr = [d1, d2]
      ∧ d1.gl.uniforms .objectShader "uProjection"
          = some (.perspective VisualNormal.State.init.camera
              ((VisualNormal.gWindowWidth : ℚ) / (VisualNormal.gWindowHeight : ℚ)) (1 / 10) 100)
      ∧ d2.gl.uniforms .normalVisualShader "uProjection"
          = some (.perspective VisualNormal.State.init.camera
              ((VisualNormal.gWindowWidth : ℚ) / (VisualNormal.gWindowHeight : ℚ)) (1 / 10) 100) := by
  obtain ⟨_, hf, d1, d2, hd, _, _, h1, _, _, h2⟩ :=
    (C19_projection sampleEnv [sampleFrame, sampleFrame] sampleDraw GLState.initial 1 _).2.2
      visual_main_sample_frame
  exact ⟨_, d1, d2, visual_main_sample_frame, hf, hd, h1, h2⟩


end LearnOpenGL
